import Mathlib

/-!
# OCSP response engine (Security-58286.70.7, OSX/sec/securityd/SecOCSPResponse.c)

A shallow embedding of the temporal-validity computation
(SecOCSPResponseCalculateValidity, SecOCSPSingleResponseCalculateValidity), of
the signer search (SecOCSPResponseCopySigner, SecOCSPResponseIsIssuer), of the
matcher (SecOCSPResponseCopySingleResponse) and of the two constructors
(SecOCSPResponseCreateWithID, SecOCSPSingleResponseCreate), with theorems about
them.

Conventions of the embedding.

* A byte is a natural number, a byte string a list of bytes.
* CFAbsoluteTime and CFTimeInterval are C doubles; a time is embedded as an
  integer (whole seconds relative to the reference date). The temporal-validity
  functions are embedded twice. In SecOCSPResponseCalculateValidity and
  SecOCSPSingleResponseCalculateValidity the times are exact numbers: every sum
  and difference is the exact one. In the definitions with the suffix Double
  every sum and difference is rounded to the nearest double (roundToDouble), as
  the C code computes it. The two embeddings agree whenever the sums and
  differences of a call are doubles, in particular on all times of magnitude
  below 2 ^ 52 (SecOCSPResponseCalculateValidityDouble_eq_exact and
  SecOCSPResponseCalculateValidityDouble_eq_exact_of_lt). Statements about times
  as exact numbers are made of the first embedding; statements about the values
  the code compares with or stores, at any magnitude, of the second.
* A C pointer that the code tests against NULL, or that can be NULL in an
  object the constructor returns, is an Option; none is the NULL pointer.
* A NULL-terminated array is a list.
* A function that mutates its object returns the new object next to its result.
* A run that dereferences a NULL pointer, or reads a byte outside a decoded
  item, has no result (none).
* Memory allocation succeeds.
* The external capabilities (DER decoding by template, DER time decoding,
  certificate parsing, key extraction, digests, signature verification, SCT list
  parsing) are parameters.
-/

namespace SecOCSP

/-! ## Data model -/

/-- A byte string; each element is one byte. -/
abbrev ByteString := List Nat

/-- CFAbsoluteTime (a C double), taken as a whole number of seconds. -/
abbrev CFAbsoluteTime := Int

/-- CFTimeInterval (a C double), taken as a whole number of seconds. -/
abbrev CFTimeInterval := Int

/-- SecAsn1Item: a span of decoded bytes. Data is none for a NULL Data pointer;
Length is the number of bytes at Data. -/
structure SecAsn1Item where
  Data : Option ByteString
deriving DecidableEq, Repr

/-- The bytes at Data (no bytes for a NULL pointer). -/
def SecAsn1Item.bytes (i : SecAsn1Item) : ByteString := i.Data.getD []

/-- The Length member of a SecAsn1Item. -/
def SecAsn1Item.Length (i : SecAsn1Item) : Nat := i.bytes.length

/-- SecAsn1Item holding a decoded BIT STRING (basicResponse.sig): on decode its
Length is in bits, not in bytes. -/
structure SecAsn1BitString where
  Data : ByteString
  Length : Nat
deriving DecidableEq, Repr

/-- SecAsn1AlgId: algorithm OID and parameters. -/
structure SecAsn1AlgId where
  algorithm : SecAsn1Item
  parameters : SecAsn1Item
deriving DecidableEq, Repr

/-- SecAsn1OCSPCertID. -/
structure SecAsn1OCSPCertID where
  algId : SecAsn1AlgId
  issuerNameHash : SecAsn1Item
  issuerPubKeyHash : SecAsn1Item
  serialNumber : SecAsn1Item
deriving DecidableEq, Repr

/-- NSS_CertExtension: extension OID and value. -/
structure NSS_CertExtension where
  extnId : SecAsn1Item
  value : SecAsn1Item
deriving DecidableEq, Repr

/-- SecAsn1OCSPSingleResponse: one decoded SingleResponse record. nextUpdate and
singleExtensions are optional fields (NULL when absent). -/
structure SecAsn1OCSPSingleResponse where
  certID : SecAsn1OCSPCertID
  certStatus : SecAsn1Item
  thisUpdate : SecAsn1Item
  nextUpdate : Option SecAsn1Item
  singleExtensions : Option (List NSS_CertExtension)
deriving DecidableEq, Repr

/-- SecAsn1OCSPResponseData. The responses array is NULL (none) in an object
whose response data was never decoded. -/
structure SecAsn1OCSPResponseData where
  responderID : SecAsn1Item
  producedAt : SecAsn1Item
  responses : Option (List SecAsn1OCSPSingleResponse)
deriving DecidableEq, Repr

/-- SecAsn1OCSPBasicResponse. The certs array is optional. -/
structure SecAsn1OCSPBasicResponse where
  tbsResponseData : SecAsn1Item
  algId : SecAsn1AlgId
  sig : SecAsn1BitString
  certs : Option (List SecAsn1Item)
deriving DecidableEq, Repr

/-- SecAsn1OCSPResponderID: the decoded responder identity, read through byName
or byKey according to responderIdTag. -/
structure SecAsn1OCSPResponderID where
  byName : SecAsn1Item
  byKey : SecAsn1Item
deriving DecidableEq, Repr

/-- The object struct __SecOCSPResponse (the nonce and the decoder arena are
left out: no function embedded here reads them). -/
structure SecOCSPResponse where
  data : ByteString
  responseID : Int
  responseStatus : Nat
  producedAt : CFAbsoluteTime
  latestNextUpdate : CFAbsoluteTime
  expireTime : CFAbsoluteTime
  basicResponse : SecAsn1OCSPBasicResponse
  responseData : SecAsn1OCSPResponseData
  responderIdTag : Nat
  responderID : SecAsn1OCSPResponderID
deriving DecidableEq, Repr

/-! ## Constants -/

/-- Modelled from the spec: the NULL_TIME sentinel of the missing header, the
zero time that doubles as "absent". -/
def NULL_TIME : CFAbsoluteTime := 0

/-- The constant LEEWAY (4500.0 seconds). -/
def LEEWAY : CFTimeInterval := 4500

/-- Modelled from the spec: tag number of the byName choice of ResponderID. -/
def RIT_Name : Nat := 1

/-- Modelled from the spec: tag number of the byKey choice of ResponderID. -/
def RIT_Key : Nat := 2

/-- The status value errSecSuccess. -/
def errSecSuccess : Int := 0

/-- The DER tag number SEC_ASN1_GENERALIZED_TIME. -/
def SEC_ASN1_GENERALIZED_TIME : Nat := 24

/-! ## Time decoding -/

/-- Type of the external SecAbsoluteTimeFromDateContent(type, bytes, length). -/
abbrev DateDecoder := Nat → Option ByteString → Nat → CFAbsoluteTime

/-- The static genTimeToCFAbsTime. -/
def genTimeToCFAbsTime (SecAbsoluteTimeFromDateContent : DateDecoder)
    (datetime : SecAsn1Item) : CFAbsoluteTime :=
  SecAbsoluteTimeFromDateContent SEC_ASN1_GENERALIZED_TIME datetime.Data datetime.Length

/-! ## Temporal validity -/

/-- The for loop of SecOCSPResponseCalculateValidity over the single responses,
started with the current value of latestNextUpdate, with the times as exact
numbers. The result is the value of latestNextUpdate when the loop is left, with
false when it is left through "goto exit" and true when it runs to the end of
the array. -/
def SecOCSPResponseCalculateValidity.loop (dec : DateDecoder) (verifyTime : CFAbsoluteTime) :
    List SecAsn1OCSPSingleResponse → CFAbsoluteTime → Bool × CFAbsoluteTime
  | [], latestNextUpdate => (true, latestNextUpdate)
  | resp :: responses, latestNextUpdate =>
    let thisUpdate := genTimeToCFAbsTime dec resp.thisUpdate
    if thisUpdate > verifyTime + LEEWAY then
      (false, latestNextUpdate)
    else
      match resp.nextUpdate with
      | some nu =>
        let nextUpdate := genTimeToCFAbsTime dec nu
        if nextUpdate > latestNextUpdate then
          SecOCSPResponseCalculateValidity.loop dec verifyTime responses nextUpdate
        else
          SecOCSPResponseCalculateValidity.loop dec verifyTime responses latestNextUpdate
      | none =>
        SecOCSPResponseCalculateValidity.loop dec verifyTime responses latestNextUpdate

/-- SecOCSPResponseCalculateValidity (built without STRICT_RFC5019), with the
times as exact numbers: every sum and difference is the exact one. The result
is the returned boolean with the object after the call; none when the call
dereferences the NULL responses array. -/
def SecOCSPResponseCalculateValidity (dec : DateDecoder) (r : SecOCSPResponse)
    (maxAge defaultTTL : CFTimeInterval) (verifyTime : CFAbsoluteTime) :
    Option (Bool × SecOCSPResponse) :=
  let r0 := { r with latestNextUpdate := NULL_TIME }
  if r0.producedAt > verifyTime + LEEWAY then
    some (false, r0)
  else
    match r0.responseData.responses with
    | none => none
    | some responses =>
      let res := SecOCSPResponseCalculateValidity.loop dec verifyTime responses r0.latestNextUpdate
      let r1 := { r0 with latestNextUpdate := res.2 }
      if res.1 = false then
        some (false, r1)
      else if r1.latestNextUpdate = NULL_TIME then
        some (true, { r1 with expireTime := verifyTime + defaultTTL })
      else if r1.latestNextUpdate < verifyTime - LEEWAY then
        some (false, r1)
      else if maxAge > 0 then
        if maxAge < r1.latestNextUpdate - verifyTime then
          some (true, { r1 with expireTime := verifyTime + maxAge })
        else
          some (true, { r1 with expireTime := r1.latestNextUpdate })
      else
        some (true, { r1 with expireTime := r1.latestNextUpdate })

/-! ## Signer search -/

/-- The external certificate and key capabilities the signer search calls.
SecCertificateCopyPublicKeySHA1Digest is used by the code without a NULL
check, so it is total here. SecKeyDigestAndVerify returns an OSStatus. -/
structure CertificateCapability (Cert Key : Type) where
  SecCertificateCreateWithBytes : ByteString → Option Cert
  SecCertificateCopySubjectSequence : Cert → Option ByteString
  SecCertificateCopyPublicKeySHA1Digest : Cert → ByteString
  SecCertificateCopyPublicKey : Cert → Option Key
  SecKeyDigestAndVerify : Key → SecAsn1AlgId → ByteString → Nat → ByteString → Nat → Int

/-- The C library memcmp on the first n bytes of two buffers: zero exactly when
they agree. The code only tests the result against zero, so every non-zero
result is 1 here. -/
def memcmp (s1 s2 : ByteString) (n : Nat) : Int :=
  if s1.take n = s2.take n then 0 else 1

/-- The static SecOCSPResponseVerifySignature: the signature length is converted
from bits to bytes. -/
def SecOCSPResponseVerifySignature {Cert Key : Type} (caps : CertificateCapability Cert Key)
    (r : SecOCSPResponse) (key : Key) : Bool :=
  caps.SecKeyDigestAndVerify key r.basicResponse.algId
    r.basicResponse.tbsResponseData.bytes r.basicResponse.tbsResponseData.Length
    r.basicResponse.sig.Data (r.basicResponse.sig.Length / 8) == errSecSuccess

/-- The static SecOCSPResponseIsIssuer. -/
def SecOCSPResponseIsIssuer {Cert Key : Type} (caps : CertificateCapability Cert Key)
    (r : SecOCSPResponse) (issuer : Cert) : Bool :=
  let identity : Option Bool :=
    if r.responderIdTag = RIT_Name then
      match caps.SecCertificateCopySubjectSequence issuer with
      | none => none
      | some subject =>
        some (subject.length == r.responderID.byName.Length &&
          memcmp r.responderID.byName.bytes subject r.responderID.byName.Length == 0)
    else
      let pubKeyDigest := caps.SecCertificateCopyPublicKeySHA1Digest issuer
      some (pubKeyDigest.length == r.responderID.byKey.Length &&
        memcmp r.responderID.byKey.bytes pubKeyDigest r.responderID.byKey.Length == 0)
  match identity with
  | none => false
  | some shouldBeSigner =>
    if shouldBeSigner then
      match caps.SecCertificateCopyPublicKey issuer with
      | some key => SecOCSPResponseVerifySignature caps r key
      | none => false
    else
      shouldBeSigner

/-- The for loop of SecOCSPResponseCopySigner over the embedded certificates. -/
def SecOCSPResponseCopySigner.loop {Cert Key : Type} (caps : CertificateCapability Cert Key)
    (r : SecOCSPResponse) : List SecAsn1Item → Option Cert
  | [] => none
  | item :: certs =>
    match caps.SecCertificateCreateWithBytes item.bytes with
    | some cert =>
      if SecOCSPResponseIsIssuer caps r cert then
        some cert
      else
        SecOCSPResponseCopySigner.loop caps r certs
    | none => SecOCSPResponseCopySigner.loop caps r certs

/-- SecOCSPResponseCopySigner: the certificate that signed the response, or none
(NULL). The issuer argument may be NULL. -/
def SecOCSPResponseCopySigner {Cert Key : Type} (caps : CertificateCapability Cert Key)
    (r : SecOCSPResponse) (issuer : Option Cert) : Option Cert :=
  match SecOCSPResponseCopySigner.loop caps r (r.basicResponse.certs.getD []) with
  | some cert => some cert
  | none =>
    match issuer with
    | some i => if SecOCSPResponseIsIssuer caps r i then some i else none
    | none => none

/-! ## Decoded structures of the response envelope and of a single response -/

/-- SecAsn1OCSPResponseBytes: response type OID and the encoded response. -/
structure SecAsn1OCSPResponseBytes where
  responseType : SecAsn1Item
  response : SecAsn1Item
deriving DecidableEq, Repr

/-- SecAsn1OCSPResponse: the decoded outer envelope; responseBytes is optional
(NULL when absent). -/
structure SecAsn1OCSPResponse where
  responseStatus : SecAsn1Item
  responseBytes : Option SecAsn1OCSPResponseBytes
deriving DecidableEq, Repr

/-- SecAsn1OCSPRevokedInfo: revocationReason is optional (NULL when absent). -/
structure SecAsn1OCSPRevokedInfo where
  revocationTime : SecAsn1Item
  revocationReason : Option SecAsn1Item
deriving DecidableEq, Repr

/-- SecAsn1OCSPCertStatus as decoded with the revoked template: revokedInfo may
be NULL. -/
structure SecAsn1OCSPCertStatus where
  revokedInfo : Option SecAsn1OCSPRevokedInfo
deriving DecidableEq, Repr

/-- The array of signed certificate timestamps kept in a single response. -/
abbrev SCTArray := List ByteString

/-- The object struct __SecOCSPSingleResponse; scts is NULL (none) when no SCT
list was parsed. -/
structure SecOCSPSingleResponse where
  certStatus : Nat
  thisUpdate : CFAbsoluteTime
  nextUpdate : CFAbsoluteTime
  revokedTime : CFAbsoluteTime
  crlReason : Int
  scts : Option SCTArray
deriving DecidableEq, Repr

/-- The request struct __SecOCSPRequest as far as the matcher reads it: the
certificate whose status is asked for and its issuer. -/
structure SecOCSPRequest (Cert : Type) where
  certificate : Cert
  issuer : Cert

/-! ## More constants -/

/-- The response status kSecOCSPSuccess (successful, 0). -/
def kSecOCSPSuccess : Nat := 0

/-- The mask SEC_ASN1_TAGNUM_MASK (0x1f), the tag-number bits of a tag byte. -/
def SEC_ASN1_TAGNUM_MASK : Nat := 0x1f

/-- The cert status tag CS_Good (good [0] in the grammar). -/
def CS_Good : Nat := 0

/-- The cert status tag CS_Revoked (revoked [1] in the grammar). -/
def CS_Revoked : Nat := 1

/-- The cert status tag CS_Unknown (unknown [2] in the grammar). -/
def CS_Unknown : Nat := 2

/-- Modelled from the spec: the cert status tag CS_NotParsed of the missing
header, the value a single response holds before its status is parsed. -/
def CS_NotParsed : Nat := 0xff

/-- Modelled from the spec: the reason code kSecRevocationReasonUndetermined of
the missing header, the default "undetermined" reason. -/
def kSecRevocationReasonUndetermined : Int := -1

/-- The OID id-pkix-ocsp-basic (1.3.6.1.5.5.7.48.1.1), OID_PKIX_OCSP_BASIC. -/
def OID_PKIX_OCSP_BASIC : SecAsn1Item := ⟨some [43, 6, 1, 5, 5, 7, 48, 1, 1]⟩

/-- The OID of the SCT list extension of an OCSP single response
(1.3.6.1.4.1.11129.2.4.5), OID_GOOGLE_OCSP_SCT. -/
def OID_GOOGLE_OCSP_SCT : SecAsn1Item := ⟨some [43, 6, 1, 4, 1, 214, 121, 2, 4, 5]⟩

/-! ## External decoders -/

/-- Modelled from the spec: SecAsn1OidCompare is not among the sources. Two OIDs
are the same when they have the same length and the same bytes; a NULL pointer is
the same as a NULL pointer only. -/
def SecAsn1OidCompare (oid1 oid2 : Option SecAsn1Item) : Bool :=
  match oid1, oid2 with
  | some a, some b => a.Length == b.Length && memcmp a.bytes b.bytes a.Length == 0
  | none, none => true
  | _, _ => false

/-- The external decode-by-template facility SecAsn1DecodeData, one field for
each template the code passes, and the external SCT list parser. A decoder
returns none when SecAsn1DecodeData returns an error. The decoder of the outer
envelope returns its status next to the envelope structure as it stands after
the call, because the code goes on with that structure whatever the status. -/
structure DecodeCapability where
  kSecAsn1OCSPResponseTemplate : SecAsn1Item → Int × SecAsn1OCSPResponse
  kSecAsn1OCSPBasicResponseTemplate : SecAsn1Item → Option SecAsn1OCSPBasicResponse
  kSecAsn1OCSPResponseDataTemplate : SecAsn1Item → Option SecAsn1OCSPResponseData
  kSecAsn1OCSPResponderIDAsNameTemplate : SecAsn1Item → Option SecAsn1OCSPResponderID
  kSecAsn1OCSPResponderIDAsKeyTemplate : SecAsn1Item → Option SecAsn1OCSPResponderID
  kSecAsn1OCSPCertStatusRevokedTemplate : SecAsn1Item → Option SecAsn1OCSPCertStatus
  kSecAsn1OctetStringTemplate : SecAsn1Item → Option SecAsn1Item
  SecCreateSignedCertificateTimestampsArrayFromSerializedSCTList :
    Option ByteString → Nat → Option SCTArray

/-! ## Construction of a single response -/

/-- The while loop of SecOCSPSingleResponseCreate over the extensions, started
with the current value of scts: only an extension with the SCT OID is decoded,
and only while scts is still NULL. -/
def SecOCSPSingleResponseCreate.loop (coder : DecodeCapability) :
    List NSS_CertExtension → Option SCTArray → Option SCTArray
  | [], scts => scts
  | extn :: extensions, scts =>
    if SecAsn1OidCompare (some extn.extnId) (some OID_GOOGLE_OCSP_SCT) then
      match scts with
      | none =>
        match coder.kSecAsn1OctetStringTemplate extn.value with
        | some sct_data =>
          SecOCSPSingleResponseCreate.loop coder extensions
            (coder.SecCreateSignedCertificateTimestampsArrayFromSerializedSCTList
              sct_data.Data sct_data.Length)
        | none => SecOCSPSingleResponseCreate.loop coder extensions scts
      | some _ => SecOCSPSingleResponseCreate.loop coder extensions scts
    else
      SecOCSPSingleResponseCreate.loop coder extensions scts

/-- The static SecOCSPSingleResponseCreate: the single response object built from
one decoded record, or none (NULL) when it goes to errOut. -/
def SecOCSPSingleResponseCreate (dec : DateDecoder) (coder : DecodeCapability)
    (resp : SecAsn1OCSPSingleResponse) : Option SecOCSPSingleResponse :=
  match resp.certStatus.Data with
  | none => none
  | some [] => none
  | some (tagByte :: _) =>
    let certStatus := tagByte &&& SEC_ASN1_TAGNUM_MASK
    let revoked : Option (CFAbsoluteTime × Int) :=
      if certStatus = CS_Revoked then
        match coder.kSecAsn1OCSPCertStatusRevokedTemplate resp.certStatus with
        | none => none
        | some decoded =>
          match decoded.revokedInfo with
          | some revokedInfo =>
            let revokedTime := genTimeToCFAbsTime dec revokedInfo.revocationTime
            match revokedInfo.revocationReason with
            | some revReason =>
              match revReason.Data with
              | some (reason :: _) => some (revokedTime, Int.ofNat reason)
              | _ => some (revokedTime, kSecRevocationReasonUndetermined)
            | none => some (revokedTime, kSecRevocationReasonUndetermined)
          | none => some (NULL_TIME, kSecRevocationReasonUndetermined)
      else
        some (NULL_TIME, kSecRevocationReasonUndetermined)
    match revoked with
    | none => none
    | some (revokedTime, crlReason) =>
      let thisUpdate := genTimeToCFAbsTime dec resp.thisUpdate
      if thisUpdate = NULL_TIME then
        none
      else
        let nextUpdate : Option CFAbsoluteTime :=
          match resp.nextUpdate with
          | some nu =>
            if genTimeToCFAbsTime dec nu = NULL_TIME then none
            else some (genTimeToCFAbsTime dec nu)
          | none => some NULL_TIME
        match nextUpdate with
        | none => none
        | some nextUpdate =>
          let scts :=
            match resp.singleExtensions with
            | some extensions => SecOCSPSingleResponseCreate.loop coder extensions none
            | none => none
          some { certStatus := certStatus, thisUpdate := thisUpdate, nextUpdate := nextUpdate,
                 revokedTime := revokedTime, crlReason := crlReason, scts := scts }

/-! ## Validity of a single response -/

/-- The static SecOCSPSingleResponseComputedNextUpdate, with the times as exact
numbers. -/
def SecOCSPSingleResponseComputedNextUpdate (sr : SecOCSPSingleResponse)
    (defaultTTL : CFTimeInterval) : CFAbsoluteTime :=
  if sr.nextUpdate = NULL_TIME then sr.thisUpdate + defaultTTL else sr.nextUpdate

/-- SecOCSPSingleResponseCalculateValidity, with the times as exact numbers. -/
def SecOCSPSingleResponseCalculateValidity (sr : SecOCSPSingleResponse)
    (defaultTTL : CFTimeInterval) (verifyTime : CFAbsoluteTime) : Bool :=
  if sr.thisUpdate > verifyTime + LEEWAY then
    false
  else
    let cnu := SecOCSPSingleResponseComputedNextUpdate sr defaultTTL
    if verifyTime - LEEWAY > cnu then
      false
    else
      true

/-! ## Double arithmetic -/

/-- Number of binary digits of n, found by halving; fuel bounds the number of
halvings. -/
def bitLength.go : Nat → Nat → Nat
  | 0, _ => 0
  | fuel + 1, n => if n = 0 then 0 else bitLength.go fuel (n / 2) + 1

/-- Number of binary digits of n (0 for 0); n itself is enough fuel. -/
def bitLength (n : Nat) : Nat := bitLength.go n n

/-- The multiple of 2 ^ e nearest to n, the even multiple when two are equally
near: the multiple below n when the rest is less than half of 2 ^ e, or exactly
half with an even quotient, and the next multiple otherwise. -/
def roundToDouble.nearest (e n : Nat) : Nat :=
  let q := n / 2 ^ e
  let rest := n % 2 ^ e
  if 2 * rest < 2 ^ e ∨ (2 * rest = 2 ^ e ∧ q % 2 = 0) then q * 2 ^ e else (q + 1) * 2 ^ e

/-- A natural number rounded to 53 significant binary digits: the digits below
the 53 leading ones are rounded away. -/
def roundToDouble.magnitude (n : Nat) : Nat :=
  roundToDouble.nearest (bitLength n - 53) n

/-- The double that a C sum or difference of two doubles yields, given the exact
value of the sum or difference: IEEE 754 binary64 in the default rounding mode
(to nearest, ties to even). Times are whole seconds here, so the exact value is
an integer; it is kept when it has at most 53 significant binary digits and is
rounded to 53 digits otherwise. The exponent range is not bounded (no overflow
to infinity). -/
def roundToDouble (x : Int) : Int :=
  if x < 0 then - (roundToDouble.magnitude x.natAbs : Int)
  else (roundToDouble.magnitude x.natAbs : Int)

/-! ## Temporal validity in double arithmetic -/

/-- The for loop of SecOCSPResponseCalculateValidity with the sum
verifyTime + LEEWAY evaluated as a double. The result is the value of
latestNextUpdate when the loop is left, with false when it is left through
"goto exit" and true when it runs to the end of the array. -/
def SecOCSPResponseCalculateValidityDouble.loop (dec : DateDecoder)
    (verifyTime : CFAbsoluteTime) :
    List SecAsn1OCSPSingleResponse → CFAbsoluteTime → Bool × CFAbsoluteTime
  | [], latestNextUpdate => (true, latestNextUpdate)
  | resp :: responses, latestNextUpdate =>
    let thisUpdate := genTimeToCFAbsTime dec resp.thisUpdate
    if thisUpdate > roundToDouble (verifyTime + LEEWAY) then
      (false, latestNextUpdate)
    else
      match resp.nextUpdate with
      | some nu =>
        let nextUpdate := genTimeToCFAbsTime dec nu
        if nextUpdate > latestNextUpdate then
          SecOCSPResponseCalculateValidityDouble.loop dec verifyTime responses nextUpdate
        else
          SecOCSPResponseCalculateValidityDouble.loop dec verifyTime responses latestNextUpdate
      | none =>
        SecOCSPResponseCalculateValidityDouble.loop dec verifyTime responses latestNextUpdate

/-- SecOCSPResponseCalculateValidity (built without STRICT_RFC5019) with every sum
and difference evaluated as a double: verifyTime + LEEWAY, verifyTime - LEEWAY,
latestNextUpdate - verifyTime, verifyTime + defaultTTL and verifyTime + maxAge.
The result is the returned boolean with the object after the call; none when the
call dereferences the NULL responses array. -/
def SecOCSPResponseCalculateValidityDouble (dec : DateDecoder) (r : SecOCSPResponse)
    (maxAge defaultTTL : CFTimeInterval) (verifyTime : CFAbsoluteTime) :
    Option (Bool × SecOCSPResponse) :=
  let r0 := { r with latestNextUpdate := NULL_TIME }
  if r0.producedAt > roundToDouble (verifyTime + LEEWAY) then
    some (false, r0)
  else
    match r0.responseData.responses with
    | none => none
    | some responses =>
      let res := SecOCSPResponseCalculateValidityDouble.loop dec verifyTime responses
        r0.latestNextUpdate
      let r1 := { r0 with latestNextUpdate := res.2 }
      if res.1 = false then
        some (false, r1)
      else if r1.latestNextUpdate = NULL_TIME then
        some (true, { r1 with expireTime := roundToDouble (verifyTime + defaultTTL) })
      else if r1.latestNextUpdate < roundToDouble (verifyTime - LEEWAY) then
        some (false, r1)
      else if maxAge > 0 then
        if maxAge < roundToDouble (r1.latestNextUpdate - verifyTime) then
          some (true, { r1 with expireTime := roundToDouble (verifyTime + maxAge) })
        else
          some (true, { r1 with expireTime := r1.latestNextUpdate })
      else
        some (true, { r1 with expireTime := r1.latestNextUpdate })

/-- The static SecOCSPSingleResponseComputedNextUpdate with the sum
thisUpdate + defaultTTL evaluated as a double. -/
def SecOCSPSingleResponseComputedNextUpdateDouble (sr : SecOCSPSingleResponse)
    (defaultTTL : CFTimeInterval) : CFAbsoluteTime :=
  if sr.nextUpdate = NULL_TIME then roundToDouble (sr.thisUpdate + defaultTTL)
  else sr.nextUpdate

/-- SecOCSPSingleResponseCalculateValidity with verifyTime + LEEWAY and
verifyTime - LEEWAY evaluated as doubles. -/
def SecOCSPSingleResponseCalculateValidityDouble (sr : SecOCSPSingleResponse)
    (defaultTTL : CFTimeInterval) (verifyTime : CFAbsoluteTime) : Bool :=
  if sr.thisUpdate > roundToDouble (verifyTime + LEEWAY) then
    false
  else
    let cnu := SecOCSPSingleResponseComputedNextUpdateDouble sr defaultTTL
    if roundToDouble (verifyTime - LEEWAY) > cnu then
      false
    else
      true

/-! ## Matching a request against the single responses -/

/-- The external capabilities the matcher calls. The code uses the issuer
sequence and the public key data without a NULL check, so both are total here;
the serial number may be NULL. SecDigestCreate takes the algorithm OID and the
parameters by their bytes and returns none (NULL) for an algorithm it does not
support. -/
structure RequestCapability (Cert : Type) where
  SecCertificateCopyIssuerSequence : Cert → ByteString
  SecCertificateGetPublicKeyData : Cert → ByteString
  SecCertificateCopySerialNumber : Cert → Option ByteString
  SecDigestCreate : ByteString → ByteString → ByteString → Option ByteString

/-- The for loop of SecOCSPResponseCopySingleResponse. The loop state is the
algorithm and parameters of the digests computed last (NULL at the start and after
an unsupported algorithm) and the two cached digests. -/
def SecOCSPResponseCopySingleResponse.loop {Cert : Type} (dec : DateDecoder)
    (coder : DecodeCapability) (caps : RequestCapability Cert)
    (issuer publicKey : ByteString) (serial : Option ByteString) :
    List SecAsn1OCSPSingleResponse → Option SecAsn1Item → Option SecAsn1Item →
      Option ByteString → Option ByteString → Option SecOCSPSingleResponse
  | [], _, _, _, _ => none
  | resp :: responses, algorithm, parameters, issuerNameHash, issuerPubKeyHash =>
    let certId := resp.certID
    let mismatch : Bool :=
      match serial with
      | none => true
      | some serialBytes =>
        certId.serialNumber.Length != serialBytes.length ||
          memcmp serialBytes certId.serialNumber.bytes certId.serialNumber.Length != 0
    if mismatch then
      SecOCSPResponseCopySingleResponse.loop dec coder caps issuer publicKey serial responses
        algorithm parameters issuerNameHash issuerPubKeyHash
    else
      let recompute : Bool :=
        !SecAsn1OidCompare algorithm (some certId.algId.algorithm) ||
          !SecAsn1OidCompare parameters (some certId.algId.parameters)
      let algorithm1 := if recompute then some certId.algId.algorithm else algorithm
      let parameters1 := if recompute then some certId.algId.parameters else parameters
      let issuerNameHash1 :=
        if recompute then
          caps.SecDigestCreate certId.algId.algorithm.bytes certId.algId.parameters.bytes issuer
        else issuerNameHash
      let issuerPubKeyHash1 :=
        if recompute then
          caps.SecDigestCreate certId.algId.algorithm.bytes certId.algId.parameters.bytes publicKey
        else issuerPubKeyHash
      match issuerNameHash1, issuerPubKeyHash1 with
      | some nameHash, some keyHash =>
        if certId.issuerNameHash.Length == nameHash.length &&
            memcmp nameHash certId.issuerNameHash.bytes certId.issuerNameHash.Length == 0 &&
            certId.issuerPubKeyHash.Length == keyHash.length &&
            memcmp keyHash certId.issuerPubKeyHash.bytes certId.issuerPubKeyHash.Length == 0 then
          match SecOCSPSingleResponseCreate dec coder resp with
          | some sr => some sr
          | none =>
            SecOCSPResponseCopySingleResponse.loop dec coder caps issuer publicKey serial responses
              algorithm1 parameters1 (some nameHash) (some keyHash)
        else
          SecOCSPResponseCopySingleResponse.loop dec coder caps issuer publicKey serial responses
            algorithm1 parameters1 (some nameHash) (some keyHash)
      | _, _ =>
        SecOCSPResponseCopySingleResponse.loop dec coder caps issuer publicKey serial responses
          none none issuerNameHash1 issuerPubKeyHash1

/-- SecOCSPResponseCopySingleResponse: the single response for the certificate of
the request, or none (NULL). The request may be NULL. The outer result is none
when the call dereferences the NULL responses array. -/
def SecOCSPResponseCopySingleResponse {Cert : Type} (dec : DateDecoder)
    (coder : DecodeCapability) (caps : RequestCapability Cert)
    (r : SecOCSPResponse) (request : Option (SecOCSPRequest Cert)) :
    Option (Option SecOCSPSingleResponse) :=
  match request with
  | none => some none
  | some req =>
    let issuer := caps.SecCertificateCopyIssuerSequence req.certificate
    let publicKey := caps.SecCertificateGetPublicKeyData req.issuer
    let serial := caps.SecCertificateCopySerialNumber req.certificate
    match r.responseData.responses with
    | none => none
    | some responses =>
      some (SecOCSPResponseCopySingleResponse.loop dec coder caps issuer publicKey serial
        responses none none none none)

/-- Reference matcher for the comparison with the cached one: the loop of a
matcher that keeps no digests, and recomputes both issuer digests from the
declared algorithm and parameters of every candidate whose serial matches. -/
def referenceCopySingleResponse.loop {Cert : Type} (dec : DateDecoder)
    (coder : DecodeCapability) (caps : RequestCapability Cert)
    (issuer publicKey : ByteString) (serial : Option ByteString) :
    List SecAsn1OCSPSingleResponse → Option SecOCSPSingleResponse
  | [] => none
  | resp :: responses =>
    if serial = some resp.certID.serialNumber.bytes then
      if caps.SecDigestCreate resp.certID.algId.algorithm.bytes
            resp.certID.algId.parameters.bytes issuer = some resp.certID.issuerNameHash.bytes ∧
          caps.SecDigestCreate resp.certID.algId.algorithm.bytes
            resp.certID.algId.parameters.bytes publicKey
              = some resp.certID.issuerPubKeyHash.bytes then
        match SecOCSPSingleResponseCreate dec coder resp with
        | some sr => some sr
        | none => referenceCopySingleResponse.loop dec coder caps issuer publicKey serial responses
      else
        referenceCopySingleResponse.loop dec coder caps issuer publicKey serial responses
    else
      referenceCopySingleResponse.loop dec coder caps issuer publicKey serial responses

/-- Reference matcher for the comparison with the cached one: first full match
over the single responses, every digest computed afresh. -/
def referenceCopySingleResponse {Cert : Type} (dec : DateDecoder)
    (coder : DecodeCapability) (caps : RequestCapability Cert)
    (r : SecOCSPResponse) (request : Option (SecOCSPRequest Cert)) :
    Option (Option SecOCSPSingleResponse) :=
  match request with
  | none => some none
  | some req =>
    match r.responseData.responses with
    | none => none
    | some responses =>
      some (referenceCopySingleResponse.loop dec coder caps
        (caps.SecCertificateCopyIssuerSequence req.certificate)
        (caps.SecCertificateGetPublicKeyData req.issuer)
        (caps.SecCertificateCopySerialNumber req.certificate) responses)

/-! ## Construction of a response object -/

/-- The object as calloc leaves it: every field zero, every pointer NULL. -/
def SecOCSPResponse.calloc : SecOCSPResponse :=
  { data := [], responseID := 0, responseStatus := 0,
    producedAt := 0, latestNextUpdate := 0, expireTime := 0,
    basicResponse := { tbsResponseData := ⟨none⟩,
                       algId := { algorithm := ⟨none⟩, parameters := ⟨none⟩ },
                       sig := { Data := [], Length := 0 },
                       certs := none },
    responseData := { responderID := ⟨none⟩, producedAt := ⟨none⟩, responses := none },
    responderIdTag := 0,
    responderID := { byName := ⟨none⟩, byKey := ⟨none⟩ } }

/-- SecOCSPResponseCreateWithID, with the two allocations at its start taken to
succeed. The inner result is the object, or none (NULL) when the constructor goes
to errOut; the outer result is none when the call reads the leading byte of an
empty responderID, a byte outside the decoded item. -/
def SecOCSPResponseCreateWithID (dec : DateDecoder) (coder : DecodeCapability)
    (ocspResponse : ByteString) (responseID : Int) : Option (Option SecOCSPResponse) :=
  let this0 := { SecOCSPResponse.calloc with data := ocspResponse, responseID := responseID }
  let resp : SecAsn1Item := ⟨some ocspResponse⟩
  let topResp := (coder.kSecAsn1OCSPResponseTemplate resp).2
  match topResp.responseStatus.Data with
  | none => some none
  | some [] => some none
  | some (status :: _) =>
    let this1 := { this0 with responseStatus := status }
    if this1.responseStatus ≠ kSecOCSPSuccess then
      some (some this1)
    else
      match topResp.responseBytes with
      | none => some none
      | some responseBytes =>
        if !SecAsn1OidCompare (some responseBytes.responseType) (some OID_PKIX_OCSP_BASIC) then
          some none
        else
          match coder.kSecAsn1OCSPBasicResponseTemplate responseBytes.response with
          | none => some none
          | some basicResponse =>
            let this2 := { this1 with basicResponse := basicResponse }
            match coder.kSecAsn1OCSPResponseDataTemplate this2.basicResponse.tbsResponseData with
            | none => some none
            | some responseData =>
              let this3 := { this2 with responseData := responseData }
              let this4 := { this3 with
                producedAt := genTimeToCFAbsTime dec this3.responseData.producedAt }
              if this4.producedAt = NULL_TIME then
                some none
              else
                match this4.responseData.responderID.Data with
                | none => some none
                | some [] => none
                | some (tagByte :: _) =>
                  let this5 := { this4 with responderIdTag := tagByte &&& SEC_ASN1_TAGNUM_MASK }
                  let templ : Option (SecAsn1Item → Option SecAsn1OCSPResponderID) :=
                    if this5.responderIdTag = RIT_Name then
                      some coder.kSecAsn1OCSPResponderIDAsNameTemplate
                    else if this5.responderIdTag = RIT_Key then
                      some coder.kSecAsn1OCSPResponderIDAsKeyTemplate
                    else
                      none
                  match templ with
                  | none => some none
                  | some decodeResponderID =>
                    match decodeResponderID this5.responseData.responderID with
                    | none => some none
                    | some responderID => some (some { this5 with responderID := responderID })

/-- SecOCSPResponseGetID. -/
def SecOCSPResponseGetID (r : SecOCSPResponse) : Int := r.responseID

/-- SecOCSPResponseGetData. -/
def SecOCSPResponseGetData (r : SecOCSPResponse) : ByteString := r.data

/-- SecOCSPGetResponseStatus. -/
def SecOCSPGetResponseStatus (r : SecOCSPResponse) : Nat := r.responseStatus

/-- SecOCSPResponseGetExpirationTime. -/
def SecOCSPResponseGetExpirationTime (r : SecOCSPResponse) : CFAbsoluteTime := r.expireTime

/-- SecOCSPResponseProducedAt. -/
def SecOCSPResponseProducedAt (r : SecOCSPResponse) : CFAbsoluteTime := r.producedAt

/-! ## Concrete capabilities for evaluating the definitions -/

/-- A date decoder for concrete runs: the first byte is a sign (0 for plus), the
remaining bytes are the seconds as a big-endian base-256 number; an empty or
NULL item decodes to NULL_TIME. -/
def sampleDecoder : DateDecoder := fun _ data _ =>
  match data with
  | some (sign :: digits) =>
    let n : Int := Int.ofNat (digits.foldl (fun acc b => 256 * acc + b) 0)
    if sign = 0 then n else -n
  | _ => NULL_TIME

/-- Certificate capabilities for concrete runs. A certificate is a natural
number parsed from a one-byte encoding; a byte above 99 does not parse. The
subject of certificate c is the single byte c, its public-key digest is
[c, c], its key is c (certificate 7 has no extractable key), and
verification succeeds for even keys only. -/
def sampleCaps : CertificateCapability Nat Nat where
  SecCertificateCreateWithBytes := fun bs =>
    match bs with
    | [c] => if c < 100 then some c else none
    | _ => none
  SecCertificateCopySubjectSequence := fun c => some [c]
  SecCertificateCopyPublicKeySHA1Digest := fun c => [c, c]
  SecCertificateCopyPublicKey := fun c => if c = 7 then none else some c
  SecKeyDigestAndVerify := fun key _ _ _ _ _ => if key % 2 = 0 then 0 else -1

/-- An all-empty single response record with the given thisUpdate and
nextUpdate items. -/
def sampleSingle (thisUpdate : SecAsn1Item) (nextUpdate : Option SecAsn1Item) :
    SecAsn1OCSPSingleResponse :=
  { certID := { algId := { algorithm := ⟨none⟩, parameters := ⟨none⟩ },
                issuerNameHash := ⟨none⟩, issuerPubKeyHash := ⟨none⟩, serialNumber := ⟨none⟩ },
    certStatus := ⟨some [128]⟩,
    thisUpdate := thisUpdate,
    nextUpdate := nextUpdate,
    singleExtensions := none }

/-- A response object with the given producedAt, single responses, embedded
certificates and byName responder identity; the cache fields start at zero. -/
def sampleResponse (producedAt : CFAbsoluteTime)
    (responses : Option (List SecAsn1OCSPSingleResponse))
    (certs : Option (List SecAsn1Item)) (tag : Nat) (responder : ByteString) : SecOCSPResponse :=
  { data := [], responseID := -1, responseStatus := 0,
    producedAt := producedAt, latestNextUpdate := 0, expireTime := 0,
    basicResponse := { tbsResponseData := ⟨some [48, 0]⟩,
                       algId := { algorithm := ⟨none⟩, parameters := ⟨none⟩ },
                       sig := { Data := [1, 2], Length := 16 },
                       certs := certs },
    responseData := { responderID := ⟨some [161]⟩, producedAt := ⟨none⟩, responses := responses },
    responderIdTag := tag,
    responderID := { byName := ⟨some responder⟩, byKey := ⟨some responder⟩ } }

/-- Decoders for concrete runs over a toy encoding. The envelope is the status
byte, then a byte that is 1 for the basic response type, then the response. A
basic response is byte 48 followed by its tbsResponseData. Response data is byte
48, the responderID tag byte, and two bytes of producedAt seconds. A responderID
is its tag byte followed by one byte of identity. A revoked cert status is its
tag byte, one byte of revocation time and an optional reason byte. An octet
string is byte 4 followed by its content, and a non-empty SCT blob parses to a
list holding that blob. -/
def sampleCoder : DecodeCapability where
  kSecAsn1OCSPResponseTemplate := fun item =>
    match item.bytes with
    | [] => (-1, { responseStatus := ⟨none⟩, responseBytes := none })
    | [status] => (0, { responseStatus := ⟨some [status]⟩, responseBytes := none })
    | status :: kind :: response =>
      (0, { responseStatus := ⟨some [status]⟩,
            responseBytes := some
              { responseType := if kind = 1 then OID_PKIX_OCSP_BASIC else ⟨some [kind]⟩,
                response := ⟨some response⟩ } })
  kSecAsn1OCSPBasicResponseTemplate := fun item =>
    match item.bytes with
    | 48 :: tbs =>
      some { tbsResponseData := ⟨some tbs⟩,
             algId := { algorithm := ⟨none⟩, parameters := ⟨none⟩ },
             sig := { Data := [1, 2], Length := 16 },
             certs := none }
    | _ => none
  kSecAsn1OCSPResponseDataTemplate := fun item =>
    match item.bytes with
    | 48 :: tag :: hi :: lo :: _ =>
      some { responderID := ⟨some [tag, 7]⟩, producedAt := ⟨some [0, hi, lo]⟩,
             responses := some [] }
    | _ => none
  kSecAsn1OCSPResponderIDAsNameTemplate := fun item =>
    match item.bytes with
    | [_, name] => some { byName := ⟨some [name]⟩, byKey := ⟨some [name]⟩ }
    | _ => none
  kSecAsn1OCSPResponderIDAsKeyTemplate := fun item =>
    match item.bytes with
    | [_, key] => some { byName := ⟨some [key]⟩, byKey := ⟨some [key]⟩ }
    | _ => none
  kSecAsn1OCSPCertStatusRevokedTemplate := fun item =>
    match item.bytes with
    | [_] => some { revokedInfo := none }
    | [_, time] =>
      some { revokedInfo := some { revocationTime := ⟨some [0, time]⟩,
                                   revocationReason := none } }
    | [_, time, reason] =>
      some { revokedInfo := some { revocationTime := ⟨some [0, time]⟩,
                                   revocationReason := some ⟨some [reason]⟩ } }
    | _ => none
  kSecAsn1OctetStringTemplate := fun item =>
    match item.bytes with
    | 4 :: content => some ⟨some content⟩
    | _ => none
  SecCreateSignedCertificateTimestampsArrayFromSerializedSCTList := fun data _ =>
    match data with
    | some (b :: bs) => some [b :: bs]
    | _ => none

/-- Matcher capabilities for concrete runs. A certificate is a natural number;
certificate c has issuer sequence [c + 100], public key data [c, c] and serial
number [c], except certificate 0, which has no serial number. The digest under
algorithm [1] adds 1 to every byte, the digest under algorithm [2] adds 2, and
no other algorithm is supported. -/
def sampleRequestCaps : RequestCapability Nat where
  SecCertificateCopyIssuerSequence := fun c => [c + 100]
  SecCertificateGetPublicKeyData := fun c => [c, c]
  SecCertificateCopySerialNumber := fun c => if c = 0 then none else some [c]
  SecDigestCreate := fun algorithm _ data =>
    if algorithm = [1] then some (data.map (fun b => b + 1))
    else if algorithm = [2] then some (data.map (fun b => b + 2))
    else none

/-- A single response record for concrete runs with the given hash algorithm,
issuer name hash, issuer key hash, serial number and thisUpdate, status good
and no nextUpdate. -/
def sampleEntry (algorithm nameHash keyHash serial : ByteString) (thisUpdate : SecAsn1Item) :
    SecAsn1OCSPSingleResponse :=
  { certID := { algId := { algorithm := ⟨some algorithm⟩, parameters := ⟨none⟩ },
                issuerNameHash := ⟨some nameHash⟩, issuerPubKeyHash := ⟨some keyHash⟩,
                serialNumber := ⟨some serial⟩ },
    certStatus := ⟨some [128]⟩,
    thisUpdate := thisUpdate,
    nextUpdate := none,
    singleExtensions := none }

/-! ## Signer search: lemmas -/

/-- Two buffers of equal length n that memcmp finds equal on n bytes are the same
byte string. -/
theorem memcmp_eq_zero_of_length (s1 s2 : ByteString)
    (hlen : s2.length = s1.length) (hcmp : memcmp s1 s2 s1.length = 0) : s2 = s1 := by
  unfold memcmp at hcmp
  split_ifs at hcmp with h
  · rw [List.take_length, ← hlen, List.take_length] at h
    exact h.symm
  · simp at hcmp

/-- What a true result of SecOCSPResponseIsIssuer establishes about the
certificate: the identity named by the responder id, an extractable key, and a
verified signature over the tbsResponseData bytes. -/
theorem SecOCSPResponseIsIssuer_true {Cert Key : Type}
    (caps : CertificateCapability Cert Key) (r : SecOCSPResponse) (c : Cert)
    (h : SecOCSPResponseIsIssuer caps r c = true) :
    (r.responderIdTag = RIT_Name →
      caps.SecCertificateCopySubjectSequence c = some r.responderID.byName.bytes) ∧
    (r.responderIdTag ≠ RIT_Name →
      caps.SecCertificateCopyPublicKeySHA1Digest c = r.responderID.byKey.bytes) ∧
    ∃ key, caps.SecCertificateCopyPublicKey c = some key ∧
      caps.SecKeyDigestAndVerify key r.basicResponse.algId
        r.basicResponse.tbsResponseData.bytes r.basicResponse.tbsResponseData.bytes.length
        r.basicResponse.sig.Data (r.basicResponse.sig.Length / 8) = errSecSuccess := by
  unfold SecOCSPResponseIsIssuer at h
  by_cases htag : r.responderIdTag = RIT_Name
  · simp only [htag, if_true] at h
    cases hsub : caps.SecCertificateCopySubjectSequence c with
    | none => simp [hsub] at h
    | some subject =>
      simp only [hsub] at h
      split_ifs at h with hid
      · simp only [Bool.and_eq_true, beq_iff_eq, SecAsn1Item.Length] at hid
        have hs := memcmp_eq_zero_of_length _ _ hid.1 hid.2
        cases hkey : caps.SecCertificateCopyPublicKey c with
        | none => simp [hkey] at h
        | some key =>
          simp only [hkey, SecOCSPResponseVerifySignature, beq_iff_eq, SecAsn1Item.Length] at h
          exact ⟨fun _ => by rw [hs], fun hne => absurd htag hne, key, rfl, h⟩
      · exact absurd h hid
  · simp only [htag, if_false] at h
    split_ifs at h with hid
    · simp only [Bool.and_eq_true, beq_iff_eq, SecAsn1Item.Length] at hid
      have hs := memcmp_eq_zero_of_length _ _ hid.1 hid.2
      cases hkey : caps.SecCertificateCopyPublicKey c with
      | none => simp [hkey] at h
      | some key =>
        simp only [hkey, SecOCSPResponseVerifySignature, beq_iff_eq, SecAsn1Item.Length] at h
        exact ⟨fun heq => absurd heq htag, fun _ => hs, key, rfl, h⟩
    · exact absurd h hid

/-- A certificate returned by the loop over the embedded certificates was parsed
from one of them and passed SecOCSPResponseIsIssuer. -/
theorem SecOCSPResponseCopySigner_loop_some {Cert Key : Type}
    (caps : CertificateCapability Cert Key) (r : SecOCSPResponse) (c : Cert) :
    ∀ certs : List SecAsn1Item, SecOCSPResponseCopySigner.loop caps r certs = some c →
      (∃ item ∈ certs, caps.SecCertificateCreateWithBytes item.bytes = some c) ∧
      SecOCSPResponseIsIssuer caps r c = true := by
  intro certs
  induction certs with
  | nil => intro h; simp [SecOCSPResponseCopySigner.loop] at h
  | cons item rest ih =>
    intro h
    unfold SecOCSPResponseCopySigner.loop at h
    cases hp : caps.SecCertificateCreateWithBytes item.bytes with
    | none =>
      simp only [hp] at h
      obtain ⟨⟨i, hi, hc⟩, hiss⟩ := ih h
      exact ⟨⟨i, List.mem_cons_of_mem _ hi, hc⟩, hiss⟩
    | some cert =>
      simp only [hp] at h
      split_ifs at h with hiss
      · have hcc : cert = c := by simpa using h
        subst hcc
        exact ⟨⟨item, List.mem_cons_self _ _, hp⟩, hiss⟩
      · obtain ⟨⟨i, hi, hc⟩, hiss2⟩ := ih h
        exact ⟨⟨i, List.mem_cons_of_mem _ hi, hc⟩, hiss2⟩

/-- The loop over the embedded certificates finds nothing when every embedded
certificate that parses fails SecOCSPResponseIsIssuer. -/
theorem SecOCSPResponseCopySigner_loop_none {Cert Key : Type}
    (caps : CertificateCapability Cert Key) (r : SecOCSPResponse) :
    ∀ certs : List SecAsn1Item,
      (∀ item ∈ certs, ∀ c, caps.SecCertificateCreateWithBytes item.bytes = some c →
        SecOCSPResponseIsIssuer caps r c = false) →
      SecOCSPResponseCopySigner.loop caps r certs = none := by
  intro certs
  induction certs with
  | nil => intro _; rfl
  | cons item rest ih =>
    intro h
    unfold SecOCSPResponseCopySigner.loop
    have ihr := ih (fun i hi c hc => h i (List.mem_cons_of_mem _ hi) c hc)
    cases hp : caps.SecCertificateCreateWithBytes item.bytes with
    | none => simpa using ihr
    | some cert =>
      have := h item (List.mem_cons_self _ _) cert hp
      simp [this, ihr]

/-! ## Signer search: soundness -/

/-- C1: signer soundness. If SecOCSPResponseCopySigner returns a certificate c,
then c was parsed from an embedded certificate of the response or is the supplied
issuer; its identity matches the responder id (byName: the subject-name bytes are
the stored name; byKey: the SHA-1 digest of its public key is the stored key
hash); a public key could be extracted from it; and signature verification over
the verbatim tbsResponseData bytes with that key succeeds. Consequently, when no
parsed embedded certificate and not the issuer passes both checks, the result is
none. -/
theorem SecOCSPResponseCopySigner_sound {Cert Key : Type}
    (caps : CertificateCapability Cert Key) (r : SecOCSPResponse) (issuer : Option Cert) :
    (∀ c, SecOCSPResponseCopySigner caps r issuer = some c →
      ((∃ item ∈ r.basicResponse.certs.getD [],
          caps.SecCertificateCreateWithBytes item.bytes = some c) ∨ issuer = some c) ∧
      (r.responderIdTag = RIT_Name →
        caps.SecCertificateCopySubjectSequence c = some r.responderID.byName.bytes) ∧
      (r.responderIdTag ≠ RIT_Name →
        caps.SecCertificateCopyPublicKeySHA1Digest c = r.responderID.byKey.bytes) ∧
      ∃ key, caps.SecCertificateCopyPublicKey c = some key ∧
        caps.SecKeyDigestAndVerify key r.basicResponse.algId
          r.basicResponse.tbsResponseData.bytes r.basicResponse.tbsResponseData.bytes.length
          r.basicResponse.sig.Data (r.basicResponse.sig.Length / 8) = errSecSuccess) ∧
    ((∀ c, ((∃ item ∈ r.basicResponse.certs.getD [],
          caps.SecCertificateCreateWithBytes item.bytes = some c) ∨ issuer = some c) →
        ¬ ((r.responderIdTag = RIT_Name →
            caps.SecCertificateCopySubjectSequence c = some r.responderID.byName.bytes) ∧
          (r.responderIdTag ≠ RIT_Name →
            caps.SecCertificateCopyPublicKeySHA1Digest c = r.responderID.byKey.bytes) ∧
          ∃ key, caps.SecCertificateCopyPublicKey c = some key ∧
            caps.SecKeyDigestAndVerify key r.basicResponse.algId
              r.basicResponse.tbsResponseData.bytes
              r.basicResponse.tbsResponseData.bytes.length
              r.basicResponse.sig.Data (r.basicResponse.sig.Length / 8) = errSecSuccess)) →
      SecOCSPResponseCopySigner caps r issuer = none) := by
  have sound : ∀ c, SecOCSPResponseCopySigner caps r issuer = some c →
      ((∃ item ∈ r.basicResponse.certs.getD [],
          caps.SecCertificateCreateWithBytes item.bytes = some c) ∨ issuer = some c) ∧
      SecOCSPResponseIsIssuer caps r c = true := by
    intro c h
    unfold SecOCSPResponseCopySigner at h
    cases hl : SecOCSPResponseCopySigner.loop caps r (r.basicResponse.certs.getD []) with
    | some cert =>
      simp only [hl] at h
      have hcc : cert = c := by simpa using h
      subst hcc
      have := SecOCSPResponseCopySigner_loop_some caps r cert _ hl
      exact ⟨Or.inl this.1, this.2⟩
    | none =>
      simp only [hl] at h
      cases issuer with
      | none => simp at h
      | some i =>
        simp only at h
        split_ifs at h with hiss
        have hic : i = c := by simpa using h
        subst hic
        exact ⟨Or.inr rfl, hiss⟩
  refine ⟨fun c h => ⟨(sound c h).1, SecOCSPResponseIsIssuer_true caps r c (sound c h).2⟩, ?_⟩
  intro hnone
  cases hres : SecOCSPResponseCopySigner caps r issuer with
  | none => rfl
  | some c =>
    exact absurd (SecOCSPResponseIsIssuer_true caps r c (sound c hres).2)
      (hnone c (sound c hres).1)

/-- Witness for C1: with embedded certificates 200 (unparseable), 3 (bad
signature) and 4, and responder name [4], the signer is certificate 4 and its
subject is the stored name; with embedded certificates 200 and 3 and issuer 5
nothing passes, and the result is none. -/
theorem SecOCSPResponseCopySigner_sound_witness :
    (SecOCSPResponseCopySigner sampleCaps
        (sampleResponse 1 none (some [⟨some [200]⟩, ⟨some [3]⟩, ⟨some [4]⟩]) 1 [4]) (some 6)
        = some 4 ∧
      sampleCaps.SecCertificateCopySubjectSequence 4 = some [4]) ∧
    SecOCSPResponseCopySigner sampleCaps
        (sampleResponse 1 none (some [⟨some [200]⟩, ⟨some [3]⟩]) 1 [3]) (some 5) = none := by
  refine ⟨⟨by decide, ?_⟩, ?_⟩
  · exact ((SecOCSPResponseCopySigner_sound sampleCaps
      (sampleResponse 1 none (some [⟨some [200]⟩, ⟨some [3]⟩, ⟨some [4]⟩]) 1 [4]) (some 6)).1
      4 (by decide)).2.1 (by decide)
  · apply (SecOCSPResponseCopySigner_sound sampleCaps
      (sampleResponse 1 none (some [⟨some [200]⟩, ⟨some [3]⟩]) 1 [3]) (some 5)).2
    intro c hc hpass
    obtain ⟨_, _, key, hkey, hver⟩ := hpass
    have hc3 : c = 3 ∨ c = 5 := by
      rcases hc with ⟨item, hi, hp⟩ | hi
      · simp only [sampleResponse, Option.getD_some, List.mem_cons, List.mem_singleton,
          List.not_mem_nil, or_false] at hi
        rcases hi with rfl | rfl
        · simp [sampleCaps, SecAsn1Item.bytes] at hp
        · left
          simp [sampleCaps, SecAsn1Item.bytes] at hp
          exact hp.symm
      · right
        simpa using hi.symm
    rcases hc3 with rfl | rfl
    · simp [sampleCaps] at hkey
      subst hkey
      simp [sampleCaps, errSecSuccess] at hver
    · simp [sampleCaps] at hkey
      subst hkey
      simp [sampleCaps, errSecSuccess] at hver

/-! ## Temporal validity: lemmas about the loop -/

/-- One step of the loop, with the local variables substituted. -/
theorem SecOCSPResponseCalculateValidity_loop_cons (dec : DateDecoder)
    (verifyTime : CFAbsoluteTime) (resp : SecAsn1OCSPSingleResponse)
    (rest : List SecAsn1OCSPSingleResponse) (latest : CFAbsoluteTime) :
    SecOCSPResponseCalculateValidity.loop dec verifyTime (resp :: rest) latest =
      if genTimeToCFAbsTime dec resp.thisUpdate > verifyTime + LEEWAY then (false, latest)
      else
        match resp.nextUpdate with
        | some nu =>
          if genTimeToCFAbsTime dec nu > latest then
            SecOCSPResponseCalculateValidity.loop dec verifyTime rest (genTimeToCFAbsTime dec nu)
          else SecOCSPResponseCalculateValidity.loop dec verifyTime rest latest
        | none => SecOCSPResponseCalculateValidity.loop dec verifyTime rest latest := rfl

/-- One entry whose thisUpdate lies beyond verifyTime + LEEWAY makes the loop
leave through "goto exit". -/
theorem SecOCSPResponseCalculateValidity_loop_exit (dec : DateDecoder)
    (verifyTime : CFAbsoluteTime) :
    ∀ (responses : List SecAsn1OCSPSingleResponse) (latest : CFAbsoluteTime),
      (∃ resp ∈ responses, genTimeToCFAbsTime dec resp.thisUpdate > verifyTime + LEEWAY) →
      (SecOCSPResponseCalculateValidity.loop dec verifyTime responses latest).1 = false := by
  intro responses
  induction responses with
  | nil => intro latest h; simp at h
  | cons resp rest ih =>
    intro latest h
    unfold SecOCSPResponseCalculateValidity.loop
    by_cases hthis : genTimeToCFAbsTime dec resp.thisUpdate > verifyTime + LEEWAY
    · simp [hthis]
    · have hrest : ∃ x ∈ rest, genTimeToCFAbsTime dec x.thisUpdate > verifyTime + LEEWAY := by
        obtain ⟨x, hx, hgt⟩ := h
        rcases List.mem_cons.mp hx with rfl | hx
        · exact absurd hgt hthis
        · exact ⟨x, hx, hgt⟩
      simp only [hthis, if_false]
      cases hnu : resp.nextUpdate with
      | none => exact ih latest hrest
      | some nu =>
        simp only
        split_ifs
        · exact ih _ hrest
        · exact ih _ hrest

/-- When no entry has a thisUpdate beyond verifyTime + LEEWAY the loop runs to
the end of the array. -/
theorem SecOCSPResponseCalculateValidity_loop_complete (dec : DateDecoder)
    (verifyTime : CFAbsoluteTime) :
    ∀ (responses : List SecAsn1OCSPSingleResponse) (latest : CFAbsoluteTime),
      (∀ resp ∈ responses, genTimeToCFAbsTime dec resp.thisUpdate ≤ verifyTime + LEEWAY) →
      (SecOCSPResponseCalculateValidity.loop dec verifyTime responses latest).1 = true := by
  intro responses
  induction responses with
  | nil => intro latest _; rfl
  | cons resp rest ih =>
    intro latest h
    unfold SecOCSPResponseCalculateValidity.loop
    have hthis : ¬ genTimeToCFAbsTime dec resp.thisUpdate > verifyTime + LEEWAY :=
      not_lt.mpr (h resp (List.mem_cons_self _ _))
    have hrest : ∀ x ∈ rest, genTimeToCFAbsTime dec x.thisUpdate ≤ verifyTime + LEEWAY :=
      fun x hx => h x (List.mem_cons_of_mem _ hx)
    simp only [hthis, if_false]
    cases hnu : resp.nextUpdate with
    | none => exact ih latest hrest
    | some nu =>
      simp only
      split_ifs
      · exact ih _ hrest
      · exact ih _ hrest

/-- The loop never lowers latestNextUpdate. -/
theorem SecOCSPResponseCalculateValidity_loop_ge (dec : DateDecoder)
    (verifyTime : CFAbsoluteTime) :
    ∀ (responses : List SecAsn1OCSPSingleResponse) (latest : CFAbsoluteTime),
      latest ≤ (SecOCSPResponseCalculateValidity.loop dec verifyTime responses latest).2 := by
  intro responses
  induction responses with
  | nil => intro latest; exact le_refl _
  | cons resp rest ih =>
    intro latest
    rw [SecOCSPResponseCalculateValidity_loop_cons]
    split_ifs with hthis
    · exact le_refl _
    · cases hnu : resp.nextUpdate with
      | none => exact ih latest
      | some nu =>
        simp only
        split_ifs with hgt
        · exact le_trans (le_of_lt hgt) (ih _)
        · exact ih latest

/-- The value the loop leaves in latestNextUpdate is the start value or the
decoded nextUpdate of one of the entries. -/
theorem SecOCSPResponseCalculateValidity_loop_mem (dec : DateDecoder)
    (verifyTime : CFAbsoluteTime) :
    ∀ (responses : List SecAsn1OCSPSingleResponse) (latest : CFAbsoluteTime),
      (SecOCSPResponseCalculateValidity.loop dec verifyTime responses latest).2 = latest ∨
      ∃ resp ∈ responses, ∃ nu, resp.nextUpdate = some nu ∧
        genTimeToCFAbsTime dec nu =
          (SecOCSPResponseCalculateValidity.loop dec verifyTime responses latest).2 := by
  intro responses
  induction responses with
  | nil => intro latest; exact Or.inl rfl
  | cons resp rest ih =>
    intro latest
    rw [SecOCSPResponseCalculateValidity_loop_cons]
    split_ifs with hthis
    · exact Or.inl rfl
    · cases hnu : resp.nextUpdate with
      | none =>
        rcases ih latest with h | ⟨x, hx, n, hn, hv⟩
        · exact Or.inl h
        · exact Or.inr ⟨x, List.mem_cons_of_mem _ hx, n, hn, hv⟩
      | some nu =>
        simp only
        split_ifs with hgt
        · rcases ih (genTimeToCFAbsTime dec nu) with h | ⟨x, hx, n, hn, hv⟩
          · exact Or.inr ⟨resp, List.mem_cons_self _ _, nu, hnu, h.symm⟩
          · exact Or.inr ⟨x, List.mem_cons_of_mem _ hx, n, hn, hv⟩
        · rcases ih latest with h | ⟨x, hx, n, hn, hv⟩
          · exact Or.inl h
          · exact Or.inr ⟨x, List.mem_cons_of_mem _ hx, n, hn, hv⟩

/-- When the loop runs to the end, the value it leaves in latestNextUpdate is at
least the decoded nextUpdate of every entry that has one. -/
theorem SecOCSPResponseCalculateValidity_loop_upper (dec : DateDecoder)
    (verifyTime : CFAbsoluteTime) :
    ∀ (responses : List SecAsn1OCSPSingleResponse) (latest : CFAbsoluteTime),
      (SecOCSPResponseCalculateValidity.loop dec verifyTime responses latest).1 = true →
      ∀ resp ∈ responses, ∀ nu, resp.nextUpdate = some nu →
        genTimeToCFAbsTime dec nu ≤
          (SecOCSPResponseCalculateValidity.loop dec verifyTime responses latest).2 := by
  intro responses
  induction responses with
  | nil => intro latest _ resp hresp; simp at hresp
  | cons first rest ih =>
    intro latest hdone resp hresp nu hnu
    rw [SecOCSPResponseCalculateValidity_loop_cons] at hdone ⊢
    by_cases hthis : genTimeToCFAbsTime dec first.thisUpdate > verifyTime + LEEWAY
    · simp [hthis] at hdone
    · simp only [hthis, if_false] at hdone ⊢
      cases hf : first.nextUpdate with
      | none =>
        simp only [hf] at hdone ⊢
        rcases List.mem_cons.mp hresp with rfl | hmem
        · rw [hf] at hnu; simp at hnu
        · exact ih latest hdone resp hmem nu hnu
      | some fnu =>
        simp only [hf] at hdone ⊢
        by_cases hgt : genTimeToCFAbsTime dec fnu > latest
        · simp only [hgt, if_true] at hdone ⊢
          rcases List.mem_cons.mp hresp with rfl | hmem
          · rw [hf] at hnu
            have : fnu = nu := by simpa using hnu
            subst this
            exact SecOCSPResponseCalculateValidity_loop_ge dec verifyTime rest _
          · exact ih _ hdone resp hmem nu hnu
        · simp only [hgt, if_false] at hdone ⊢
          rcases List.mem_cons.mp hresp with rfl | hmem
          · rw [hf] at hnu
            have : fnu = nu := by simpa using hnu
            subst this
            exact le_trans (not_lt.mp hgt)
              (SecOCSPResponseCalculateValidity_loop_ge dec verifyTime rest latest)
          · exact ih _ hdone resp hmem nu hnu

/-! ## Temporal validity: the producedAt check -/

/-- A producedAt beyond verifyTime + LEEWAY ends the call at its first check:
the result is false and only latestNextUpdate was reset. -/
theorem SecOCSPResponseCalculateValidity_exit_producedAt (dec : DateDecoder)
    (r : SecOCSPResponse) (maxAge defaultTTL : CFTimeInterval) (verifyTime : CFAbsoluteTime)
    (h : r.producedAt > verifyTime + LEEWAY) :
    SecOCSPResponseCalculateValidity dec r maxAge defaultTTL verifyTime
      = some (false, { r with latestNextUpdate := NULL_TIME }) := by
  simp [SecOCSPResponseCalculateValidity, h]

/-! ## Temporal validity: the function after the producedAt check -/

/-- SecOCSPResponseCalculateValidity on an object with a decoded responses array
and a producedAt not beyond verifyTime + LEEWAY, written over the result of the
loop. -/
theorem SecOCSPResponseCalculateValidity_eq (dec : DateDecoder) (r : SecOCSPResponse)
    (responses : List SecAsn1OCSPSingleResponse)
    (maxAge defaultTTL : CFTimeInterval) (verifyTime : CFAbsoluteTime)
    (hresp : r.responseData.responses = some responses)
    (hprod : r.producedAt ≤ verifyTime + LEEWAY) :
    SecOCSPResponseCalculateValidity dec r maxAge defaultTTL verifyTime =
      if (SecOCSPResponseCalculateValidity.loop dec verifyTime responses NULL_TIME).1 = false then
        some (false, { r with latestNextUpdate :=
          (SecOCSPResponseCalculateValidity.loop dec verifyTime responses NULL_TIME).2 })
      else if (SecOCSPResponseCalculateValidity.loop dec verifyTime responses NULL_TIME).2
          = NULL_TIME then
        some (true, { r with
          latestNextUpdate :=
            (SecOCSPResponseCalculateValidity.loop dec verifyTime responses NULL_TIME).2,
          expireTime := verifyTime + defaultTTL })
      else if (SecOCSPResponseCalculateValidity.loop dec verifyTime responses NULL_TIME).2
          < verifyTime - LEEWAY then
        some (false, { r with latestNextUpdate :=
          (SecOCSPResponseCalculateValidity.loop dec verifyTime responses NULL_TIME).2 })
      else if 0 < maxAge ∧ maxAge <
          (SecOCSPResponseCalculateValidity.loop dec verifyTime responses NULL_TIME).2
            - verifyTime then
        some (true, { r with
          latestNextUpdate :=
            (SecOCSPResponseCalculateValidity.loop dec verifyTime responses NULL_TIME).2,
          expireTime := verifyTime + maxAge })
      else
        some (true, { r with
          latestNextUpdate :=
            (SecOCSPResponseCalculateValidity.loop dec verifyTime responses NULL_TIME).2,
          expireTime :=
            (SecOCSPResponseCalculateValidity.loop dec verifyTime responses NULL_TIME).2 }) := by
  have hp : ¬ r.producedAt > verifyTime + LEEWAY := not_lt.mpr hprod
  unfold SecOCSPResponseCalculateValidity
  simp only [hp, if_false, hresp]
  by_cases h1 : (SecOCSPResponseCalculateValidity.loop dec verifyTime responses NULL_TIME).1 = false
  · simp only [h1, if_true]
  · simp only [h1, if_false]
    by_cases h2 : (SecOCSPResponseCalculateValidity.loop dec verifyTime responses NULL_TIME).2
        = NULL_TIME
    · simp only [h2, if_true]
    · simp only [h2, if_false]
      by_cases h3 : (SecOCSPResponseCalculateValidity.loop dec verifyTime responses NULL_TIME).2
          < verifyTime - LEEWAY
      · simp only [h3, if_true]
      · simp only [h3, if_false]
        by_cases h4 : maxAge > 0
        · have h4p : 0 < maxAge := h4
          by_cases h5 : maxAge <
              (SecOCSPResponseCalculateValidity.loop dec verifyTime responses NULL_TIME).2
                - verifyTime
          · simp only [h4, h4p, h5, if_true, and_self]
          · simp only [h4, h4p, h5, if_true, if_false, and_false]
        · have h4p : ¬ 0 < maxAge := h4
          simp only [h4, h4p, if_false, false_and]

/-! ## Temporal validity: rejection -/

/-- C2: if producedAt > verifyTime + 4500 then SecOCSPResponseCalculateValidity
returns false, for every response, maxAge, defaultTTL and verifyTime. -/
theorem SecOCSPResponseCalculateValidity_producedAt_future (dec : DateDecoder)
    (r : SecOCSPResponse) (maxAge defaultTTL : CFTimeInterval) (verifyTime : CFAbsoluteTime)
    (h : r.producedAt > verifyTime + 4500) :
    (SecOCSPResponseCalculateValidity dec r maxAge defaultTTL verifyTime).map Prod.fst
      = some false := by
  rw [SecOCSPResponseCalculateValidity_exit_producedAt dec r maxAge defaultTTL verifyTime h]
  rfl

/-- Witness for C2: producedAt 10000 at verifyTime 5000. -/
theorem SecOCSPResponseCalculateValidity_producedAt_future_witness :
    (10000 : Int) > 5000 + 4500 ∧
    (SecOCSPResponseCalculateValidity sampleDecoder
        (sampleResponse 10000 (some [sampleSingle ⟨some [0, 1]⟩ none]) none 1 []) 60 300 5000).map
      Prod.fst = some false :=
  ⟨by decide, SecOCSPResponseCalculateValidity_producedAt_future sampleDecoder
    (sampleResponse 10000 (some [sampleSingle ⟨some [0, 1]⟩ none]) none 1 []) 60 300 5000
    (by decide)⟩

/-! ## Temporal validity: acceptance and expiration -/

/-- C5: completeness of validity. If producedAt <= verifyTime + 4500, every
entry's thisUpdate <= verifyTime + 4500, and either no entry has a nextUpdate or
the maximum nextUpdate M is >= verifyTime - 4500, then
SecOCSPResponseCalculateValidity returns true, for every maxAge and
defaultTTL. -/
theorem SecOCSPResponseCalculateValidity_complete (dec : DateDecoder)
    (r : SecOCSPResponse) (responses : List SecAsn1OCSPSingleResponse)
    (maxAge defaultTTL : CFTimeInterval) (verifyTime : CFAbsoluteTime)
    (hresp : r.responseData.responses = some responses)
    (hprod : r.producedAt ≤ verifyTime + 4500)
    (hthis : ∀ resp ∈ responses, genTimeToCFAbsTime dec resp.thisUpdate ≤ verifyTime + 4500)
    (hnext : (∀ resp ∈ responses, resp.nextUpdate = none) ∨
      ∃ M : CFAbsoluteTime,
        (∃ resp ∈ responses, ∃ nu, resp.nextUpdate = some nu ∧ genTimeToCFAbsTime dec nu = M) ∧
        (∀ resp ∈ responses, ∀ nu, resp.nextUpdate = some nu →
          genTimeToCFAbsTime dec nu ≤ M) ∧
        M ≥ verifyTime - 4500) :
    (SecOCSPResponseCalculateValidity dec r maxAge defaultTTL verifyTime).map Prod.fst
      = some true := by
  rw [SecOCSPResponseCalculateValidity_eq dec r responses maxAge defaultTTL verifyTime hresp hprod]
  have hdone := SecOCSPResponseCalculateValidity_loop_complete dec verifyTime responses NULL_TIME
    hthis
  have h1 : ¬ (SecOCSPResponseCalculateValidity.loop dec verifyTime responses NULL_TIME).1
      = false := by simp [hdone]
  rw [if_neg h1]
  by_cases h2 : (SecOCSPResponseCalculateValidity.loop dec verifyTime responses NULL_TIME).2
      = NULL_TIME
  · rw [if_pos h2]
    rfl
  · have h3 : ¬ (SecOCSPResponseCalculateValidity.loop dec verifyTime responses NULL_TIME).2
        < verifyTime - LEEWAY := by
      rcases hnext with hnone | ⟨M, ⟨x, hx, nu, hnu, hM⟩, _, hge⟩
      · rcases SecOCSPResponseCalculateValidity_loop_mem dec verifyTime responses NULL_TIME
          with h0 | ⟨y, hy, n, hn, _⟩
        · exact absurd h0 h2
        · rw [hnone y hy] at hn
          simp at hn
      · have hup := SecOCSPResponseCalculateValidity_loop_upper dec verifyTime responses
          NULL_TIME hdone x hx nu hnu
        rw [hM] at hup
        exact not_lt.mpr (le_trans hge hup)
    rw [if_neg h2, if_neg h3]
    split_ifs <;> rfl

/-- Witness for C5: entries with nextUpdate 100 and 10000 and one without, at
verifyTime 12000 (the maximum 10000 is within the leeway). -/
theorem SecOCSPResponseCalculateValidity_complete_witness :
    (SecOCSPResponseCalculateValidity sampleDecoder
        (sampleResponse 1
          (some [sampleSingle ⟨some [0, 1]⟩ (some ⟨some [0, 100]⟩),
                 sampleSingle ⟨some [0, 1]⟩ (some ⟨some [0, 39, 16]⟩),
                 sampleSingle ⟨some [0, 2]⟩ none]) none 1 []) 60 300 12000).map
      Prod.fst = some true :=
  SecOCSPResponseCalculateValidity_complete sampleDecoder _ _ 60 300 12000 rfl
    (by decide) (by decide)
    (Or.inr ⟨10000,
      ⟨sampleSingle ⟨some [0, 1]⟩ (some ⟨some [0, 39, 16]⟩), by simp, ⟨some [0, 39, 16]⟩, rfl,
        by decide⟩,
      by
        intro resp hresp nu hnu
        simp only [List.mem_cons, List.mem_singleton, List.not_mem_nil, or_false] at hresp
        rcases hresp with rfl | rfl | rfl
        · have : nu = ⟨some [0, 100]⟩ := by simpa [sampleSingle] using hnu.symm
          subst this; decide
        · have : nu = ⟨some [0, 39, 16]⟩ := by simpa [sampleSingle] using hnu.symm
          subst this; decide
        · simp [sampleSingle] at hnu,
      by decide⟩)

/-- C9: frame on rejection. If SecOCSPResponseCalculateValidity returns false,
the expireTime field after the call equals its value before the call. -/
theorem SecOCSPResponseCalculateValidity_false_expireTime (dec : DateDecoder)
    (r r1 : SecOCSPResponse) (maxAge defaultTTL : CFTimeInterval) (verifyTime : CFAbsoluteTime)
    (hcall : SecOCSPResponseCalculateValidity dec r maxAge defaultTTL verifyTime
      = some (false, r1)) :
    r1.expireTime = r.expireTime := by
  by_cases hprod : r.producedAt > verifyTime + LEEWAY
  · simp only [SecOCSPResponseCalculateValidity, hprod, if_true, Option.some.injEq,
      Prod.mk.injEq, true_and] at hcall
    subst hcall
    rfl
  · cases hresp : r.responseData.responses with
    | none => simp [SecOCSPResponseCalculateValidity, hprod, hresp] at hcall
    | some responses =>
      rw [SecOCSPResponseCalculateValidity_eq dec r responses maxAge defaultTTL verifyTime hresp
        (not_lt.mp hprod)] at hcall
      split_ifs at hcall with h1 h2 h3 h4
      · simp only [Option.some.injEq, Prod.mk.injEq, true_and] at hcall
        subst hcall
        rfl
      · simp at hcall
      · simp only [Option.some.injEq, Prod.mk.injEq, true_and] at hcall
        subst hcall
        rfl
      · simp at hcall
      · simp at hcall

/-- Witness for C9: a stale response (nextUpdate 100 at verifyTime 10000) whose
expireTime was 777 before the call still has expireTime 777 after it. -/
theorem SecOCSPResponseCalculateValidity_false_expireTime_witness :
    SecOCSPResponseCalculateValidity sampleDecoder
        { sampleResponse 1 (some [sampleSingle ⟨some [0, 1]⟩ (some ⟨some [0, 100]⟩)]) none 1 []
            with expireTime := 777 } 60 300 10000
      = some (false,
          { sampleResponse 1 (some [sampleSingle ⟨some [0, 1]⟩ (some ⟨some [0, 100]⟩)]) none 1 []
              with latestNextUpdate := 100, expireTime := 777 }) ∧
    ({ sampleResponse 1 (some [sampleSingle ⟨some [0, 1]⟩ (some ⟨some [0, 100]⟩)]) none 1 []
        with latestNextUpdate := 100, expireTime := 777 } : SecOCSPResponse).expireTime
      = ({ sampleResponse 1 (some [sampleSingle ⟨some [0, 1]⟩ (some ⟨some [0, 100]⟩)]) none 1 []
        with expireTime := 777 } : SecOCSPResponse).expireTime :=
  ⟨by decide,
    SecOCSPResponseCalculateValidity_false_expireTime sampleDecoder
      { sampleResponse 1 (some [sampleSingle ⟨some [0, 1]⟩ (some ⟨some [0, 100]⟩)]) none 1 []
          with expireTime := 777 } _ 60 300 10000 (by decide)⟩

/-! ## Temporal validity: repeated calls -/

/-- Two runs of the loop over the same entries that both reach the end of the
array leave the same latestNextUpdate, whatever their verifyTime. -/
theorem SecOCSPResponseCalculateValidity_loop_value (dec : DateDecoder)
    (v1 v2 : CFAbsoluteTime) :
    ∀ (responses : List SecAsn1OCSPSingleResponse) (latest : CFAbsoluteTime),
      (SecOCSPResponseCalculateValidity.loop dec v1 responses latest).1 = true →
      (SecOCSPResponseCalculateValidity.loop dec v2 responses latest).1 = true →
      (SecOCSPResponseCalculateValidity.loop dec v1 responses latest).2 =
        (SecOCSPResponseCalculateValidity.loop dec v2 responses latest).2 := by
  intro responses
  induction responses with
  | nil => intro latest _ _; rfl
  | cons resp rest ih =>
    intro latest h1 h2
    rw [SecOCSPResponseCalculateValidity_loop_cons] at h1 h2
    rw [SecOCSPResponseCalculateValidity_loop_cons, SecOCSPResponseCalculateValidity_loop_cons]
    by_cases ht1 : genTimeToCFAbsTime dec resp.thisUpdate > v1 + LEEWAY
    · simp [ht1] at h1
    · by_cases ht2 : genTimeToCFAbsTime dec resp.thisUpdate > v2 + LEEWAY
      · simp [ht2] at h2
      · simp only [ht1, ht2, if_false] at h1 h2 ⊢
        cases hnu : resp.nextUpdate with
        | none =>
          simp only [hnu] at h1 h2 ⊢
          exact ih latest h1 h2
        | some nu =>
          simp only [hnu] at h1 h2 ⊢
          by_cases hgt : genTimeToCFAbsTime dec nu > latest
          · simp only [hgt, if_true] at h1 h2 ⊢
            exact ih _ h1 h2
          · simp only [hgt, if_false] at h1 h2 ⊢
            exact ih _ h1 h2

/-- C10 as stated fails: the cache fields are written by every call. After a
first call (maxAge 60, defaultTTL 300, verifyTime 5000) that returned true with
latestNextUpdate 10000 and expireTime 5060, a second call with maxAge 0 at
verifyTime 6000 changes expireTime to 10000, and a call at verifyTime -10000
returns false and resets latestNextUpdate to NULL_TIME. -/
theorem SecOCSPResponseCalculateValidity_rewrite_counterexample :
    (SecOCSPResponseCalculateValidity sampleDecoder
        (sampleResponse 1 (some [sampleSingle ⟨some [0, 1]⟩ (some ⟨some [0, 39, 16]⟩)]) none 1 [])
        60 300 5000).map (fun p => (p.1, p.2.latestNextUpdate, p.2.expireTime))
      = some (true, 10000, 5060) ∧
    ((SecOCSPResponseCalculateValidity sampleDecoder
        (sampleResponse 1 (some [sampleSingle ⟨some [0, 1]⟩ (some ⟨some [0, 39, 16]⟩)]) none 1 [])
        60 300 5000).bind
      (fun p => SecOCSPResponseCalculateValidity sampleDecoder p.2 0 300 6000)).map
        (fun p => (p.1, p.2.latestNextUpdate, p.2.expireTime))
      = some (true, 10000, 10000) ∧
    ((SecOCSPResponseCalculateValidity sampleDecoder
        (sampleResponse 1 (some [sampleSingle ⟨some [0, 1]⟩ (some ⟨some [0, 39, 16]⟩)]) none 1 [])
        60 300 5000).bind
      (fun p => SecOCSPResponseCalculateValidity sampleDecoder p.2 60 300 (-10000))).map
        (fun p => (p.1, p.2.latestNextUpdate, p.2.expireTime))
      = some (false, 0, 5060) := by
  refine ⟨by decide, by decide, by decide⟩

/-- C10 (amended): the cache fields are recomputed by every call. After a call
that returned true, a later call on the same response with the same maxAge,
defaultTTL and verifyTime returns true and leaves the whole object, so
latestNextUpdate and expireTime, unchanged; and every later call that returns
true, with any maxAge, defaultTTL and verifyTime, stores the same
latestNextUpdate. -/
theorem SecOCSPResponseCalculateValidity_repeat (dec : DateDecoder)
    (r r1 : SecOCSPResponse) (maxAge defaultTTL : CFTimeInterval) (verifyTime : CFAbsoluteTime)
    (hcall : SecOCSPResponseCalculateValidity dec r maxAge defaultTTL verifyTime
      = some (true, r1)) :
    SecOCSPResponseCalculateValidity dec r1 maxAge defaultTTL verifyTime = some (true, r1) ∧
    ∀ (maxAge2 defaultTTL2 : CFTimeInterval) (verifyTime2 : CFAbsoluteTime)
      (r2 : SecOCSPResponse),
      SecOCSPResponseCalculateValidity dec r1 maxAge2 defaultTTL2 verifyTime2 = some (true, r2) →
      r2.latestNextUpdate = r1.latestNextUpdate := by
  by_cases hprod : r.producedAt > verifyTime + LEEWAY
  · simp [SecOCSPResponseCalculateValidity, hprod] at hcall
  · cases hresp : r.responseData.responses with
    | none => simp [SecOCSPResponseCalculateValidity, hprod, hresp] at hcall
    | some responses =>
      have hprod2 := not_lt.mp hprod
      rw [SecOCSPResponseCalculateValidity_eq dec r responses maxAge defaultTTL verifyTime hresp
        hprod2] at hcall
      have hfacts : r1.responseData.responses = some responses ∧ r1.producedAt = r.producedAt ∧
          (SecOCSPResponseCalculateValidity.loop dec verifyTime responses NULL_TIME).1 = true ∧
          r1.latestNextUpdate =
            (SecOCSPResponseCalculateValidity.loop dec verifyTime responses NULL_TIME).2 := by
        split_ifs at hcall with h1 h2 h3 h4
        · simp at hcall
        · simp only [Option.some.injEq, Prod.mk.injEq, true_and] at hcall
          subst hcall
          exact ⟨hresp, rfl, by simpa using h1, rfl⟩
        · simp at hcall
        · simp only [Option.some.injEq, Prod.mk.injEq, true_and] at hcall
          subst hcall
          exact ⟨hresp, rfl, by simpa using h1, rfl⟩
        · simp only [Option.some.injEq, Prod.mk.injEq, true_and] at hcall
          subst hcall
          exact ⟨hresp, rfl, by simpa using h1, rfl⟩
      obtain ⟨hresp1, hprod1, hdone, hlatest⟩ := hfacts
      constructor
      · rw [SecOCSPResponseCalculateValidity_eq dec r1 responses maxAge defaultTTL verifyTime
          hresp1 (by rw [hprod1]; exact hprod2)]
        split_ifs at hcall ⊢ with h1 h2 h3 h4
        · simp at hcall
        · simp only [Option.some.injEq, Prod.mk.injEq, true_and] at hcall
          subst hcall
          rfl
        · simp at hcall
        · simp only [Option.some.injEq, Prod.mk.injEq, true_and] at hcall
          subst hcall
          rfl
        · simp only [Option.some.injEq, Prod.mk.injEq, true_and] at hcall
          subst hcall
          rfl
      · intro maxAge2 defaultTTL2 verifyTime2 r2 hcall2
        by_cases hp2 : r1.producedAt > verifyTime2 + LEEWAY
        · simp [SecOCSPResponseCalculateValidity, hp2] at hcall2
        · rw [SecOCSPResponseCalculateValidity_eq dec r1 responses maxAge2 defaultTTL2 verifyTime2
            hresp1 (not_lt.mp hp2)] at hcall2
          have hval : (SecOCSPResponseCalculateValidity.loop dec verifyTime2 responses
                NULL_TIME).1 = true →
              (SecOCSPResponseCalculateValidity.loop dec verifyTime2 responses NULL_TIME).2
                = r1.latestNextUpdate := by
            intro hdone2
            rw [hlatest]
            exact SecOCSPResponseCalculateValidity_loop_value dec verifyTime2 verifyTime
              responses NULL_TIME hdone2 hdone
          split_ifs at hcall2 with h1 h2 h3 h4
          · simp at hcall2
          · simp only [Option.some.injEq, Prod.mk.injEq, true_and] at hcall2
            subst hcall2
            exact hval (by simpa using h1)
          · simp at hcall2
          · simp only [Option.some.injEq, Prod.mk.injEq, true_and] at hcall2
            subst hcall2
            exact hval (by simpa using h1)
          · simp only [Option.some.injEq, Prod.mk.injEq, true_and] at hcall2
            subst hcall2
            exact hval (by simpa using h1)

/-- Witness for C10 (amended): the first call of the counterexample, repeated
with the same arguments, returns the same object. -/
theorem SecOCSPResponseCalculateValidity_repeat_witness :
    SecOCSPResponseCalculateValidity sampleDecoder
        { sampleResponse 1 (some [sampleSingle ⟨some [0, 1]⟩ (some ⟨some [0, 39, 16]⟩)])
            none 1 [] with latestNextUpdate := 10000, expireTime := 5060 } 60 300 5000
      = some (true,
          { sampleResponse 1 (some [sampleSingle ⟨some [0, 1]⟩ (some ⟨some [0, 39, 16]⟩)])
              none 1 [] with latestNextUpdate := 10000, expireTime := 5060 }) :=
  (SecOCSPResponseCalculateValidity_repeat sampleDecoder
    (sampleResponse 1 (some [sampleSingle ⟨some [0, 1]⟩ (some ⟨some [0, 39, 16]⟩)]) none 1 [])
    _ 60 300 5000 (by decide)).1

/-! ## Single responses: construction and validity -/

/-- The times of a constructed single response: thisUpdate is the decoded
thisUpdate of the record and is not NULL_TIME; nextUpdate is NULL_TIME when the
record has no nextUpdate, and the decoded nextUpdate, not NULL_TIME, when it has
one. -/
theorem SecOCSPSingleResponseCreate_times (dec : DateDecoder) (coder : DecodeCapability)
    (resp : SecAsn1OCSPSingleResponse) (sr : SecOCSPSingleResponse)
    (h : SecOCSPSingleResponseCreate dec coder resp = some sr) :
    sr.thisUpdate = genTimeToCFAbsTime dec resp.thisUpdate ∧
    sr.thisUpdate ≠ NULL_TIME ∧
    (resp.nextUpdate = none → sr.nextUpdate = NULL_TIME) ∧
    (∀ nu, resp.nextUpdate = some nu →
      sr.nextUpdate = genTimeToCFAbsTime dec nu ∧ sr.nextUpdate ≠ NULL_TIME) := by
  unfold SecOCSPSingleResponseCreate at h
  split at h
  · simp at h
  · simp at h
  · simp only at h
    split at h
    · simp at h
    · split_ifs at h with hthis
      cases hnu : resp.nextUpdate with
      | none =>
        simp only [hnu, Option.some.injEq] at h
        subst h
        exact ⟨rfl, hthis, fun _ => rfl, fun nu hc => by simp at hc⟩
      | some nu0 =>
        simp only [hnu] at h
        split_ifs at h with hnext
        simp only [Option.some.injEq] at h
        subst h
        refine ⟨rfl, hthis, fun hc => by simp at hc, ?_⟩
        intro nu hc
        have : nu0 = nu := by simpa using hc
        subst this
        exact ⟨rfl, hnext⟩

/-! ## Matcher: comparisons -/

/-- The length test followed by memcmp, as the matcher writes it for the serial
number and for each digest, holds exactly when the two byte strings are the
same. -/
theorem memcmp_length_iff (a b : ByteString) :
    ((b.length == a.length && memcmp a b b.length == 0) = true) ↔ a = b := by
  constructor
  · intro h
    simp only [Bool.and_eq_true, beq_iff_eq] at h
    have hab : memcmp b a b.length = 0 := by
      unfold memcmp at h ⊢
      obtain ⟨_, h2⟩ := h
      split_ifs at h2 with ht
      · rw [if_pos ht.symm]
      · simp at h2
    exact memcmp_eq_zero_of_length b a h.1.symm hab
  · intro h
    subst h
    simp [memcmp]

/-- SecAsn1OidCompare against a non-NULL OID is true only for a non-NULL OID
with the same bytes. -/
theorem SecAsn1OidCompare_some (x : Option SecAsn1Item) (y : SecAsn1Item)
    (h : SecAsn1OidCompare x (some y) = true) : ∃ a, x = some a ∧ a.bytes = y.bytes := by
  cases x with
  | none => simp [SecAsn1OidCompare] at h
  | some a =>
    refine ⟨a, rfl, ?_⟩
    simp only [SecAsn1OidCompare, SecAsn1Item.Length, Bool.and_eq_true, beq_iff_eq] at h
    exact (memcmp_eq_zero_of_length a.bytes y.bytes h.1.symm h.2).symm

/-! ## Matcher: the cached digests -/

/-- The serial test of the matcher skips an entry exactly when the serial of the
entry is not the serial of the request. -/
theorem SecOCSPResponseCopySingleResponse_serial_iff (item : SecAsn1Item) (serialBytes : ByteString) :
    ((item.Length != serialBytes.length ||
      memcmp serialBytes item.bytes item.Length != 0) = true) ↔ serialBytes ≠ item.bytes := by
  rw [← not_iff_not, not_not, ← memcmp_length_iff serialBytes item.bytes]
  simp only [SecAsn1Item.Length, bne, Bool.or_eq_true, Bool.not_eq_true', beq_eq_false_iff_ne,
    Bool.and_eq_true, beq_iff_eq, ne_eq]
  tauto

/-- The digest test of the matcher holds exactly when both digests are the byte
strings the entry declares. -/
theorem SecOCSPResponseCopySingleResponse_digest_iff (nameItem keyItem : SecAsn1Item) (n k : ByteString) :
    ((nameItem.Length == n.length && memcmp n nameItem.bytes nameItem.Length == 0 &&
      keyItem.Length == k.length && memcmp k keyItem.bytes keyItem.Length == 0) = true) ↔
      n = nameItem.bytes ∧ k = keyItem.bytes := by
  rw [← memcmp_length_iff n nameItem.bytes, ← memcmp_length_iff k keyItem.bytes]
  simp only [SecAsn1Item.Length, Bool.and_eq_true, beq_iff_eq]
  tauto

/-- One iteration of the matcher loop, started in a state whose cached digests
are those of the cached algorithm and parameters: the entry is tested against
the digests of its own algorithm and parameters, and the loop goes on in a state
of the same kind. -/
theorem SecOCSPResponseCopySingleResponse_loop_step {Cert : Type} (dec : DateDecoder)
    (coder : DecodeCapability) (caps : RequestCapability Cert)
    (issuer publicKey : ByteString) (serial : Option ByteString)
    (resp : SecAsn1OCSPSingleResponse) (rest : List SecAsn1OCSPSingleResponse)
    (algorithm parameters : Option SecAsn1Item) (nameHash keyHash : Option ByteString)
    (hinv : ∀ a p, algorithm = some a → parameters = some p →
      nameHash = caps.SecDigestCreate a.bytes p.bytes issuer ∧
      keyHash = caps.SecDigestCreate a.bytes p.bytes publicKey) :
    ∃ (algorithm1 parameters1 : Option SecAsn1Item) (nameHash1 keyHash1 : Option ByteString),
      (∀ a p, algorithm1 = some a → parameters1 = some p →
        nameHash1 = caps.SecDigestCreate a.bytes p.bytes issuer ∧
        keyHash1 = caps.SecDigestCreate a.bytes p.bytes publicKey) ∧
      SecOCSPResponseCopySingleResponse.loop dec coder caps issuer publicKey serial
          (resp :: rest) algorithm parameters nameHash keyHash =
        if serial = some resp.certID.serialNumber.bytes ∧
            caps.SecDigestCreate resp.certID.algId.algorithm.bytes
              resp.certID.algId.parameters.bytes issuer
                = some resp.certID.issuerNameHash.bytes ∧
            caps.SecDigestCreate resp.certID.algId.algorithm.bytes
              resp.certID.algId.parameters.bytes publicKey
                = some resp.certID.issuerPubKeyHash.bytes then
          match SecOCSPSingleResponseCreate dec coder resp with
          | some sr => some sr
          | none =>
            SecOCSPResponseCopySingleResponse.loop dec coder caps issuer publicKey serial rest
              algorithm1 parameters1 nameHash1 keyHash1
        else
          SecOCSPResponseCopySingleResponse.loop dec coder caps issuer publicKey serial rest
            algorithm1 parameters1 nameHash1 keyHash1 := by
  cases serial with
  | none =>
    refine ⟨algorithm, parameters, nameHash, keyHash, hinv, ?_⟩
    simp [SecOCSPResponseCopySingleResponse.loop]
  | some sb =>
    by_cases hsb : sb = resp.certID.serialNumber.bytes
    · subst hsb
      have hmis := (SecOCSPResponseCopySingleResponse_serial_iff resp.certID.serialNumber resp.certID.serialNumber.bytes).not.mpr (by simp)
      simp only [Bool.not_eq_true] at hmis
      cases hre : (!SecAsn1OidCompare algorithm (some resp.certID.algId.algorithm) ||
            !SecAsn1OidCompare parameters (some resp.certID.algId.parameters))
      · simp only [Bool.or_eq_false_iff, Bool.not_eq_false'] at hre
        obtain ⟨a, ha, hab⟩ := SecAsn1OidCompare_some _ _ hre.1
        obtain ⟨p, hp, hpb⟩ := SecAsn1OidCompare_some _ _ hre.2
        have hcache := hinv a p ha hp
        rw [hab, hpb] at hcache
        obtain ⟨hn, hk⟩ := hcache
        have hre2 : (!SecAsn1OidCompare algorithm (some resp.certID.algId.algorithm) ||
            !SecAsn1OidCompare parameters (some resp.certID.algId.parameters)) = false := by
          simp [hre.1, hre.2]
        cases hD1 : caps.SecDigestCreate resp.certID.algId.algorithm.bytes
              resp.certID.algId.parameters.bytes issuer with
        | none =>
          refine ⟨none, none, nameHash, keyHash, by simp, ?_⟩
          rw [hD1] at hn
          simp [SecOCSPResponseCopySingleResponse.loop, hmis, hre2, hn]
        | some n =>
          rw [hD1] at hn
          cases hD2 : caps.SecDigestCreate resp.certID.algId.algorithm.bytes
              resp.certID.algId.parameters.bytes publicKey with
          | none =>
            rw [hD2] at hk
            refine ⟨none, none, nameHash, keyHash, by simp, ?_⟩
            simp [SecOCSPResponseCopySingleResponse.loop, hmis, hre2, hn, hk]
          | some k =>
            rw [hD2] at hk
            refine ⟨algorithm, parameters, some n, some k, ?_, ?_⟩
            · intro a2 p2 ha2 hp2
              have h := hinv a2 p2 ha2 hp2
              rw [hn, hk] at h
              exact h
            · simp only [SecOCSPResponseCopySingleResponse.loop, hmis, hre2, hn, hk]
              simp only [SecOCSPResponseCopySingleResponse_digest_iff]
              simp
      · cases hD1 : caps.SecDigestCreate resp.certID.algId.algorithm.bytes
              resp.certID.algId.parameters.bytes issuer with
        | none =>
          refine ⟨none, none, none, caps.SecDigestCreate resp.certID.algId.algorithm.bytes
              resp.certID.algId.parameters.bytes publicKey, by simp, ?_⟩
          simp [SecOCSPResponseCopySingleResponse.loop, hmis, hre, hD1]
        | some n =>
          cases hD2 : caps.SecDigestCreate resp.certID.algId.algorithm.bytes
              resp.certID.algId.parameters.bytes publicKey with
          | none =>
            refine ⟨none, none, some n, none, by simp, ?_⟩
            simp [SecOCSPResponseCopySingleResponse.loop, hmis, hre, hD1, hD2]
          | some k =>
            refine ⟨some resp.certID.algId.algorithm, some resp.certID.algId.parameters,
              some n, some k, ?_, ?_⟩
            · intro a p ha hp
              simp only [Option.some.injEq] at ha hp
              subst ha hp
              exact ⟨hD1.symm, hD2.symm⟩
            · simp only [SecOCSPResponseCopySingleResponse.loop, hmis, hre, hD1, hD2]
              simp only [SecOCSPResponseCopySingleResponse_digest_iff]
              simp
    · have hmis := (SecOCSPResponseCopySingleResponse_serial_iff resp.certID.serialNumber sb).mpr hsb
      refine ⟨algorithm, parameters, nameHash, keyHash, hinv, ?_⟩
      have hne : ¬ (some sb = some resp.certID.serialNumber.bytes) := by simpa using hsb
      simp [SecOCSPResponseCopySingleResponse.loop, hmis, hne]

/-- One step of the reference loop. -/
theorem referenceCopySingleResponse_loop_cons {Cert : Type} (dec : DateDecoder)
    (coder : DecodeCapability) (caps : RequestCapability Cert)
    (issuer publicKey : ByteString) (serial : Option ByteString)
    (resp : SecAsn1OCSPSingleResponse) (rest : List SecAsn1OCSPSingleResponse) :
    referenceCopySingleResponse.loop dec coder caps issuer publicKey serial (resp :: rest) =
      if serial = some resp.certID.serialNumber.bytes then
        if caps.SecDigestCreate resp.certID.algId.algorithm.bytes
              resp.certID.algId.parameters.bytes issuer = some resp.certID.issuerNameHash.bytes ∧
            caps.SecDigestCreate resp.certID.algId.algorithm.bytes
              resp.certID.algId.parameters.bytes publicKey
                = some resp.certID.issuerPubKeyHash.bytes then
          match SecOCSPSingleResponseCreate dec coder resp with
          | some sr => some sr
          | none => referenceCopySingleResponse.loop dec coder caps issuer publicKey serial rest
        else
          referenceCopySingleResponse.loop dec coder caps issuer publicKey serial rest
      else
        referenceCopySingleResponse.loop dec coder caps issuer publicKey serial rest := rfl

/-- The matcher loop, started in a state whose cached digests are those of the
cached algorithm and parameters, returns what the reference loop returns. -/
theorem SecOCSPResponseCopySingleResponse_loop_eq_reference {Cert : Type} (dec : DateDecoder)
    (coder : DecodeCapability) (caps : RequestCapability Cert)
    (issuer publicKey : ByteString) (serial : Option ByteString) :
    ∀ (responses : List SecAsn1OCSPSingleResponse)
      (algorithm parameters : Option SecAsn1Item) (nameHash keyHash : Option ByteString),
      (∀ a p, algorithm = some a → parameters = some p →
        nameHash = caps.SecDigestCreate a.bytes p.bytes issuer ∧
        keyHash = caps.SecDigestCreate a.bytes p.bytes publicKey) →
      SecOCSPResponseCopySingleResponse.loop dec coder caps issuer publicKey serial responses
          algorithm parameters nameHash keyHash =
        referenceCopySingleResponse.loop dec coder caps issuer publicKey serial responses := by
  intro responses
  induction responses with
  | nil =>
    intro algorithm parameters nameHash keyHash _
    simp [SecOCSPResponseCopySingleResponse.loop, referenceCopySingleResponse.loop]
  | cons resp rest ih =>
    intro algorithm parameters nameHash keyHash hinv
    obtain ⟨a1, p1, n1, k1, hinv1, hstep⟩ :=
      SecOCSPResponseCopySingleResponse_loop_step dec coder caps issuer publicKey serial resp rest
        algorithm parameters nameHash keyHash hinv
    rw [hstep, ih a1 p1 n1 k1 hinv1, referenceCopySingleResponse_loop_cons]
    by_cases hs : serial = some resp.certID.serialNumber.bytes
    · by_cases hd : caps.SecDigestCreate resp.certID.algId.algorithm.bytes
            resp.certID.algId.parameters.bytes issuer = some resp.certID.issuerNameHash.bytes ∧
          caps.SecDigestCreate resp.certID.algId.algorithm.bytes
            resp.certID.algId.parameters.bytes publicKey
              = some resp.certID.issuerPubKeyHash.bytes
      · rw [if_pos ⟨hs, hd⟩, if_pos hs, if_pos hd]
      · rw [if_neg (fun h => hd h.2), if_pos hs, if_neg hd]
    · rw [if_neg (fun h => hs h.1), if_neg hs]

/-- A single response returned by the reference loop was built from an entry
that fully matches. -/
theorem referenceCopySingleResponse_loop_some {Cert : Type} (dec : DateDecoder)
    (coder : DecodeCapability) (caps : RequestCapability Cert)
    (issuer publicKey : ByteString) (serial : Option ByteString) (sr : SecOCSPSingleResponse) :
    ∀ responses : List SecAsn1OCSPSingleResponse,
      referenceCopySingleResponse.loop dec coder caps issuer publicKey serial responses
        = some sr →
      ∃ resp ∈ responses, SecOCSPSingleResponseCreate dec coder resp = some sr ∧
        serial = some resp.certID.serialNumber.bytes ∧
        caps.SecDigestCreate resp.certID.algId.algorithm.bytes
          resp.certID.algId.parameters.bytes issuer = some resp.certID.issuerNameHash.bytes ∧
        caps.SecDigestCreate resp.certID.algId.algorithm.bytes
          resp.certID.algId.parameters.bytes publicKey
            = some resp.certID.issuerPubKeyHash.bytes := by
  intro responses
  induction responses with
  | nil => intro h; simp [referenceCopySingleResponse.loop] at h
  | cons resp rest ih =>
    intro h
    have lift : (∃ x ∈ rest, SecOCSPSingleResponseCreate dec coder x = some sr ∧
        serial = some x.certID.serialNumber.bytes ∧
        caps.SecDigestCreate x.certID.algId.algorithm.bytes
          x.certID.algId.parameters.bytes issuer = some x.certID.issuerNameHash.bytes ∧
        caps.SecDigestCreate x.certID.algId.algorithm.bytes
          x.certID.algId.parameters.bytes publicKey = some x.certID.issuerPubKeyHash.bytes) →
        ∃ x ∈ resp :: rest, SecOCSPSingleResponseCreate dec coder x = some sr ∧
        serial = some x.certID.serialNumber.bytes ∧
        caps.SecDigestCreate x.certID.algId.algorithm.bytes
          x.certID.algId.parameters.bytes issuer = some x.certID.issuerNameHash.bytes ∧
        caps.SecDigestCreate x.certID.algId.algorithm.bytes
          x.certID.algId.parameters.bytes publicKey = some x.certID.issuerPubKeyHash.bytes :=
      fun ⟨x, hx, hrest⟩ => ⟨x, List.mem_cons_of_mem _ hx, hrest⟩
    unfold referenceCopySingleResponse.loop at h
    by_cases hs : serial = some resp.certID.serialNumber.bytes
    · rw [if_pos hs] at h
      by_cases hd : caps.SecDigestCreate resp.certID.algId.algorithm.bytes
            resp.certID.algId.parameters.bytes issuer = some resp.certID.issuerNameHash.bytes ∧
          caps.SecDigestCreate resp.certID.algId.algorithm.bytes
            resp.certID.algId.parameters.bytes publicKey
              = some resp.certID.issuerPubKeyHash.bytes
      · rw [if_pos hd] at h
        cases hc : SecOCSPSingleResponseCreate dec coder resp with
        | none =>
          simp only [hc] at h
          exact lift (ih h)
        | some sr0 =>
          simp only [hc, Option.some.injEq] at h
          subst h
          exact ⟨resp, List.mem_cons_self _ _, hc, hs, hd.1, hd.2⟩
      · rw [if_neg hd] at h
        exact lift (ih h)
    · rw [if_neg hs] at h
      exact lift (ih h)

/-- The reference loop skips the entries that do not fully match and returns the
single response built from the first entry that does, when it can be built. -/
theorem referenceCopySingleResponse_loop_first {Cert : Type} (dec : DateDecoder)
    (coder : DecodeCapability) (caps : RequestCapability Cert)
    (issuer publicKey : ByteString) (serial : Option ByteString)
    (resp : SecAsn1OCSPSingleResponse) (post : List SecAsn1OCSPSingleResponse)
    (sr : SecOCSPSingleResponse)
    (hs : serial = some resp.certID.serialNumber.bytes)
    (hn : caps.SecDigestCreate resp.certID.algId.algorithm.bytes
      resp.certID.algId.parameters.bytes issuer = some resp.certID.issuerNameHash.bytes)
    (hk : caps.SecDigestCreate resp.certID.algId.algorithm.bytes
      resp.certID.algId.parameters.bytes publicKey = some resp.certID.issuerPubKeyHash.bytes)
    (hc : SecOCSPSingleResponseCreate dec coder resp = some sr) :
    ∀ pre : List SecAsn1OCSPSingleResponse,
      (∀ x ∈ pre, ¬ (serial = some x.certID.serialNumber.bytes ∧
        caps.SecDigestCreate x.certID.algId.algorithm.bytes
          x.certID.algId.parameters.bytes issuer = some x.certID.issuerNameHash.bytes ∧
        caps.SecDigestCreate x.certID.algId.algorithm.bytes
          x.certID.algId.parameters.bytes publicKey = some x.certID.issuerPubKeyHash.bytes)) →
      referenceCopySingleResponse.loop dec coder caps issuer publicKey serial
        (pre ++ resp :: post) = some sr := by
  intro pre
  induction pre with
  | nil =>
    intro _
    simp only [List.nil_append]
    unfold referenceCopySingleResponse.loop
    rw [if_pos hs, if_pos ⟨hn, hk⟩, hc]
  | cons x rest ih =>
    intro hpre
    have hx := hpre x (List.mem_cons_self _ _)
    have hrest := ih (fun y hy => hpre y (List.mem_cons_of_mem _ hy))
    simp only [List.cons_append]
    unfold referenceCopySingleResponse.loop
    by_cases hxs : serial = some x.certID.serialNumber.bytes
    · have hxd : ¬ (caps.SecDigestCreate x.certID.algId.algorithm.bytes
            x.certID.algId.parameters.bytes issuer = some x.certID.issuerNameHash.bytes ∧
          caps.SecDigestCreate x.certID.algId.algorithm.bytes
            x.certID.algId.parameters.bytes publicKey = some x.certID.issuerPubKeyHash.bytes) :=
        fun h => hx ⟨hxs, h⟩
      rw [if_pos hxs, if_neg hxd]
      exact hrest
    · rw [if_neg hxs]
      exact hrest

/-- The reference loop returns none when no entry has the serial of the
request. -/
theorem referenceCopySingleResponse_loop_none {Cert : Type} (dec : DateDecoder)
    (coder : DecodeCapability) (caps : RequestCapability Cert)
    (issuer publicKey : ByteString) (serial : Option ByteString) :
    ∀ responses : List SecAsn1OCSPSingleResponse,
      (∀ resp ∈ responses, serial ≠ some resp.certID.serialNumber.bytes) →
      referenceCopySingleResponse.loop dec coder caps issuer publicKey serial responses
        = none := by
  intro responses
  induction responses with
  | nil => intro _; simp [referenceCopySingleResponse.loop]
  | cons resp rest ih =>
    intro h
    unfold referenceCopySingleResponse.loop
    rw [if_neg (h resp (List.mem_cons_self _ _))]
    exact ih (fun x hx => h x (List.mem_cons_of_mem _ hx))

/-- SecOCSPResponseCopySingleResponse on a request and a decoded responses
array, written over the reference loop. -/
theorem SecOCSPResponseCopySingleResponse_eq {Cert : Type} (dec : DateDecoder)
    (coder : DecodeCapability) (caps : RequestCapability Cert)
    (r : SecOCSPResponse) (req : SecOCSPRequest Cert)
    (responses : List SecAsn1OCSPSingleResponse)
    (hresp : r.responseData.responses = some responses) :
    SecOCSPResponseCopySingleResponse dec coder caps r (some req) =
      some (referenceCopySingleResponse.loop dec coder caps
        (caps.SecCertificateCopyIssuerSequence req.certificate)
        (caps.SecCertificateGetPublicKeyData req.issuer)
        (caps.SecCertificateCopySerialNumber req.certificate) responses) := by
  unfold SecOCSPResponseCopySingleResponse
  simp only [hresp]
  rw [SecOCSPResponseCopySingleResponse_loop_eq_reference]
  intro a p ha
  simp at ha

/-! ## Matcher: soundness, first match, and the digest cache -/

/-- C12: matcher soundness. If SecOCSPResponseCopySingleResponse returns a single
response, it was built from an entry of the response whose serial number is, in
length and bytes, the serial number of the subject certificate, and whose
issuerNameHash and issuerPubKeyHash are, in length and bytes, the digests of the
issuer name and of the issuer public key under the algorithm and parameters that
entry declares. In particular the result is none when the request is absent, and
when every entry's serial differs from the subject's serial. -/
theorem SecOCSPResponseCopySingleResponse_sound {Cert : Type} (dec : DateDecoder)
    (coder : DecodeCapability) (caps : RequestCapability Cert)
    (r : SecOCSPResponse) (request : Option (SecOCSPRequest Cert)) :
    (∀ sr, SecOCSPResponseCopySingleResponse dec coder caps r request = some (some sr) →
      ∃ req responses resp, request = some req ∧ r.responseData.responses = some responses ∧
        resp ∈ responses ∧ SecOCSPSingleResponseCreate dec coder resp = some sr ∧
        caps.SecCertificateCopySerialNumber req.certificate
          = some resp.certID.serialNumber.bytes ∧
        caps.SecDigestCreate resp.certID.algId.algorithm.bytes
          resp.certID.algId.parameters.bytes
          (caps.SecCertificateCopyIssuerSequence req.certificate)
            = some resp.certID.issuerNameHash.bytes ∧
        caps.SecDigestCreate resp.certID.algId.algorithm.bytes
          resp.certID.algId.parameters.bytes
          (caps.SecCertificateGetPublicKeyData req.issuer)
            = some resp.certID.issuerPubKeyHash.bytes) ∧
    (request = none →
      SecOCSPResponseCopySingleResponse dec coder caps r request = some none) ∧
    (∀ req responses, request = some req → r.responseData.responses = some responses →
      (∀ resp ∈ responses, caps.SecCertificateCopySerialNumber req.certificate
        ≠ some resp.certID.serialNumber.bytes) →
      SecOCSPResponseCopySingleResponse dec coder caps r request = some none) := by
  refine ⟨?_, ?_, ?_⟩
  · intro sr h
    cases request with
    | none => simp [SecOCSPResponseCopySingleResponse] at h
    | some req =>
      cases hresp : r.responseData.responses with
      | none => simp [SecOCSPResponseCopySingleResponse, hresp] at h
      | some responses =>
        rw [SecOCSPResponseCopySingleResponse_eq dec coder caps r req responses hresp] at h
        simp only [Option.some.injEq] at h
        obtain ⟨resp, hmem, hc, hs, hn, hk⟩ :=
          referenceCopySingleResponse_loop_some dec coder caps _ _ _ sr responses h
        exact ⟨req, responses, resp, rfl, rfl, hmem, hc, hs, hn, hk⟩
  · intro h
    subst h
    rfl
  · intro req responses hreq hresp hall
    subst hreq
    rw [SecOCSPResponseCopySingleResponse_eq dec coder caps r req responses hresp,
      referenceCopySingleResponse_loop_none dec coder caps _ _ _ responses hall]

/-- Witness for C12: for the request (certificate 5, issuer 9) the matcher
returns the single response of the fourth of five entries, so the subject has a
serial number; without a request, and for certificate 7 whose serial no entry
carries, the result is none. -/
theorem SecOCSPResponseCopySingleResponse_sound_witness :
    (SecOCSPResponseCopySingleResponse sampleDecoder sampleCoder sampleRequestCaps
        (sampleResponse 1
          (some [sampleEntry [1] [106] [10, 10] [6] ⟨some [0, 1]⟩,
                 sampleEntry [3] [106] [10, 10] [5] ⟨some [0, 2]⟩,
                 sampleEntry [2] [106] [10, 10] [5] ⟨some [0, 3]⟩,
                 sampleEntry [2] [107] [11, 11] [5] ⟨some [0, 4]⟩,
                 sampleEntry [1] [106] [10, 10] [5] ⟨some [0, 5]⟩]) none 1 [])
        (some ⟨5, 9⟩)
      = some (some { certStatus := 0, thisUpdate := 4, nextUpdate := 0, revokedTime := 0,
                     crlReason := -1, scts := none }) ∧
     sampleRequestCaps.SecCertificateCopySerialNumber 5 ≠ none) ∧
    SecOCSPResponseCopySingleResponse sampleDecoder sampleCoder sampleRequestCaps
        (sampleResponse 1 (some [sampleEntry [1] [106] [10, 10] [6] ⟨some [0, 1]⟩]) none 1 [])
        none = some none ∧
    SecOCSPResponseCopySingleResponse sampleDecoder sampleCoder sampleRequestCaps
        (sampleResponse 1
          (some [sampleEntry [1] [106] [10, 10] [6] ⟨some [0, 1]⟩,
                 sampleEntry [1] [106] [10, 10] [7, 0] ⟨some [0, 5]⟩]) none 1 [])
        (some ⟨7, 9⟩) = some none := by
  refine ⟨⟨by decide, ?_⟩, ?_, ?_⟩
  · obtain ⟨req, _, resp, hreq, _, _, _, hser, _⟩ :=
      (SecOCSPResponseCopySingleResponse_sound sampleDecoder sampleCoder sampleRequestCaps
        (sampleResponse 1
          (some [sampleEntry [1] [106] [10, 10] [6] ⟨some [0, 1]⟩,
                 sampleEntry [3] [106] [10, 10] [5] ⟨some [0, 2]⟩,
                 sampleEntry [2] [106] [10, 10] [5] ⟨some [0, 3]⟩,
                 sampleEntry [2] [107] [11, 11] [5] ⟨some [0, 4]⟩,
                 sampleEntry [1] [106] [10, 10] [5] ⟨some [0, 5]⟩]) none 1 [])
        (some ⟨5, 9⟩)).1
        { certStatus := 0, thisUpdate := 4, nextUpdate := 0, revokedTime := 0,
          crlReason := -1, scts := none } (by decide)
    have hreq2 : req = ⟨5, 9⟩ := by
      cases req
      simp only [Option.some.injEq, SecOCSPRequest.mk.injEq] at hreq
      simp [hreq.1, hreq.2]
    subst hreq2
    rw [hser]
    simp
  · exact (SecOCSPResponseCopySingleResponse_sound sampleDecoder sampleCoder sampleRequestCaps
      _ none).2.1 rfl
  · exact (SecOCSPResponseCopySingleResponse_sound sampleDecoder sampleCoder sampleRequestCaps
      _ (some ⟨7, 9⟩)).2.2 ⟨7, 9⟩ _ rfl rfl (by decide)

/-- C13: first match wins. If entry e is the lowest-index entry that fully
matches (serial and both digests under its own algorithm and parameters), and the
single response sr can be built from it, SecOCSPResponseCopySingleResponse returns
sr, whatever entries follow. -/
theorem SecOCSPResponseCopySingleResponse_first_match {Cert : Type} (dec : DateDecoder)
    (coder : DecodeCapability) (caps : RequestCapability Cert)
    (r : SecOCSPResponse) (req : SecOCSPRequest Cert)
    (pre post : List SecAsn1OCSPSingleResponse) (e : SecAsn1OCSPSingleResponse)
    (sr : SecOCSPSingleResponse)
    (hresp : r.responseData.responses = some (pre ++ e :: post))
    (hserial : caps.SecCertificateCopySerialNumber req.certificate
      = some e.certID.serialNumber.bytes)
    (hname : caps.SecDigestCreate e.certID.algId.algorithm.bytes e.certID.algId.parameters.bytes
      (caps.SecCertificateCopyIssuerSequence req.certificate)
        = some e.certID.issuerNameHash.bytes)
    (hkey : caps.SecDigestCreate e.certID.algId.algorithm.bytes e.certID.algId.parameters.bytes
      (caps.SecCertificateGetPublicKeyData req.issuer)
        = some e.certID.issuerPubKeyHash.bytes)
    (hpre : ∀ x ∈ pre, ¬ (caps.SecCertificateCopySerialNumber req.certificate
        = some x.certID.serialNumber.bytes ∧
      caps.SecDigestCreate x.certID.algId.algorithm.bytes x.certID.algId.parameters.bytes
        (caps.SecCertificateCopyIssuerSequence req.certificate)
          = some x.certID.issuerNameHash.bytes ∧
      caps.SecDigestCreate x.certID.algId.algorithm.bytes x.certID.algId.parameters.bytes
        (caps.SecCertificateGetPublicKeyData req.issuer)
          = some x.certID.issuerPubKeyHash.bytes))
    (hcreate : SecOCSPSingleResponseCreate dec coder e = some sr) :
    SecOCSPResponseCopySingleResponse dec coder caps r (some req) = some (some sr) := by
  rw [SecOCSPResponseCopySingleResponse_eq dec coder caps r req _ hresp,
    referenceCopySingleResponse_loop_first dec coder caps _ _ _ e post sr hserial hname hkey
      hcreate pre hpre]

/-- Witness for C13: the fourth entry is the first full match for the request
(certificate 5, issuer 9); the fifth matches too and is not returned. -/
theorem SecOCSPResponseCopySingleResponse_first_match_witness :
    SecOCSPResponseCopySingleResponse sampleDecoder sampleCoder sampleRequestCaps
        (sampleResponse 1
          (some ([sampleEntry [1] [106] [10, 10] [6] ⟨some [0, 1]⟩,
                  sampleEntry [3] [106] [10, 10] [5] ⟨some [0, 2]⟩,
                  sampleEntry [2] [106] [10, 10] [5] ⟨some [0, 3]⟩] ++
                 sampleEntry [2] [107] [11, 11] [5] ⟨some [0, 4]⟩ ::
                 [sampleEntry [1] [106] [10, 10] [5] ⟨some [0, 5]⟩])) none 1 [])
        (some ⟨5, 9⟩)
      = some (some { certStatus := 0, thisUpdate := 4, nextUpdate := 0, revokedTime := 0,
                     crlReason := -1, scts := none }) :=
  SecOCSPResponseCopySingleResponse_first_match sampleDecoder sampleCoder sampleRequestCaps
    _ ⟨5, 9⟩
    [sampleEntry [1] [106] [10, 10] [6] ⟨some [0, 1]⟩,
     sampleEntry [3] [106] [10, 10] [5] ⟨some [0, 2]⟩,
     sampleEntry [2] [106] [10, 10] [5] ⟨some [0, 3]⟩]
    [sampleEntry [1] [106] [10, 10] [5] ⟨some [0, 5]⟩]
    (sampleEntry [2] [107] [11, 11] [5] ⟨some [0, 4]⟩) _ rfl
    (by decide) (by decide) (by decide) (by decide) (by decide)

/-- C14: digest caching is unobservable. With the digest capability a function of
(algorithm, parameters, bytes), SecOCSPResponseCopySingleResponse, which recomputes
the issuer digests only when the algorithm or parameters of a candidate differ from
the ones used last, returns the same result as the reference matcher, which
recomputes both digests from the declared algorithm and parameters of every
candidate whose serial matches. -/
theorem SecOCSPResponseCopySingleResponse_eq_reference {Cert : Type} (dec : DateDecoder)
    (coder : DecodeCapability) (caps : RequestCapability Cert)
    (r : SecOCSPResponse) (request : Option (SecOCSPRequest Cert)) :
    SecOCSPResponseCopySingleResponse dec coder caps r request =
      referenceCopySingleResponse dec coder caps r request := by
  cases request with
  | none => rfl
  | some req =>
    cases hresp : r.responseData.responses with
    | none => simp [SecOCSPResponseCopySingleResponse, referenceCopySingleResponse, hresp]
    | some responses =>
      rw [SecOCSPResponseCopySingleResponse_eq dec coder caps r req responses hresp]
      simp [referenceCopySingleResponse, hresp]

/-! ## Signer search: which certificate is returned -/

/-- A certificate that matches the responder id, has an extractable key and
verifies the signature passes SecOCSPResponseIsIssuer. -/
theorem SecOCSPResponseIsIssuer_of_checks {Cert Key : Type}
    (caps : CertificateCapability Cert Key) (r : SecOCSPResponse) (c : Cert) (key : Key)
    (hname : r.responderIdTag = RIT_Name →
      caps.SecCertificateCopySubjectSequence c = some r.responderID.byName.bytes)
    (hkeyid : r.responderIdTag ≠ RIT_Name →
      caps.SecCertificateCopyPublicKeySHA1Digest c = r.responderID.byKey.bytes)
    (hpub : caps.SecCertificateCopyPublicKey c = some key)
    (hver : caps.SecKeyDigestAndVerify key r.basicResponse.algId
      r.basicResponse.tbsResponseData.bytes r.basicResponse.tbsResponseData.bytes.length
      r.basicResponse.sig.Data (r.basicResponse.sig.Length / 8) = errSecSuccess) :
    SecOCSPResponseIsIssuer caps r c = true := by
  have hself : ∀ b : ByteString, memcmp b b b.length = 0 := by
    intro b
    simp [memcmp]
  unfold SecOCSPResponseIsIssuer
  by_cases htag : r.responderIdTag = RIT_Name
  · simp only [htag, if_true, hname htag, SecAsn1Item.Length, hself, beq_self_eq_true,
      Bool.and_self, hpub, SecOCSPResponseVerifySignature, hver]
  · simp only [htag, if_false, hkeyid htag, SecAsn1Item.Length, hself, beq_self_eq_true,
      Bool.and_self, if_true, hpub, SecOCSPResponseVerifySignature, hver]

/-- A certificate that fails one of the checks fails SecOCSPResponseIsIssuer. -/
theorem SecOCSPResponseIsIssuer_false {Cert Key : Type}
    (caps : CertificateCapability Cert Key) (r : SecOCSPResponse) (c : Cert)
    (h : ¬ ((r.responderIdTag = RIT_Name →
        caps.SecCertificateCopySubjectSequence c = some r.responderID.byName.bytes) ∧
      (r.responderIdTag ≠ RIT_Name →
        caps.SecCertificateCopyPublicKeySHA1Digest c = r.responderID.byKey.bytes) ∧
      ∃ key, caps.SecCertificateCopyPublicKey c = some key ∧
        caps.SecKeyDigestAndVerify key r.basicResponse.algId
          r.basicResponse.tbsResponseData.bytes r.basicResponse.tbsResponseData.bytes.length
          r.basicResponse.sig.Data (r.basicResponse.sig.Length / 8) = errSecSuccess)) :
    SecOCSPResponseIsIssuer caps r c = false := by
  cases hiss : SecOCSPResponseIsIssuer caps r c with
  | false => rfl
  | true => exact absurd (SecOCSPResponseIsIssuer_true caps r c hiss) h

/-- The loop over the embedded certificates skips the certificates that do not
parse or fail SecOCSPResponseIsIssuer and returns the first that passes. -/
theorem SecOCSPResponseCopySigner_loop_first {Cert Key : Type}
    (caps : CertificateCapability Cert Key) (r : SecOCSPResponse)
    (item : SecAsn1Item) (post : List SecAsn1Item) (c : Cert)
    (hparse : caps.SecCertificateCreateWithBytes item.bytes = some c)
    (hpass : SecOCSPResponseIsIssuer caps r c = true) :
    ∀ pre : List SecAsn1Item,
      (∀ i ∈ pre, ∀ c0, caps.SecCertificateCreateWithBytes i.bytes = some c0 →
        SecOCSPResponseIsIssuer caps r c0 = false) →
      SecOCSPResponseCopySigner.loop caps r (pre ++ item :: post) = some c := by
  intro pre
  induction pre with
  | nil =>
    intro _
    simp only [List.nil_append]
    unfold SecOCSPResponseCopySigner.loop
    simp [hparse, hpass]
  | cons x rest ih =>
    intro hpre
    have hrest := ih (fun i hi c0 hc0 => hpre i (List.mem_cons_of_mem _ hi) c0 hc0)
    simp only [List.cons_append]
    unfold SecOCSPResponseCopySigner.loop
    cases hx : caps.SecCertificateCreateWithBytes x.bytes with
    | none => simpa using hrest
    | some cx =>
      have := hpre x (List.mem_cons_self _ _) cx hx
      simp [this, hrest]

/-- C15: if some embedded certificate parses and passes both the identity check
and the signature check, SecOCSPResponseCopySigner returns the earliest such
embedded certificate: it is preferred over every later embedded certificate and
over the issuer, whether or not those pass, and embedded certificates before it
that do not parse are skipped. -/
theorem SecOCSPResponseCopySigner_first_embedded {Cert Key : Type}
    (caps : CertificateCapability Cert Key) (r : SecOCSPResponse) (issuer : Option Cert)
    (pre post : List SecAsn1Item) (item : SecAsn1Item) (c : Cert) (key : Key)
    (hcerts : r.basicResponse.certs = some (pre ++ item :: post))
    (hparse : caps.SecCertificateCreateWithBytes item.bytes = some c)
    (hname : r.responderIdTag = RIT_Name →
      caps.SecCertificateCopySubjectSequence c = some r.responderID.byName.bytes)
    (hkeyid : r.responderIdTag ≠ RIT_Name →
      caps.SecCertificateCopyPublicKeySHA1Digest c = r.responderID.byKey.bytes)
    (hpub : caps.SecCertificateCopyPublicKey c = some key)
    (hver : caps.SecKeyDigestAndVerify key r.basicResponse.algId
      r.basicResponse.tbsResponseData.bytes r.basicResponse.tbsResponseData.bytes.length
      r.basicResponse.sig.Data (r.basicResponse.sig.Length / 8) = errSecSuccess)
    (hpre : ∀ i ∈ pre, ∀ c0, caps.SecCertificateCreateWithBytes i.bytes = some c0 →
      ¬ ((r.responderIdTag = RIT_Name →
          caps.SecCertificateCopySubjectSequence c0 = some r.responderID.byName.bytes) ∧
        (r.responderIdTag ≠ RIT_Name →
          caps.SecCertificateCopyPublicKeySHA1Digest c0 = r.responderID.byKey.bytes) ∧
        ∃ key0, caps.SecCertificateCopyPublicKey c0 = some key0 ∧
          caps.SecKeyDigestAndVerify key0 r.basicResponse.algId
            r.basicResponse.tbsResponseData.bytes r.basicResponse.tbsResponseData.bytes.length
            r.basicResponse.sig.Data (r.basicResponse.sig.Length / 8) = errSecSuccess)) :
    SecOCSPResponseCopySigner caps r issuer = some c := by
  have hpass := SecOCSPResponseIsIssuer_of_checks caps r c key hname hkeyid hpub hver
  have hloop := SecOCSPResponseCopySigner_loop_first caps r item post c hparse hpass pre
    (fun i hi c0 hc0 => SecOCSPResponseIsIssuer_false caps r c0 (hpre i hi c0 hc0))
  unfold SecOCSPResponseCopySigner
  simp only [hcerts, Option.getD_some, hloop]

/-- Witness for C15: with embedded certificates 200 (unparseable), 3 (bad
signature), 4, 4 and responder name [4], the signer is the certificate parsed
from the third one, although the issuer 4 passes too. -/
theorem SecOCSPResponseCopySigner_first_embedded_witness :
    SecOCSPResponseCopySigner sampleCaps
        (sampleResponse 1 none
          (some ([⟨some [200]⟩, ⟨some [3]⟩] ++ ⟨some [4]⟩ :: [⟨some [4]⟩])) 1 [4]) (some 4)
      = some 4 :=
  SecOCSPResponseCopySigner_first_embedded sampleCaps _ (some 4)
    [⟨some [200]⟩, ⟨some [3]⟩] [⟨some [4]⟩] ⟨some [4]⟩ 4 4 rfl (by decide) (by decide)
    (by decide) (by decide) (by decide)
    (by
      intro i hi c0 hc0 hpass
      obtain ⟨hname, _, _⟩ := hpass
      simp only [List.mem_cons, List.mem_singleton, List.not_mem_nil, or_false] at hi
      rcases hi with rfl | rfl
      · simp [sampleCaps, SecAsn1Item.bytes] at hc0
      · have h3 : c0 = 3 := by
          simp [sampleCaps, SecAsn1Item.bytes] at hc0
          exact hc0.symm
        subst h3
        have := hname (by decide)
        simp [sampleCaps, sampleResponse, SecAsn1Item.bytes] at this)

/-- C16: issuer fallback. For a non-null issuer: if no embedded certificate both
matches the responder identity and verifies the signature, and the issuer
certificate satisfies both checks, SecOCSPResponseCopySigner returns the issuer
certificate itself. -/
theorem SecOCSPResponseCopySigner_issuer_fallback {Cert Key : Type}
    (caps : CertificateCapability Cert Key) (r : SecOCSPResponse) (issuer : Cert) (key : Key)
    (hnone : ∀ i ∈ r.basicResponse.certs.getD [], ∀ c0,
      caps.SecCertificateCreateWithBytes i.bytes = some c0 →
      ¬ ((r.responderIdTag = RIT_Name →
          caps.SecCertificateCopySubjectSequence c0 = some r.responderID.byName.bytes) ∧
        (r.responderIdTag ≠ RIT_Name →
          caps.SecCertificateCopyPublicKeySHA1Digest c0 = r.responderID.byKey.bytes) ∧
        ∃ key0, caps.SecCertificateCopyPublicKey c0 = some key0 ∧
          caps.SecKeyDigestAndVerify key0 r.basicResponse.algId
            r.basicResponse.tbsResponseData.bytes r.basicResponse.tbsResponseData.bytes.length
            r.basicResponse.sig.Data (r.basicResponse.sig.Length / 8) = errSecSuccess))
    (hname : r.responderIdTag = RIT_Name →
      caps.SecCertificateCopySubjectSequence issuer = some r.responderID.byName.bytes)
    (hkeyid : r.responderIdTag ≠ RIT_Name →
      caps.SecCertificateCopyPublicKeySHA1Digest issuer = r.responderID.byKey.bytes)
    (hpub : caps.SecCertificateCopyPublicKey issuer = some key)
    (hver : caps.SecKeyDigestAndVerify key r.basicResponse.algId
      r.basicResponse.tbsResponseData.bytes r.basicResponse.tbsResponseData.bytes.length
      r.basicResponse.sig.Data (r.basicResponse.sig.Length / 8) = errSecSuccess) :
    SecOCSPResponseCopySigner caps r (some issuer) = some issuer := by
  have hpass := SecOCSPResponseIsIssuer_of_checks caps r issuer key hname hkeyid hpub hver
  have hloop := SecOCSPResponseCopySigner_loop_none caps r (r.basicResponse.certs.getD [])
    (fun i hi c0 hc0 => SecOCSPResponseIsIssuer_false caps r c0 (hnone i hi c0 hc0))
  unfold SecOCSPResponseCopySigner
  simp only [hloop, hpass, if_true]

/-- Witness for C16: by key hash [6, 6], with embedded certificates 200
(unparseable) and 3 (another key), the signer is the issuer 6. -/
theorem SecOCSPResponseCopySigner_issuer_fallback_witness :
    SecOCSPResponseCopySigner sampleCaps
        (sampleResponse 1 none (some [⟨some [200]⟩, ⟨some [3]⟩]) 2 [6, 6]) (some 6)
      = some 6 :=
  SecOCSPResponseCopySigner_issuer_fallback sampleCaps _ 6 6
    (by
      intro i hi c0 hc0 hpass
      obtain ⟨_, hkeyid, _⟩ := hpass
      simp only [sampleResponse, Option.getD_some, List.mem_cons, List.mem_singleton,
        List.not_mem_nil, or_false] at hi
      rcases hi with rfl | rfl
      · simp [sampleCaps, SecAsn1Item.bytes] at hc0
      · have h3 : c0 = 3 := by
          simp [sampleCaps, SecAsn1Item.bytes] at hc0
          exact hc0.symm
        subst h3
        have := hkeyid (by decide)
        simp [sampleCaps, sampleResponse, SecAsn1Item.bytes] at this)
    (by decide) (by decide) (by decide) (by decide)

/-! ## Construction of a response object: what a returned object holds -/

/-- What a returned object says about the decoded input: either the status is
not successful and the object carries only the data, the id and the status, or
the status is successful, every decode succeeded, and the object holds the
decoded structures. -/
theorem SecOCSPResponseCreateWithID_some (dec : DateDecoder) (coder : DecodeCapability)
    (ocspResponse : ByteString) (responseID : Int) (obj : SecOCSPResponse)
    (h : SecOCSPResponseCreateWithID dec coder ocspResponse responseID = some (some obj)) :
    ∃ status rest,
      (coder.kSecAsn1OCSPResponseTemplate ⟨some ocspResponse⟩).2.responseStatus.Data
        = some (status :: rest) ∧
      ((status ≠ kSecOCSPSuccess ∧
        obj = { SecOCSPResponse.calloc with
          data := ocspResponse, responseID := responseID, responseStatus := status }) ∨
       (status = kSecOCSPSuccess ∧
        ∃ responseBytes basicResponse responseData tagByte tagRest responderID,
          (coder.kSecAsn1OCSPResponseTemplate ⟨some ocspResponse⟩).2.responseBytes
            = some responseBytes ∧
          SecAsn1OidCompare (some responseBytes.responseType) (some OID_PKIX_OCSP_BASIC) = true ∧
          coder.kSecAsn1OCSPBasicResponseTemplate responseBytes.response = some basicResponse ∧
          coder.kSecAsn1OCSPResponseDataTemplate basicResponse.tbsResponseData
            = some responseData ∧
          genTimeToCFAbsTime dec responseData.producedAt ≠ NULL_TIME ∧
          responseData.responderID.Data = some (tagByte :: tagRest) ∧
          ((tagByte &&& SEC_ASN1_TAGNUM_MASK = RIT_Name ∧
              coder.kSecAsn1OCSPResponderIDAsNameTemplate responseData.responderID
                = some responderID) ∨
           (tagByte &&& SEC_ASN1_TAGNUM_MASK = RIT_Key ∧
              coder.kSecAsn1OCSPResponderIDAsKeyTemplate responseData.responderID
                = some responderID)) ∧
          obj = { SecOCSPResponse.calloc with
            data := ocspResponse, responseID := responseID, responseStatus := status,
            producedAt := genTimeToCFAbsTime dec responseData.producedAt,
            basicResponse := basicResponse, responseData := responseData,
            responderIdTag := tagByte &&& SEC_ASN1_TAGNUM_MASK,
            responderID := responderID })) := by
  unfold SecOCSPResponseCreateWithID at h
  simp only at h
  split at h
  · simp at h
  · simp at h
  · rename_i status rest hstatus
    refine ⟨status, rest, hstatus, ?_⟩
    by_cases hs : status = kSecOCSPSuccess
    · right
      refine ⟨hs, ?_⟩
      simp only [hs, ne_eq, not_true_eq_false, if_false] at h
      split at h
      · simp at h
      · rename_i responseBytes hrb
        split_ifs at h with hoid
        · simp at h
        · split at h
          · simp at h
          · rename_i basicResponse hbr
            split at h
            · simp at h
            · rename_i responseData hrd
              split_ifs at h with hprod
              · simp at h
              · split at h
                · simp at h
                · simp at h
                · rename_i tagByte tagRest htag
                  split at h
                  · simp at h
                  · rename_i decodeResponderID htempl
                    split at h
                    · simp at h
                    · rename_i responderID hrid
                      simp only [Option.some.injEq] at h
                      refine ⟨responseBytes, basicResponse, responseData, tagByte, tagRest,
                        responderID, hrb, by simpa using hoid, hbr, hrd, hprod, htag, ?_, ?_⟩
                      · split_ifs at htempl with h1 h2
                        · simp only [Option.some.injEq] at htempl
                          subst htempl
                          exact Or.inl ⟨h1, hrid⟩
                        · simp only [Option.some.injEq] at htempl
                          subst htempl
                          exact Or.inr ⟨h2, hrid⟩
                      · rw [← h, hs]
    · left
      simp only [ne_eq, hs, not_false_eq_true, if_true, Option.some.injEq] at h
      exact ⟨hs, h.symm⟩

/-- SecAsn1OidCompare of two non-NULL OIDs is true exactly when they have the
same bytes. -/
theorem SecAsn1OidCompare_iff (a b : SecAsn1Item) :
    SecAsn1OidCompare (some a) (some b) = true ↔ a.bytes = b.bytes := by
  constructor
  · intro h
    obtain ⟨x, hx, hb⟩ := SecAsn1OidCompare_some (some a) b h
    simp only [Option.some.injEq] at hx
    subst hx
    exact hb
  · intro h
    simp [SecAsn1OidCompare, SecAsn1Item.Length, h, memcmp]

/-- C17: round trip of construction. For every byte buffer b and id n for which
SecOCSPResponseCreateWithID succeeds, SecOCSPResponseGetData returns b,
SecOCSPResponseGetID returns n, SecOCSPGetResponseStatus returns the first byte
of the decoded responseStatus field, and, for a successful status,
SecOCSPResponseProducedAt returns the timestamp decoded from the producedAt field
of the response data decoded from the tbsResponseData of the basic response. -/
theorem SecOCSPResponseCreateWithID_round_trip (dec : DateDecoder) (coder : DecodeCapability)
    (b : ByteString) (n : Int) (obj : SecOCSPResponse)
    (h : SecOCSPResponseCreateWithID dec coder b n = some (some obj)) :
    SecOCSPResponseGetData obj = b ∧
    SecOCSPResponseGetID obj = n ∧
    (∃ rest, (coder.kSecAsn1OCSPResponseTemplate ⟨some b⟩).2.responseStatus.Data
      = some (SecOCSPGetResponseStatus obj :: rest)) ∧
    (SecOCSPGetResponseStatus obj = kSecOCSPSuccess →
      ∃ responseBytes basicResponse responseData,
        (coder.kSecAsn1OCSPResponseTemplate ⟨some b⟩).2.responseBytes = some responseBytes ∧
        coder.kSecAsn1OCSPBasicResponseTemplate responseBytes.response = some basicResponse ∧
        coder.kSecAsn1OCSPResponseDataTemplate basicResponse.tbsResponseData
          = some responseData ∧
        SecOCSPResponseProducedAt obj = genTimeToCFAbsTime dec responseData.producedAt) := by
  obtain ⟨status, rest, hstatus, hcases⟩ := SecOCSPResponseCreateWithID_some dec coder b n obj h
  rcases hcases with ⟨hne, hobj⟩ | ⟨hs, rb, br, rd, tagByte, tagRest, rid, hrb, _, hbr, hrd, _, _,
    _, hobj⟩
  · subst hobj
    exact ⟨rfl, rfl, ⟨rest, hstatus⟩, fun hsucc => absurd hsucc hne⟩
  · subst hobj
    exact ⟨rfl, rfl, ⟨rest, hstatus⟩, fun _ => ⟨rb, br, rd, hrb, hbr, hrd, rfl⟩⟩

/-- Witness for C17: the buffer [0, 1, 48, 48, 161, 39, 16] with id 5 gives an
object with that data, id 5 and producedAt 10000. -/
theorem SecOCSPResponseCreateWithID_round_trip_witness :
    SecOCSPResponseCreateWithID sampleDecoder sampleCoder [0, 1, 48, 48, 161, 39, 16] 5
      = some (some { SecOCSPResponse.calloc with
          data := [0, 1, 48, 48, 161, 39, 16], responseID := 5, responseStatus := 0,
          producedAt := 10000,
          basicResponse := { tbsResponseData := ⟨some [48, 161, 39, 16]⟩,
                             algId := { algorithm := ⟨none⟩, parameters := ⟨none⟩ },
                             sig := { Data := [1, 2], Length := 16 },
                             certs := none },
          responseData := { responderID := ⟨some [161, 7]⟩, producedAt := ⟨some [0, 39, 16]⟩,
                            responses := some [] },
          responderIdTag := 1,
          responderID := { byName := ⟨some [7]⟩, byKey := ⟨some [7]⟩ } }) ∧
    SecOCSPResponseGetData { SecOCSPResponse.calloc with
          data := [0, 1, 48, 48, 161, 39, 16], responseID := 5, responseStatus := 0,
          producedAt := 10000,
          basicResponse := { tbsResponseData := ⟨some [48, 161, 39, 16]⟩,
                             algId := { algorithm := ⟨none⟩, parameters := ⟨none⟩ },
                             sig := { Data := [1, 2], Length := 16 },
                             certs := none },
          responseData := { responderID := ⟨some [161, 7]⟩, producedAt := ⟨some [0, 39, 16]⟩,
                            responses := some [] },
          responderIdTag := 1,
          responderID := { byName := ⟨some [7]⟩, byKey := ⟨some [7]⟩ } }
      = [0, 1, 48, 48, 161, 39, 16] :=
  ⟨by decide,
   (SecOCSPResponseCreateWithID_round_trip sampleDecoder sampleCoder
      [0, 1, 48, 48, 161, 39, 16] 5 _ (by decide)).1⟩

/-- C18: for every input whose decoded responseStatus field is non-empty with a
first byte other than successful (0), SecOCSPResponseCreateWithID succeeds and
returns the zeroed object carrying the data, the supplied id and that status. The
responseBytes are not examined: every decoder that yields the same status byte
gives the same object, whatever it yields for responseBytes. -/
theorem SecOCSPResponseCreateWithID_not_successful (dec : DateDecoder)
    (coder : DecodeCapability) (b : ByteString) (n : Int) (status : Nat) (rest : List Nat)
    (hstatus : (coder.kSecAsn1OCSPResponseTemplate ⟨some b⟩).2.responseStatus.Data
      = some (status :: rest))
    (hne : status ≠ kSecOCSPSuccess) :
    SecOCSPResponseCreateWithID dec coder b n
      = some (some { SecOCSPResponse.calloc with
          data := b, responseID := n, responseStatus := status }) ∧
    ∀ (coder2 : DecodeCapability) (rest2 : List Nat),
      (coder2.kSecAsn1OCSPResponseTemplate ⟨some b⟩).2.responseStatus.Data
        = some (status :: rest2) →
      SecOCSPResponseCreateWithID dec coder2 b n = SecOCSPResponseCreateWithID dec coder b n := by
  have key : ∀ (c : DecodeCapability) (rs : List Nat),
      (c.kSecAsn1OCSPResponseTemplate ⟨some b⟩).2.responseStatus.Data = some (status :: rs) →
      SecOCSPResponseCreateWithID dec c b n
        = some (some { SecOCSPResponse.calloc with
            data := b, responseID := n, responseStatus := status }) := by
    intro c rs hc
    unfold SecOCSPResponseCreateWithID
    simp only [hc, ne_eq, hne, not_false_eq_true, if_true]
  exact ⟨key coder rest hstatus, fun coder2 rest2 h2 => by
    rw [key coder2 rest2 h2, key coder rest hstatus]⟩

/-- Witness for C18: the buffer [3] (tryLater, no responseBytes) with id 5 gives
the zeroed object with status 3 and id 5. -/
theorem SecOCSPResponseCreateWithID_not_successful_witness :
    SecOCSPResponseCreateWithID sampleDecoder sampleCoder [3] 5
      = some (some { SecOCSPResponse.calloc with
          data := [3], responseID := 5, responseStatus := 3 }) :=
  (SecOCSPResponseCreateWithID_not_successful sampleDecoder sampleCoder [3] 5 3 [] rfl
    (by decide)).1

/-- C19: construction fails (returns no object) for every input whose
responseStatus field is absent or empty, and for every input with status
successful whose responseBytes is absent, whose responseType OID is not the
basic-OCSP-response OID, or whose basic-response or tbsResponseData decode
fails. -/
theorem SecOCSPResponseCreateWithID_fails (dec : DateDecoder) (coder : DecodeCapability)
    (b : ByteString) (n : Int)
    (h : (coder.kSecAsn1OCSPResponseTemplate ⟨some b⟩).2.responseStatus.Data = none ∨
      (coder.kSecAsn1OCSPResponseTemplate ⟨some b⟩).2.responseStatus.Data = some [] ∨
      ((∃ rest, (coder.kSecAsn1OCSPResponseTemplate ⟨some b⟩).2.responseStatus.Data
          = some (kSecOCSPSuccess :: rest)) ∧
        ((coder.kSecAsn1OCSPResponseTemplate ⟨some b⟩).2.responseBytes = none ∨
          ∃ responseBytes,
            (coder.kSecAsn1OCSPResponseTemplate ⟨some b⟩).2.responseBytes = some responseBytes ∧
            (responseBytes.responseType.bytes ≠ OID_PKIX_OCSP_BASIC.bytes ∨
              coder.kSecAsn1OCSPBasicResponseTemplate responseBytes.response = none ∨
              ∃ basicResponse,
                coder.kSecAsn1OCSPBasicResponseTemplate responseBytes.response
                  = some basicResponse ∧
                coder.kSecAsn1OCSPResponseDataTemplate basicResponse.tbsResponseData
                  = none)))) :
    SecOCSPResponseCreateWithID dec coder b n = some none := by
  unfold SecOCSPResponseCreateWithID
  rcases h with h | h | ⟨⟨rest, hstatus⟩, h⟩
  · simp only [h]
  · simp only [h]
  · simp only [hstatus, ne_eq, not_true_eq_false, if_false]
    rcases h with h | ⟨rb, hrb, h⟩
    · simp only [h]
    · simp only [hrb]
      by_cases hoid : SecAsn1OidCompare (some rb.responseType) (some OID_PKIX_OCSP_BASIC) = true
      · simp only [hoid, Bool.not_true, Bool.false_eq_true, if_false]
        rcases h with h | h | ⟨br, hbr, hrd⟩
        · exact absurd ((SecAsn1OidCompare_iff _ _).mp hoid) h
        · simp only [h]
        · simp only [hbr, hrd]
      · simp only [Bool.not_eq_true] at hoid
        simp only [hoid, Bool.not_false, if_true]

/-- Witness for C19: the empty buffer (no responseStatus), a successful status
without responseBytes, with another response type, with an undecodable basic
response, and with undecodable response data all fail. -/
theorem SecOCSPResponseCreateWithID_fails_witness :
    SecOCSPResponseCreateWithID sampleDecoder sampleCoder [] 5 = some none ∧
    SecOCSPResponseCreateWithID sampleDecoder sampleCoder [0] 5 = some none ∧
    SecOCSPResponseCreateWithID sampleDecoder sampleCoder [0, 2, 48, 48, 161, 39, 16] 5
      = some none ∧
    SecOCSPResponseCreateWithID sampleDecoder sampleCoder [0, 1, 49] 5 = some none ∧
    SecOCSPResponseCreateWithID sampleDecoder sampleCoder [0, 1, 48, 49] 5 = some none :=
  ⟨SecOCSPResponseCreateWithID_fails sampleDecoder sampleCoder [] 5 (Or.inl rfl),
   SecOCSPResponseCreateWithID_fails sampleDecoder sampleCoder [0] 5
     (Or.inr (Or.inr ⟨⟨[], rfl⟩, Or.inl rfl⟩)),
   SecOCSPResponseCreateWithID_fails sampleDecoder sampleCoder [0, 2, 48, 48, 161, 39, 16] 5
     (Or.inr (Or.inr ⟨⟨[], rfl⟩, Or.inr ⟨_, rfl, Or.inl (by decide)⟩⟩)),
   SecOCSPResponseCreateWithID_fails sampleDecoder sampleCoder [0, 1, 49] 5
     (Or.inr (Or.inr ⟨⟨[], rfl⟩, Or.inr ⟨_, rfl, Or.inr (Or.inl rfl)⟩⟩)),
   SecOCSPResponseCreateWithID_fails sampleDecoder sampleCoder [0, 1, 48, 49] 5
     (Or.inr (Or.inr ⟨⟨[], rfl⟩, Or.inr ⟨_, rfl, Or.inr (Or.inr ⟨_, rfl, rfl⟩)⟩⟩))⟩

/-- C20: invariant of successful construction. Every object returned by
SecOCSPResponseCreateWithID with status successful has a producedAt that is the
decoded producedAt field and is not NULL_TIME, and a responder id tag that is
RIT_Name (1) or RIT_Key (2) and is the leading byte of the responderID masked to
its tag-number bits. For an input decoded up to the response data, an undecodable
producedAt, an absent responderID, or any other tag number makes construction
fail. -/
theorem SecOCSPResponseCreateWithID_successful (dec : DateDecoder) (coder : DecodeCapability)
    (b : ByteString) (n : Int) :
    (∀ obj, SecOCSPResponseCreateWithID dec coder b n = some (some obj) →
      obj.responseStatus = kSecOCSPSuccess →
      obj.producedAt = genTimeToCFAbsTime dec obj.responseData.producedAt ∧
      obj.producedAt ≠ NULL_TIME ∧
      (obj.responderIdTag = RIT_Name ∨ obj.responderIdTag = RIT_Key) ∧
      ∃ tagByte tagRest, obj.responseData.responderID.Data = some (tagByte :: tagRest) ∧
        obj.responderIdTag = tagByte &&& SEC_ASN1_TAGNUM_MASK) ∧
    (∀ rest responseBytes basicResponse responseData,
      (coder.kSecAsn1OCSPResponseTemplate ⟨some b⟩).2.responseStatus.Data
        = some (kSecOCSPSuccess :: rest) →
      (coder.kSecAsn1OCSPResponseTemplate ⟨some b⟩).2.responseBytes = some responseBytes →
      responseBytes.responseType.bytes = OID_PKIX_OCSP_BASIC.bytes →
      coder.kSecAsn1OCSPBasicResponseTemplate responseBytes.response = some basicResponse →
      coder.kSecAsn1OCSPResponseDataTemplate basicResponse.tbsResponseData = some responseData →
      (genTimeToCFAbsTime dec responseData.producedAt = NULL_TIME ∨
        responseData.responderID.Data = none ∨
        ∃ tagByte tagRest, responseData.responderID.Data = some (tagByte :: tagRest) ∧
          tagByte &&& SEC_ASN1_TAGNUM_MASK ≠ RIT_Name ∧
          tagByte &&& SEC_ASN1_TAGNUM_MASK ≠ RIT_Key) →
      SecOCSPResponseCreateWithID dec coder b n = some none) := by
  constructor
  · intro obj h hsucc
    obtain ⟨status, rest, _, hcases⟩ := SecOCSPResponseCreateWithID_some dec coder b n obj h
    rcases hcases with ⟨hne, hobj⟩ | ⟨_, rb, br, rd, tagByte, tagRest, rid, _, _, _, _, hprod,
      htag, htempl, hobj⟩
    · subst hobj
      exact absurd hsucc hne
    · subst hobj
      refine ⟨rfl, hprod, ?_, tagByte, tagRest, htag, rfl⟩
      rcases htempl with ⟨h1, _⟩ | ⟨h2, _⟩
      · exact Or.inl h1
      · exact Or.inr h2
  · intro rest rb br rd hstatus hrb hoid hbr hrd hbad
    have hcmp := (SecAsn1OidCompare_iff _ _).mpr hoid
    unfold SecOCSPResponseCreateWithID
    simp only [hstatus, ne_eq, not_true_eq_false, if_false, hrb, hcmp, Bool.not_true,
      Bool.false_eq_true, hbr, hrd]
    by_cases hprod : genTimeToCFAbsTime dec rd.producedAt = NULL_TIME
    · simp only [hprod, if_true]
    · simp only [hprod, if_false]
      rcases hbad with h | h | ⟨tagByte, tagRest, htag, h1, h2⟩
      · exact absurd h hprod
      · simp only [h]
      · simp only [htag, h1, h2, if_false]

/-- Witness for C20: the object built from [0, 1, 48, 48, 162, 39, 16] has the
key tag 2, the masked leading byte 162 of its responderID; the same input with
leading byte 163 (tag number 3) fails. -/
theorem SecOCSPResponseCreateWithID_successful_witness :
    (({ SecOCSPResponse.calloc with
          data := [0, 1, 48, 48, 162, 39, 16], responseID := 5, responseStatus := 0,
          producedAt := 10000,
          basicResponse := { tbsResponseData := ⟨some [48, 162, 39, 16]⟩,
                             algId := { algorithm := ⟨none⟩, parameters := ⟨none⟩ },
                             sig := { Data := [1, 2], Length := 16 },
                             certs := none },
          responseData := { responderID := ⟨some [162, 7]⟩, producedAt := ⟨some [0, 39, 16]⟩,
                            responses := some [] },
          responderIdTag := 2,
          responderID := { byName := ⟨some [7]⟩, byKey := ⟨some [7]⟩ } }
        : SecOCSPResponse).responderIdTag = RIT_Name ∨
      ({ SecOCSPResponse.calloc with
          data := [0, 1, 48, 48, 162, 39, 16], responseID := 5, responseStatus := 0,
          producedAt := 10000,
          basicResponse := { tbsResponseData := ⟨some [48, 162, 39, 16]⟩,
                             algId := { algorithm := ⟨none⟩, parameters := ⟨none⟩ },
                             sig := { Data := [1, 2], Length := 16 },
                             certs := none },
          responseData := { responderID := ⟨some [162, 7]⟩, producedAt := ⟨some [0, 39, 16]⟩,
                            responses := some [] },
          responderIdTag := 2,
          responderID := { byName := ⟨some [7]⟩, byKey := ⟨some [7]⟩ } }
        : SecOCSPResponse).responderIdTag = RIT_Key) ∧
    SecOCSPResponseCreateWithID sampleDecoder sampleCoder [0, 1, 48, 48, 163, 39, 16] 5
      = some none :=
  ⟨((SecOCSPResponseCreateWithID_successful sampleDecoder sampleCoder
      [0, 1, 48, 48, 162, 39, 16] 5).1 _ (by decide) rfl).2.2.1,
   (SecOCSPResponseCreateWithID_successful sampleDecoder sampleCoder
      [0, 1, 48, 48, 163, 39, 16] 5).2 [] _ _ _ rfl rfl rfl rfl rfl
      (Or.inr (Or.inr ⟨163, [7], rfl, by decide, by decide⟩))⟩

/-! ## Temporal validity: bounds on the stored times, and nextUpdate at or below the sentinel -/

/-- C29: never cached past validity. If SecOCSPResponseCalculateValidity returns
true and latestNextUpdate is set (not NULL_TIME), then expireTime <=
latestNextUpdate, for every maxAge however large, and latestNextUpdate >=
verifyTime - 4500. -/
theorem SecOCSPResponseCalculateValidity_expire_le_latest (dec : DateDecoder)
    (r r1 : SecOCSPResponse) (maxAge defaultTTL : CFTimeInterval) (verifyTime : CFAbsoluteTime)
    (hcall : SecOCSPResponseCalculateValidity dec r maxAge defaultTTL verifyTime
      = some (true, r1))
    (hset : r1.latestNextUpdate ≠ NULL_TIME) :
    r1.expireTime ≤ r1.latestNextUpdate ∧ r1.latestNextUpdate ≥ verifyTime - 4500 := by
  by_cases hprod : r.producedAt > verifyTime + LEEWAY
  · simp [SecOCSPResponseCalculateValidity, hprod] at hcall
  · cases hresp : r.responseData.responses with
    | none => simp [SecOCSPResponseCalculateValidity, hprod, hresp] at hcall
    | some responses =>
      rw [SecOCSPResponseCalculateValidity_eq dec r responses maxAge defaultTTL verifyTime hresp
        (not_lt.mp hprod)] at hcall
      have hL : LEEWAY = 4500 := rfl
      split_ifs at hcall with h1 h2 h3 h4
      · simp at hcall
      · simp only [Option.some.injEq, Prod.mk.injEq, true_and] at hcall
        subst hcall
        exact absurd h2 hset
      · simp at hcall
      · simp only [Option.some.injEq, Prod.mk.injEq, true_and] at hcall
        subst hcall
        rw [hL] at h3
        refine ⟨?_, not_lt.mp h3⟩
        show verifyTime + maxAge ≤ _
        linarith [h4.2]
      · simp only [Option.some.injEq, Prod.mk.injEq, true_and] at hcall
        subst hcall
        rw [hL] at h3
        exact ⟨le_refl _, not_lt.mp h3⟩

/-- Witness for C29: one entry with nextUpdate 10000 at verifyTime 5000 and
maxAge 1000000000: the stored expireTime 10000 is not beyond latestNextUpdate
10000. -/
theorem SecOCSPResponseCalculateValidity_expire_le_latest_witness :
    ({ sampleResponse 1 (some [sampleSingle ⟨some [0, 1]⟩ (some ⟨some [0, 39, 16]⟩)])
        none 1 [] with latestNextUpdate := 10000, expireTime := 10000 }
        : SecOCSPResponse).expireTime ≤ 10000 ∧
    (10000 : Int) ≥ 5000 - 4500 :=
  SecOCSPResponseCalculateValidity_expire_le_latest sampleDecoder
    (sampleResponse 1 (some [sampleSingle ⟨some [0, 1]⟩ (some ⟨some [0, 39, 16]⟩)]) none 1 [])
    { sampleResponse 1 (some [sampleSingle ⟨some [0, 1]⟩ (some ⟨some [0, 39, 16]⟩)])
        none 1 [] with latestNextUpdate := 10000, expireTime := 10000 }
    1000000000 300 5000 (by decide) (by decide)

/-- Two objects with the same producedAt and the same expireTime, whose responses
arrays give the same loop result, get the same boolean, latestNextUpdate and
expireTime. -/
theorem SecOCSPResponseCalculateValidity_congr (dec : DateDecoder)
    (r r2 : SecOCSPResponse) (responses responses2 : List SecAsn1OCSPSingleResponse)
    (maxAge defaultTTL : CFTimeInterval) (verifyTime : CFAbsoluteTime)
    (hprod : r2.producedAt = r.producedAt)
    (hexp : r2.expireTime = r.expireTime)
    (hresp : r.responseData.responses = some responses)
    (hresp2 : r2.responseData.responses = some responses2)
    (hloop : SecOCSPResponseCalculateValidity.loop dec verifyTime responses NULL_TIME =
      SecOCSPResponseCalculateValidity.loop dec verifyTime responses2 NULL_TIME) :
    (SecOCSPResponseCalculateValidity dec r maxAge defaultTTL verifyTime).map
        (fun p => (p.1, p.2.latestNextUpdate, p.2.expireTime)) =
      (SecOCSPResponseCalculateValidity dec r2 maxAge defaultTTL verifyTime).map
        (fun p => (p.1, p.2.latestNextUpdate, p.2.expireTime)) := by
  by_cases h : r.producedAt > verifyTime + LEEWAY
  · have h2 : r2.producedAt > verifyTime + LEEWAY := by rw [hprod]; exact h
    rw [SecOCSPResponseCalculateValidity_exit_producedAt dec r maxAge defaultTTL verifyTime h,
      SecOCSPResponseCalculateValidity_exit_producedAt dec r2 maxAge defaultTTL verifyTime h2]
    simp only [Option.map_some', hexp]
  · have h2 : r2.producedAt ≤ verifyTime + LEEWAY := by rw [hprod]; exact not_lt.mp h
    rw [SecOCSPResponseCalculateValidity_eq dec r responses maxAge defaultTTL verifyTime hresp
        (not_lt.mp h),
      SecOCSPResponseCalculateValidity_eq dec r2 responses2 maxAge defaultTTL verifyTime hresp2
        h2, ← hloop]
    split_ifs <;> simp only [Option.map_some', hexp]

/-! ## Construction of a single response: status, times, revocation -/

/-- A single response is built only from a record whose certStatus has a leading
byte, and its certStatus is that byte masked to the tag-number bits. -/
theorem SecOCSPSingleResponseCreate_certStatus (dec : DateDecoder) (coder : DecodeCapability)
    (resp : SecAsn1OCSPSingleResponse) (sr : SecOCSPSingleResponse)
    (h : SecOCSPSingleResponseCreate dec coder resp = some sr) :
    ∃ tagByte rest, resp.certStatus.Data = some (tagByte :: rest) ∧
      sr.certStatus = tagByte &&& SEC_ASN1_TAGNUM_MASK := by
  unfold SecOCSPSingleResponseCreate at h
  split at h
  · simp at h
  · simp at h
  · rename_i tagByte rest htag
    refine ⟨tagByte, rest, htag, ?_⟩
    simp only at h
    split at h
    · simp at h
    · split_ifs at h with hthis
      split at h
      · simp at h
      · simp only [Option.some.injEq] at h
        subst h
        rfl

/-- C23 as stated fails: a record whose certStatus has leading byte 131 (tag
number 3, none of Good 0, Revoked 1, Unknown 2) is accepted, and the single
response built from it has certStatus 3. -/
theorem SecOCSPSingleResponseCreate_certStatus_counterexample :
    (131 &&& SEC_ASN1_TAGNUM_MASK = 3) ∧
    (3 ≠ CS_Good ∧ 3 ≠ CS_Revoked ∧ 3 ≠ CS_Unknown) ∧
    SecOCSPSingleResponseCreate sampleDecoder sampleCoder
        { sampleSingle ⟨some [0, 1]⟩ none with certStatus := ⟨some [131]⟩ }
      = some { certStatus := 3, thisUpdate := 1, nextUpdate := 0, revokedTime := 0,
               crlReason := -1, scts := none } := by
  refine ⟨by decide, by decide, by decide⟩

/-- C23 (amended): SecOCSPSingleResponseCreate fails when the certStatus field is
absent or empty; it does not compare the discriminant (the leading tag byte
masked to the tag-number bits) with Good, Revoked and Unknown, and a record with
any other discriminant is built like one that is not Revoked; when construction
succeeds, the constructed certStatus equals that discriminant. -/
theorem SecOCSPSingleResponseCreate_certStatus_checked (dec : DateDecoder)
    (coder : DecodeCapability) (resp : SecAsn1OCSPSingleResponse) :
    (resp.certStatus.Data = none ∨ resp.certStatus.Data = some [] →
      SecOCSPSingleResponseCreate dec coder resp = none) ∧
    (∀ sr, SecOCSPSingleResponseCreate dec coder resp = some sr →
      ∃ tagByte rest, resp.certStatus.Data = some (tagByte :: rest) ∧
        sr.certStatus = tagByte &&& SEC_ASN1_TAGNUM_MASK) ∧
    (∀ tagByte rest, resp.certStatus.Data = some (tagByte :: rest) →
      tagByte &&& SEC_ASN1_TAGNUM_MASK ≠ CS_Revoked →
      genTimeToCFAbsTime dec resp.thisUpdate ≠ NULL_TIME →
      (∀ nu, resp.nextUpdate = some nu → genTimeToCFAbsTime dec nu ≠ NULL_TIME) →
      ∃ sr, SecOCSPSingleResponseCreate dec coder resp = some sr) := by
  refine ⟨?_, fun sr h => SecOCSPSingleResponseCreate_certStatus dec coder resp sr h, ?_⟩
  · intro h
    unfold SecOCSPSingleResponseCreate
    rcases h with h | h
    · simp only [h]
    · simp only [h]
  · intro tagByte rest htag hnr hthis hnext
    unfold SecOCSPSingleResponseCreate
    simp only [htag, hnr, if_false, hthis]
    cases hnu : resp.nextUpdate with
    | none => exact ⟨_, rfl⟩
    | some nu =>
      simp only [hnext nu hnu, if_false]
      exact ⟨_, rfl⟩

/-- Witness for C23 (amended): a record with an empty certStatus is rejected. -/
theorem SecOCSPSingleResponseCreate_certStatus_checked_witness :
    SecOCSPSingleResponseCreate sampleDecoder sampleCoder
        { sampleSingle ⟨some [0, 1]⟩ none with certStatus := ⟨some []⟩ } = none :=
  (SecOCSPSingleResponseCreate_certStatus_checked sampleDecoder sampleCoder
    { sampleSingle ⟨some [0, 1]⟩ none with certStatus := ⟨some []⟩ }).1 (Or.inr rfl)

/-- C24: invariant of every constructed single response. Its thisUpdate is the
decoded thisUpdate and never the NULL_TIME sentinel, and its nextUpdate is absent
(NULL_TIME) exactly when the record has no nextUpdate field; a record whose
thisUpdate fails to decode (decodes to NULL_TIME), or whose nextUpdate is present
but fails to decode, makes SecOCSPSingleResponseCreate fail. -/
theorem SecOCSPSingleResponseCreate_time_invariant (dec : DateDecoder)
    (coder : DecodeCapability) (resp : SecAsn1OCSPSingleResponse) :
    (∀ sr, SecOCSPSingleResponseCreate dec coder resp = some sr →
      sr.thisUpdate = genTimeToCFAbsTime dec resp.thisUpdate ∧
      sr.thisUpdate ≠ NULL_TIME ∧
      (sr.nextUpdate = NULL_TIME ↔ resp.nextUpdate = none) ∧
      (∀ nu, resp.nextUpdate = some nu → sr.nextUpdate = genTimeToCFAbsTime dec nu)) ∧
    (genTimeToCFAbsTime dec resp.thisUpdate = NULL_TIME →
      SecOCSPSingleResponseCreate dec coder resp = none) ∧
    (∀ nu, resp.nextUpdate = some nu → genTimeToCFAbsTime dec nu = NULL_TIME →
      SecOCSPSingleResponseCreate dec coder resp = none) := by
  refine ⟨?_, ?_, ?_⟩
  · intro sr h
    obtain ⟨h1, h2, h3, h4⟩ := SecOCSPSingleResponseCreate_times dec coder resp sr h
    refine ⟨h1, h2, ⟨?_, h3⟩, fun nu hnu => (h4 nu hnu).1⟩
    intro hnull
    cases hnu : resp.nextUpdate with
    | none => rfl
    | some nu => exact absurd hnull (h4 nu hnu).2
  · intro hbad
    cases hc : SecOCSPSingleResponseCreate dec coder resp with
    | none => rfl
    | some sr =>
      obtain ⟨h1, h2, _, _⟩ := SecOCSPSingleResponseCreate_times dec coder resp sr hc
      rw [h1] at h2
      exact absurd hbad h2
  · intro nu hnu hbad
    cases hc : SecOCSPSingleResponseCreate dec coder resp with
    | none => rfl
    | some sr =>
      obtain ⟨_, _, _, h4⟩ := SecOCSPSingleResponseCreate_times dec coder resp sr hc
      obtain ⟨heq, hne⟩ := h4 nu hnu
      rw [heq] at hne
      exact absurd hbad hne

/-- Witness for C24: a record with thisUpdate 1 and nextUpdate 10000 gives those
times; a record whose nextUpdate decodes to NULL_TIME is rejected. -/
theorem SecOCSPSingleResponseCreate_time_invariant_witness :
    (({ certStatus := 0, thisUpdate := 1, nextUpdate := 10000, revokedTime := 0,
        crlReason := -1, scts := none } : SecOCSPSingleResponse).thisUpdate ≠ NULL_TIME) ∧
    SecOCSPSingleResponseCreate sampleDecoder sampleCoder
        (sampleSingle ⟨some [0, 1]⟩ (some ⟨some [0, 0]⟩)) = none :=
  ⟨((SecOCSPSingleResponseCreate_time_invariant sampleDecoder sampleCoder
      (sampleSingle ⟨some [0, 1]⟩ (some ⟨some [0, 39, 16]⟩))).1
      { certStatus := 0, thisUpdate := 1, nextUpdate := 10000, revokedTime := 0,
        crlReason := -1, scts := none } (by decide)).2.1,
   (SecOCSPSingleResponseCreate_time_invariant sampleDecoder sampleCoder
      (sampleSingle ⟨some [0, 1]⟩ (some ⟨some [0, 0]⟩))).2.2 ⟨some [0, 0]⟩ rfl (by decide)⟩

/-- C27: revocation defaults. For every record on which SecOCSPSingleResponseCreate
succeeds: unless the status is Revoked, crlReason is undetermined and the
revocation time is absent (NULL_TIME); for a Revoked record the revoked-info
decoded, an absent revoked-info structure leaves both at those defaults, an
absent or empty revocationReason leaves crlReason undetermined, and a present
non-empty revocationReason sets crlReason to its first byte. A Revoked record
whose revoked-info fails to decode makes construction fail. -/
theorem SecOCSPSingleResponseCreate_revocation (dec : DateDecoder)
    (coder : DecodeCapability) (resp : SecAsn1OCSPSingleResponse) :
    (∀ sr, SecOCSPSingleResponseCreate dec coder resp = some sr →
      (sr.certStatus ≠ CS_Revoked →
        sr.crlReason = kSecRevocationReasonUndetermined ∧ sr.revokedTime = NULL_TIME) ∧
      (sr.certStatus = CS_Revoked →
        ∃ decoded, coder.kSecAsn1OCSPCertStatusRevokedTemplate resp.certStatus = some decoded ∧
          (decoded.revokedInfo = none →
            sr.crlReason = kSecRevocationReasonUndetermined ∧ sr.revokedTime = NULL_TIME) ∧
          (∀ info, decoded.revokedInfo = some info →
            sr.revokedTime = genTimeToCFAbsTime dec info.revocationTime ∧
            (info.revocationReason = none →
              sr.crlReason = kSecRevocationReasonUndetermined) ∧
            (∀ reason, info.revocationReason = some reason →
              (reason.Data = none ∨ reason.Data = some [] →
                sr.crlReason = kSecRevocationReasonUndetermined) ∧
              (∀ first rest, reason.Data = some (first :: rest) →
                sr.crlReason = Int.ofNat first))))) ∧
    (∀ tagByte rest, resp.certStatus.Data = some (tagByte :: rest) →
      tagByte &&& SEC_ASN1_TAGNUM_MASK = CS_Revoked →
      coder.kSecAsn1OCSPCertStatusRevokedTemplate resp.certStatus = none →
      SecOCSPSingleResponseCreate dec coder resp = none) := by
  constructor
  · intro sr h
    unfold SecOCSPSingleResponseCreate at h
    split at h
    · simp at h
    · simp at h
    · rename_i tagByte rest htag
      simp only at h
      by_cases hrev : tagByte &&& SEC_ASN1_TAGNUM_MASK = CS_Revoked
      · simp only [hrev, if_true] at h
        cases hdec : coder.kSecAsn1OCSPCertStatusRevokedTemplate resp.certStatus with
        | none => simp [hdec] at h
        | some decoded =>
          simp only [hdec] at h
          cases hinfo : decoded.revokedInfo with
          | none =>
            simp only [hinfo] at h
            split_ifs at h with hthis
            split at h
            · simp at h
            · simp only [Option.some.injEq] at h
              subst h
              refine ⟨fun hne => absurd rfl hne, fun _ => ⟨decoded, rfl, ?_, ?_⟩⟩
              · intro _
                exact ⟨rfl, rfl⟩
              · intro info hi
                rw [hinfo] at hi
                simp at hi
          | some info =>
            simp only [hinfo] at h
            cases hreason : info.revocationReason with
            | none =>
              simp only [hreason] at h
              split_ifs at h with hthis
              split at h
              · simp at h
              · simp only [Option.some.injEq] at h
                subst h
                refine ⟨fun hne => absurd rfl hne, fun _ => ⟨decoded, rfl, ?_, ?_⟩⟩
                · intro hn
                  rw [hinfo] at hn
                  simp at hn
                · intro info2 hi
                  rw [hinfo] at hi
                  simp only [Option.some.injEq] at hi
                  subst hi
                  refine ⟨rfl, fun _ => rfl, ?_⟩
                  intro reason hr
                  rw [hreason] at hr
                  simp at hr
            | some reason =>
              simp only [hreason] at h
              cases hdata : reason.Data with
              | none =>
                simp only [hdata] at h
                split_ifs at h with hthis
                split at h
                · simp at h
                · simp only [Option.some.injEq] at h
                  subst h
                  refine ⟨fun hne => absurd rfl hne, fun _ => ⟨decoded, rfl, ?_, ?_⟩⟩
                  · intro hn
                    rw [hinfo] at hn
                    simp at hn
                  · intro info2 hi
                    rw [hinfo] at hi
                    simp only [Option.some.injEq] at hi
                    subst hi
                    refine ⟨rfl, fun _ => rfl, ?_⟩
                    intro reason2 hr
                    rw [hreason] at hr
                    simp only [Option.some.injEq] at hr
                    subst hr
                    refine ⟨fun _ => rfl, ?_⟩
                    intro first rest2 hd
                    rw [hdata] at hd
                    simp at hd
              | some bytes =>
                cases bytes with
                | nil =>
                  simp only [hdata] at h
                  split_ifs at h with hthis
                  split at h
                  · simp at h
                  · simp only [Option.some.injEq] at h
                    subst h
                    refine ⟨fun hne => absurd rfl hne, fun _ => ⟨decoded, rfl, ?_, ?_⟩⟩
                    · intro hn
                      rw [hinfo] at hn
                      simp at hn
                    · intro info2 hi
                      rw [hinfo] at hi
                      simp only [Option.some.injEq] at hi
                      subst hi
                      refine ⟨rfl, fun _ => rfl, ?_⟩
                      intro reason2 hr
                      rw [hreason] at hr
                      simp only [Option.some.injEq] at hr
                      subst hr
                      refine ⟨fun _ => rfl, ?_⟩
                      intro first rest2 hd
                      rw [hdata] at hd
                      simp at hd
                | cons first0 rest0 =>
                  simp only [hdata] at h
                  split_ifs at h with hthis
                  split at h
                  · simp at h
                  · simp only [Option.some.injEq] at h
                    subst h
                    refine ⟨fun hne => absurd rfl hne, fun _ => ⟨decoded, rfl, ?_, ?_⟩⟩
                    · intro hn
                      rw [hinfo] at hn
                      simp at hn
                    · intro info2 hi
                      rw [hinfo] at hi
                      simp only [Option.some.injEq] at hi
                      subst hi
                      refine ⟨rfl, ?_, ?_⟩
                      · intro hn
                        rw [hreason] at hn
                        simp at hn
                      · intro reason2 hr
                        rw [hreason] at hr
                        simp only [Option.some.injEq] at hr
                        subst hr
                        refine ⟨?_, ?_⟩
                        · intro hd
                          rw [hdata] at hd
                          simp at hd
                        · intro first rest2 hd
                          rw [hdata] at hd
                          simp only [Option.some.injEq, List.cons.injEq] at hd
                          rw [← hd.1]
      · simp only [hrev, if_false] at h
        split_ifs at h with hthis
        split at h
        · simp at h
        · simp only [Option.some.injEq] at h
          subst h
          exact ⟨fun _ => ⟨rfl, rfl⟩, fun hc => absurd hc hrev⟩
  · intro tagByte rest htag hrev hdec
    unfold SecOCSPSingleResponseCreate
    simp only [htag, hrev, if_true, hdec]

/-- Witness for C27: a Good record gets the defaults; a Revoked record with
revocation time 9 and reason 3 gets crlReason 3; a Revoked record whose
revoked-info does not decode is rejected. -/
theorem SecOCSPSingleResponseCreate_revocation_witness :
    ((SecOCSPSingleResponse.mk 0 1 0 0 (-1) none).crlReason = kSecRevocationReasonUndetermined ∧
      (SecOCSPSingleResponse.mk 0 1 0 0 (-1) none).revokedTime = NULL_TIME) ∧
    (SecOCSPSingleResponse.mk 1 1 0 9 3 none).crlReason = Int.ofNat 3 ∧
    SecOCSPSingleResponseCreate sampleDecoder sampleCoder
        { sampleSingle ⟨some [0, 1]⟩ none with certStatus := ⟨some [161, 1, 2, 3]⟩ } = none := by
  refine ⟨?_, ?_, ?_⟩
  · exact ((SecOCSPSingleResponseCreate_revocation sampleDecoder sampleCoder
      (sampleSingle ⟨some [0, 1]⟩ none)).1
      { certStatus := 0, thisUpdate := 1, nextUpdate := 0, revokedTime := 0,
        crlReason := -1, scts := none } (by decide)).1 (by decide)
  · obtain ⟨decoded, hdec, _, hinfo⟩ :=
      ((SecOCSPSingleResponseCreate_revocation sampleDecoder sampleCoder
        { sampleSingle ⟨some [0, 1]⟩ none with certStatus := ⟨some [161, 9, 3]⟩ }).1
        { certStatus := 1, thisUpdate := 1, nextUpdate := 0, revokedTime := 9,
          crlReason := 3, scts := none } (by decide)).2 rfl
    have hd : sampleCoder.kSecAsn1OCSPCertStatusRevokedTemplate ⟨some [161, 9, 3]⟩
        = some ⟨some ⟨⟨some [0, 9]⟩, some ⟨some [3]⟩⟩⟩ := by decide
    have hdecoded : decoded = ⟨some ⟨⟨some [0, 9]⟩, some ⟨some [3]⟩⟩⟩ := by
      have h2 : sampleCoder.kSecAsn1OCSPCertStatusRevokedTemplate ⟨some [161, 9, 3]⟩
          = some decoded := hdec
      rw [hd] at h2
      exact (Option.some.inj h2).symm
    subst hdecoded
    exact ((hinfo _ rfl).2.2 ⟨some [3]⟩ rfl).2 3 [] rfl
  · exact (SecOCSPSingleResponseCreate_revocation sampleDecoder sampleCoder
      { sampleSingle ⟨some [0, 1]⟩ none with certStatus := ⟨some [161, 1, 2, 3]⟩ }).2
      161 [1, 2, 3] rfl (by decide) (by decide)

/-! ## Construction of a single response: the SCT list -/

/-- One step of the loop over the extensions. -/
theorem SecOCSPSingleResponseCreate_loop_cons (coder : DecodeCapability)
    (extn : NSS_CertExtension) (extensions : List NSS_CertExtension)
    (scts : Option SCTArray) :
    SecOCSPSingleResponseCreate.loop coder (extn :: extensions) scts =
      if SecAsn1OidCompare (some extn.extnId) (some OID_GOOGLE_OCSP_SCT) then
        match scts with
        | none =>
          match coder.kSecAsn1OctetStringTemplate extn.value with
          | some sct_data =>
            SecOCSPSingleResponseCreate.loop coder extensions
              (coder.SecCreateSignedCertificateTimestampsArrayFromSerializedSCTList
                sct_data.Data sct_data.Length)
          | none => SecOCSPSingleResponseCreate.loop coder extensions scts
        | some _ => SecOCSPSingleResponseCreate.loop coder extensions scts
      else
        SecOCSPSingleResponseCreate.loop coder extensions scts := rfl

/-- Once an SCT list is held, the loop over the extensions keeps it. -/
theorem SecOCSPSingleResponseCreate_loop_some (coder : DecodeCapability) (l : SCTArray) :
    ∀ extensions : List NSS_CertExtension,
      SecOCSPSingleResponseCreate.loop coder extensions (some l) = some l := by
  intro extensions
  induction extensions with
  | nil => rfl
  | cons extn rest ih =>
    rw [SecOCSPSingleResponseCreate_loop_cons]
    split_ifs
    · exact ih
    · exact ih

/-- The loop over the extensions, started without a list, skips the extensions
that do not yield a list and returns the list of the first extension that has the
SCT OID, decodes as an octet string and parses to a list. -/
theorem SecOCSPSingleResponseCreate_loop_first (coder : DecodeCapability)
    (extn : NSS_CertExtension) (post : List NSS_CertExtension) (data : SecAsn1Item)
    (l : SCTArray)
    (hoid : extn.extnId.bytes = OID_GOOGLE_OCSP_SCT.bytes)
    (hdec : coder.kSecAsn1OctetStringTemplate extn.value = some data)
    (hparse : coder.SecCreateSignedCertificateTimestampsArrayFromSerializedSCTList
      data.Data data.Length = some l) :
    ∀ pre : List NSS_CertExtension,
      (∀ x ∈ pre, ¬ (x.extnId.bytes = OID_GOOGLE_OCSP_SCT.bytes ∧
        ∃ d l0, coder.kSecAsn1OctetStringTemplate x.value = some d ∧
          coder.SecCreateSignedCertificateTimestampsArrayFromSerializedSCTList
            d.Data d.Length = some l0)) →
      SecOCSPSingleResponseCreate.loop coder (pre ++ extn :: post) none = some l := by
  intro pre
  induction pre with
  | nil =>
    intro _
    simp only [List.nil_append]
    rw [SecOCSPSingleResponseCreate_loop_cons, if_pos ((SecAsn1OidCompare_iff _ _).mpr hoid)]
    simp only [hdec, hparse]
    exact SecOCSPSingleResponseCreate_loop_some coder l post
  | cons x rest ih =>
    intro hpre
    have hx := hpre x (List.mem_cons_self _ _)
    have hrest := ih (fun y hy => hpre y (List.mem_cons_of_mem _ hy))
    simp only [List.cons_append]
    rw [SecOCSPSingleResponseCreate_loop_cons]
    by_cases hxo : SecAsn1OidCompare (some x.extnId) (some OID_GOOGLE_OCSP_SCT) = true
    · rw [if_pos hxo]
      simp only
      cases hxd : coder.kSecAsn1OctetStringTemplate x.value with
      | none => exact hrest
      | some d =>
        simp only
        cases hxp : coder.SecCreateSignedCertificateTimestampsArrayFromSerializedSCTList
            d.Data d.Length with
        | none => exact hrest
        | some l0 =>
          exact absurd ⟨(SecAsn1OidCompare_iff _ _).mp hxo, d, l0, hxd, hxp⟩ hx
    · rw [if_neg hxo]
      exact hrest

/-- The loop over the extensions, started without a list, returns no list when
no extension yields one. -/
theorem SecOCSPSingleResponseCreate_loop_none (coder : DecodeCapability) :
    ∀ extensions : List NSS_CertExtension,
      (∀ x ∈ extensions, ¬ (x.extnId.bytes = OID_GOOGLE_OCSP_SCT.bytes ∧
        ∃ d l0, coder.kSecAsn1OctetStringTemplate x.value = some d ∧
          coder.SecCreateSignedCertificateTimestampsArrayFromSerializedSCTList
            d.Data d.Length = some l0)) →
      SecOCSPSingleResponseCreate.loop coder extensions none = none := by
  intro extensions
  induction extensions with
  | nil => intro _; rfl
  | cons x rest ih =>
    intro h
    have hx := h x (List.mem_cons_self _ _)
    have hrest := ih (fun y hy => h y (List.mem_cons_of_mem _ hy))
    rw [SecOCSPSingleResponseCreate_loop_cons]
    by_cases hxo : SecAsn1OidCompare (some x.extnId) (some OID_GOOGLE_OCSP_SCT) = true
    · rw [if_pos hxo]
      simp only
      cases hxd : coder.kSecAsn1OctetStringTemplate x.value with
      | none => exact hrest
      | some d =>
        simp only
        cases hxp : coder.SecCreateSignedCertificateTimestampsArrayFromSerializedSCTList
            d.Data d.Length with
        | none => exact hrest
        | some l0 =>
          exact absurd ⟨(SecAsn1OidCompare_iff _ _).mp hxo, d, l0, hxd, hxp⟩ hx
    · rw [if_neg hxo]
      exact hrest

/-- The extensions of a record decide the SCT list of its single response and
nothing else: the construction is the construction from the record without
extensions, with the SCT list set to the result of the loop. -/
theorem SecOCSPSingleResponseCreate_extensions (dec : DateDecoder) (coder : DecodeCapability)
    (resp : SecAsn1OCSPSingleResponse) :
    SecOCSPSingleResponseCreate dec coder resp =
      (SecOCSPSingleResponseCreate dec coder { resp with singleExtensions := none }).map
        (fun sr => { sr with scts :=
          match resp.singleExtensions with
          | some extensions => SecOCSPSingleResponseCreate.loop coder extensions none
          | none => none }) := by
  unfold SecOCSPSingleResponseCreate
  simp only
  split
  · rfl
  · rfl
  · split
    · rfl
    · split_ifs
      · rfl
      · split
        · rfl
        · rfl

/-- C28: SCT extraction is first-success. The SCT list of a constructed single
response is the list of the first extension, in order, whose OID is the SCT OID,
whose value decodes as an octet string and for which the SCT-list parser returns
a list; the extensions after it are ignored, extensions with other OIDs never
contribute, and when no extension qualifies, or there are no extensions, the SCT
list is absent. Whether construction succeeds does not depend on the
extensions. -/
theorem SecOCSPSingleResponseCreate_scts (dec : DateDecoder) (coder : DecodeCapability)
    (resp : SecAsn1OCSPSingleResponse) :
    (∀ sr, SecOCSPSingleResponseCreate dec coder resp = some sr →
      (resp.singleExtensions = none → sr.scts = none) ∧
      (∀ pre extn post data l, resp.singleExtensions = some (pre ++ extn :: post) →
        (∀ x ∈ pre, ¬ (x.extnId.bytes = OID_GOOGLE_OCSP_SCT.bytes ∧
          ∃ d l0, coder.kSecAsn1OctetStringTemplate x.value = some d ∧
            coder.SecCreateSignedCertificateTimestampsArrayFromSerializedSCTList
              d.Data d.Length = some l0)) →
        extn.extnId.bytes = OID_GOOGLE_OCSP_SCT.bytes →
        coder.kSecAsn1OctetStringTemplate extn.value = some data →
        coder.SecCreateSignedCertificateTimestampsArrayFromSerializedSCTList
          data.Data data.Length = some l →
        sr.scts = some l) ∧
      (∀ extensions, resp.singleExtensions = some extensions →
        (∀ x ∈ extensions, ¬ (x.extnId.bytes = OID_GOOGLE_OCSP_SCT.bytes ∧
          ∃ d l0, coder.kSecAsn1OctetStringTemplate x.value = some d ∧
            coder.SecCreateSignedCertificateTimestampsArrayFromSerializedSCTList
              d.Data d.Length = some l0)) →
        sr.scts = none)) ∧
    (∀ extensions2 : Option (List NSS_CertExtension),
      (SecOCSPSingleResponseCreate dec coder
        { resp with singleExtensions := extensions2 }).isSome =
      (SecOCSPSingleResponseCreate dec coder resp).isSome) := by
  constructor
  · intro sr h
    rw [SecOCSPSingleResponseCreate_extensions] at h
    cases hbase : SecOCSPSingleResponseCreate dec coder { resp with singleExtensions := none } with
    | none => simp [hbase] at h
    | some sr0 =>
      simp only [hbase, Option.map_some', Option.some.injEq] at h
      subst h
      refine ⟨?_, ?_, ?_⟩
      · intro hnone
        simp only [hnone]
      · intro pre extn post data l hext hpre hoid hdec hparse
        simp only [hext]
        exact SecOCSPSingleResponseCreate_loop_first coder extn post data l hoid hdec hparse
          pre hpre
      · intro extensions hext hall
        simp only [hext]
        exact SecOCSPSingleResponseCreate_loop_none coder extensions hall
  · intro extensions2
    rw [SecOCSPSingleResponseCreate_extensions dec coder resp,
      SecOCSPSingleResponseCreate_extensions dec coder
        { resp with singleExtensions := extensions2 }]
    simp only [Option.isSome_map']

/-- Witness for C28: of three extensions with the SCT OID, the first does not
decode as an octet string, the second parses to the list holding [8] and the
third is ignored. -/
theorem SecOCSPSingleResponseCreate_scts_witness :
    (SecOCSPSingleResponse.mk 0 1 0 0 (-1) (some [[8]])).scts = some [[8]] :=
  ((SecOCSPSingleResponseCreate_scts sampleDecoder sampleCoder
      { sampleSingle ⟨some [0, 1]⟩ none with
        singleExtensions := some ([⟨OID_GOOGLE_OCSP_SCT, ⟨some [5]⟩⟩] ++
          ⟨OID_GOOGLE_OCSP_SCT, ⟨some [4, 8]⟩⟩ :: [⟨OID_GOOGLE_OCSP_SCT, ⟨some [4, 9]⟩⟩]) }).1
      (SecOCSPSingleResponse.mk 0 1 0 0 (-1) (some [[8]])) (by decide)).2.1
    [⟨OID_GOOGLE_OCSP_SCT, ⟨some [5]⟩⟩] ⟨OID_GOOGLE_OCSP_SCT, ⟨some [4, 8]⟩⟩
    [⟨OID_GOOGLE_OCSP_SCT, ⟨some [4, 9]⟩⟩] ⟨some [8]⟩ [[8]] rfl
    (by
      intro x hx hq
      obtain ⟨_, d, l0, hd, _⟩ := hq
      simp only [List.mem_singleton] at hx
      subst hx
      simp [sampleCoder, SecAsn1Item.bytes] at hd)
    rfl (by decide) (by decide)

/-! ## Matcher: entries that are skipped -/

/-- The reference loop passes over every entry that does not fully match or from
which no single response can be built. -/
theorem referenceCopySingleResponse_loop_skip {Cert : Type} (dec : DateDecoder)
    (coder : DecodeCapability) (caps : RequestCapability Cert)
    (issuer publicKey : ByteString) (serial : Option ByteString)
    (post : List SecAsn1OCSPSingleResponse) :
    ∀ pre : List SecAsn1OCSPSingleResponse,
      (∀ x ∈ pre, (serial = some x.certID.serialNumber.bytes ∧
        caps.SecDigestCreate x.certID.algId.algorithm.bytes
          x.certID.algId.parameters.bytes issuer = some x.certID.issuerNameHash.bytes ∧
        caps.SecDigestCreate x.certID.algId.algorithm.bytes
          x.certID.algId.parameters.bytes publicKey = some x.certID.issuerPubKeyHash.bytes) →
        SecOCSPSingleResponseCreate dec coder x = none) →
      referenceCopySingleResponse.loop dec coder caps issuer publicKey serial (pre ++ post) =
        referenceCopySingleResponse.loop dec coder caps issuer publicKey serial post := by
  intro pre
  induction pre with
  | nil => intro _; rfl
  | cons x rest ih =>
    intro hpre
    have hx := hpre x (List.mem_cons_self _ _)
    have hrest := ih (fun y hy => hpre y (List.mem_cons_of_mem _ hy))
    simp only [List.cons_append]
    rw [referenceCopySingleResponse_loop_cons]
    by_cases hs : serial = some x.certID.serialNumber.bytes
    · rw [if_pos hs]
      by_cases hd : caps.SecDigestCreate x.certID.algId.algorithm.bytes
            x.certID.algId.parameters.bytes issuer = some x.certID.issuerNameHash.bytes ∧
          caps.SecDigestCreate x.certID.algId.algorithm.bytes
            x.certID.algId.parameters.bytes publicKey = some x.certID.issuerPubKeyHash.bytes
      · rw [if_pos hd, hx ⟨hs, hd⟩]
        exact hrest
      · rw [if_neg hd]
        exact hrest
    · rw [if_neg hs]
      exact hrest

/-- C25 as stated fails: for the request (certificate 5, issuer 9), a response
whose only entry with serial [5] declares the unsupported algorithm [3] and a
response with no entry of serial [5] give the same result, none; the unsupported
algorithm is not surfaced as a failure of its own. -/
theorem SecOCSPResponseCopySingleResponse_unsupported_counterexample :
    sampleRequestCaps.SecCertificateCopySerialNumber 5 = some [5] ∧
    sampleRequestCaps.SecDigestCreate [3] [] [105] = none ∧
    SecOCSPResponseCopySingleResponse sampleDecoder sampleCoder sampleRequestCaps
        (sampleResponse 1
          (some [sampleEntry [1] [106] [10, 10] [6] ⟨some [0, 1]⟩,
                 sampleEntry [3] [106] [10, 10] [5] ⟨some [0, 2]⟩]) none 1 [])
        (some ⟨5, 9⟩) = some none ∧
    SecOCSPResponseCopySingleResponse sampleDecoder sampleCoder sampleRequestCaps
        (sampleResponse 1
          (some [sampleEntry [1] [106] [10, 10] [6] ⟨some [0, 1]⟩]) none 1 [])
        (some ⟨5, 9⟩) = some none := by
  refine ⟨by decide, by decide, by decide, by decide⟩

/-- C25 (amended): when every entry whose serial matches the subject declares a
hash algorithm the digest capability does not support,
SecOCSPResponseCopySingleResponse skips those entries and returns none, the same
result it returns when no entry has the serial of the subject. -/
theorem SecOCSPResponseCopySingleResponse_unsupported {Cert : Type} (dec : DateDecoder)
    (coder : DecodeCapability) (caps : RequestCapability Cert)
    (r : SecOCSPResponse) (req : SecOCSPRequest Cert)
    (responses : List SecAsn1OCSPSingleResponse)
    (hresp : r.responseData.responses = some responses)
    (hunsupported : ∀ x ∈ responses,
      caps.SecCertificateCopySerialNumber req.certificate
        = some x.certID.serialNumber.bytes →
      caps.SecDigestCreate x.certID.algId.algorithm.bytes x.certID.algId.parameters.bytes
        (caps.SecCertificateCopyIssuerSequence req.certificate) = none ∨
      caps.SecDigestCreate x.certID.algId.algorithm.bytes x.certID.algId.parameters.bytes
        (caps.SecCertificateGetPublicKeyData req.issuer) = none) :
    SecOCSPResponseCopySingleResponse dec coder caps r (some req) = some none ∧
    ∀ (r2 : SecOCSPResponse) (responses2 : List SecAsn1OCSPSingleResponse),
      r2.responseData.responses = some responses2 →
      (∀ x ∈ responses2, caps.SecCertificateCopySerialNumber req.certificate
        ≠ some x.certID.serialNumber.bytes) →
      SecOCSPResponseCopySingleResponse dec coder caps r2 (some req) =
        SecOCSPResponseCopySingleResponse dec coder caps r (some req) := by
  have hnone : SecOCSPResponseCopySingleResponse dec coder caps r (some req) = some none := by
    rw [SecOCSPResponseCopySingleResponse_eq dec coder caps r req responses hresp]
    have hskip := referenceCopySingleResponse_loop_skip dec coder caps
      (caps.SecCertificateCopyIssuerSequence req.certificate)
      (caps.SecCertificateGetPublicKeyData req.issuer)
      (caps.SecCertificateCopySerialNumber req.certificate) [] responses
      (by
        intro x hx hmatch
        rcases hunsupported x hx hmatch.1 with h | h
        · rw [h] at hmatch
          simp at hmatch
        · rw [h] at hmatch
          simp at hmatch)
    rw [List.append_nil] at hskip
    rw [hskip]
    rfl
  refine ⟨hnone, ?_⟩
  intro r2 responses2 hresp2 hall
  rw [hnone, SecOCSPResponseCopySingleResponse_eq dec coder caps r2 req responses2 hresp2,
    referenceCopySingleResponse_loop_none dec coder caps _ _ _ responses2 hall]

/-- Witness for C25 (amended): the first response of the counterexample. -/
theorem SecOCSPResponseCopySingleResponse_unsupported_witness :
    SecOCSPResponseCopySingleResponse sampleDecoder sampleCoder sampleRequestCaps
        (sampleResponse 1
          (some [sampleEntry [1] [106] [10, 10] [6] ⟨some [0, 1]⟩,
                 sampleEntry [3] [106] [10, 10] [5] ⟨some [0, 2]⟩]) none 1 [])
        (some ⟨5, 9⟩) = some none :=
  (SecOCSPResponseCopySingleResponse_unsupported sampleDecoder sampleCoder sampleRequestCaps
    _ ⟨5, 9⟩ _ rfl (by decide)).1

/-- C26: a malformed entry does not abort matching. When every entry before e
that fully matches fails single-response construction, and e fully matches and
the single response sr can be built from it, SecOCSPResponseCopySingleResponse
returns sr: the failed constructions neither end the scan nor are reported. -/
theorem SecOCSPResponseCopySingleResponse_after_malformed {Cert : Type} (dec : DateDecoder)
    (coder : DecodeCapability) (caps : RequestCapability Cert)
    (r : SecOCSPResponse) (req : SecOCSPRequest Cert)
    (pre post : List SecAsn1OCSPSingleResponse) (e : SecAsn1OCSPSingleResponse)
    (sr : SecOCSPSingleResponse)
    (hresp : r.responseData.responses = some (pre ++ e :: post))
    (hpre : ∀ x ∈ pre,
      (caps.SecCertificateCopySerialNumber req.certificate
          = some x.certID.serialNumber.bytes ∧
        caps.SecDigestCreate x.certID.algId.algorithm.bytes x.certID.algId.parameters.bytes
          (caps.SecCertificateCopyIssuerSequence req.certificate)
            = some x.certID.issuerNameHash.bytes ∧
        caps.SecDigestCreate x.certID.algId.algorithm.bytes x.certID.algId.parameters.bytes
          (caps.SecCertificateGetPublicKeyData req.issuer)
            = some x.certID.issuerPubKeyHash.bytes) →
      SecOCSPSingleResponseCreate dec coder x = none)
    (hserial : caps.SecCertificateCopySerialNumber req.certificate
      = some e.certID.serialNumber.bytes)
    (hname : caps.SecDigestCreate e.certID.algId.algorithm.bytes e.certID.algId.parameters.bytes
      (caps.SecCertificateCopyIssuerSequence req.certificate)
        = some e.certID.issuerNameHash.bytes)
    (hkey : caps.SecDigestCreate e.certID.algId.algorithm.bytes e.certID.algId.parameters.bytes
      (caps.SecCertificateGetPublicKeyData req.issuer)
        = some e.certID.issuerPubKeyHash.bytes)
    (hcreate : SecOCSPSingleResponseCreate dec coder e = some sr) :
    SecOCSPResponseCopySingleResponse dec coder caps r (some req) = some (some sr) := by
  rw [SecOCSPResponseCopySingleResponse_eq dec coder caps r req _ hresp,
    referenceCopySingleResponse_loop_skip dec coder caps _ _ _ (e :: post) pre hpre,
    referenceCopySingleResponse_loop_cons, if_pos hserial, if_pos ⟨hname, hkey⟩, hcreate]

/-- Witness for C26: for the request (certificate 5, issuer 9) the first entry
fully matches but has an empty certStatus, the second has an undecodable
thisUpdate, and the single response of the third, which matches under another
algorithm, is returned. -/
theorem SecOCSPResponseCopySingleResponse_after_malformed_witness :
    SecOCSPResponseCopySingleResponse sampleDecoder sampleCoder sampleRequestCaps
        (sampleResponse 1
          (some ([{ sampleEntry [2] [107] [11, 11] [5] ⟨some [0, 4]⟩ with
                    certStatus := ⟨some []⟩ },
                  sampleEntry [2] [107] [11, 11] [5] ⟨some [0, 0]⟩] ++
                 sampleEntry [1] [106] [10, 10] [5] ⟨some [0, 5]⟩ ::
                 [sampleEntry [2] [107] [11, 11] [5] ⟨some [0, 6]⟩])) none 1 [])
        (some ⟨5, 9⟩)
      = some (some (SecOCSPSingleResponse.mk 0 5 0 0 (-1) none)) :=
  SecOCSPResponseCopySingleResponse_after_malformed sampleDecoder sampleCoder
    sampleRequestCaps _ ⟨5, 9⟩
    [{ sampleEntry [2] [107] [11, 11] [5] ⟨some [0, 4]⟩ with certStatus := ⟨some []⟩ },
     sampleEntry [2] [107] [11, 11] [5] ⟨some [0, 0]⟩]
    [sampleEntry [2] [107] [11, 11] [5] ⟨some [0, 6]⟩]
    (sampleEntry [1] [106] [10, 10] [5] ⟨some [0, 5]⟩) _ rfl
    (by decide) (by decide) (by decide) (by decide) (by decide)

/-! ## Response objects and their single responses -/

/-- C21 as stated fails: the buffer [0, 1, 48, 48, 161, 39, 16] gives an object
with status successful whose list of single responses is empty; the constructor
does not look at the entries of the decoded responses array. -/
theorem SecOCSPResponseCreateWithID_responses_counterexample :
    ((SecOCSPResponseCreateWithID sampleDecoder sampleCoder
        [0, 1, 48, 48, 161, 39, 16] 5).bind id).map
      (fun obj => (obj.responseStatus, obj.responseData.responses))
      = some (kSecOCSPSuccess, some []) := by
  decide

/-- C21 (amended): for every object returned by SecOCSPResponseCreateWithID, a
status other than successful means the object has no single responses (its
responses array is NULL), so an object with a responses array has status
successful; for status successful the response data of the object is the one
decoded from the tbsResponseData of the decoded basic response, and the
constructor neither requires its responses array to be non-empty nor checks its
entries. -/
theorem SecOCSPResponseCreateWithID_responses (dec : DateDecoder) (coder : DecodeCapability)
    (b : ByteString) (n : Int) (obj : SecOCSPResponse)
    (h : SecOCSPResponseCreateWithID dec coder b n = some (some obj)) :
    (obj.responseStatus ≠ kSecOCSPSuccess → obj.responseData.responses = none) ∧
    ((∃ responses, obj.responseData.responses = some responses) →
      obj.responseStatus = kSecOCSPSuccess) ∧
    (obj.responseStatus = kSecOCSPSuccess →
      ∃ responseBytes basicResponse,
        (coder.kSecAsn1OCSPResponseTemplate ⟨some b⟩).2.responseBytes = some responseBytes ∧
        coder.kSecAsn1OCSPBasicResponseTemplate responseBytes.response = some basicResponse ∧
        coder.kSecAsn1OCSPResponseDataTemplate basicResponse.tbsResponseData
          = some obj.responseData) := by
  obtain ⟨status, rest, _, hcases⟩ := SecOCSPResponseCreateWithID_some dec coder b n obj h
  rcases hcases with ⟨hne, hobj⟩ | ⟨hs, rb, br, rd, tagByte, tagRest, rid, hrb, _, hbr, hrd, _, _,
    _, hobj⟩
  · subst hobj
    refine ⟨fun _ => rfl, ?_, fun hsucc => absurd hsucc hne⟩
    rintro ⟨responses, hr⟩
    simp [SecOCSPResponse.calloc] at hr
  · subst hobj
    exact ⟨fun hne => absurd hs hne, fun _ => hs, fun _ => ⟨rb, br, hrb, hbr, hrd⟩⟩

/-- Witness for C21 (amended): the object built from the buffer [3] has status 3
and no responses array. -/
theorem SecOCSPResponseCreateWithID_responses_witness :
    ({ SecOCSPResponse.calloc with data := [3], responseID := 5, responseStatus := 3 }
      : SecOCSPResponse).responseData.responses = none :=
  (SecOCSPResponseCreateWithID_responses sampleDecoder sampleCoder [3] 5
    { SecOCSPResponse.calloc with data := [3], responseID := 5, responseStatus := 3 }
    (by decide)).1 (by decide)

/-- C22 as stated fails: on the object built from the buffer [3] (status 3, not
successful) SecOCSPResponseCalculateValidity at verifyTime 0 and
SecOCSPResponseCopySingleResponse with a request are not stopped by a status
test; both go on to the responses array of the response data that was never
decoded, which is NULL, and have no result. -/
theorem SecOCSPResponse_status_guard_counterexample :
    SecOCSPResponseCreateWithID sampleDecoder sampleCoder [3] 5
      = some (some { SecOCSPResponse.calloc with
          data := [3], responseID := 5, responseStatus := 3 }) ∧
    (3 : Nat) ≠ kSecOCSPSuccess ∧
    SecOCSPResponseCalculateValidity sampleDecoder
      { SecOCSPResponse.calloc with data := [3], responseID := 5, responseStatus := 3 }
      60 300 0 = none ∧
    SecOCSPResponseCopySingleResponse sampleDecoder sampleCoder sampleRequestCaps
      { SecOCSPResponse.calloc with data := [3], responseID := 5, responseStatus := 3 }
      (some ⟨5, 9⟩) = none := by
  refine ⟨by decide, by decide, by decide, by decide⟩

/-- C22 (amended): SecOCSPResponseCopySingleResponse and
SecOCSPResponseCalculateValidity have no status guard; the caller has to test the
status first. On a non-successful object returned by the constructor,
SecOCSPResponseCopySingleResponse returns none for an absent request and
SecOCSPResponseCalculateValidity returns false, leaving the object as it is, when
verifyTime + 4500 < 0 (producedAt is zero in such an object); in every other
case both dereference the NULL responses array of the undecoded response data
and have no result. Neither returns a single response or reports the response
valid. -/
theorem SecOCSPResponse_status_guard (dec : DateDecoder) (coder : DecodeCapability)
    (b : ByteString) (n : Int) (obj : SecOCSPResponse)
    (h : SecOCSPResponseCreateWithID dec coder b n = some (some obj))
    (hne : obj.responseStatus ≠ kSecOCSPSuccess) :
    (∀ (Cert : Type) (caps : RequestCapability Cert),
      SecOCSPResponseCopySingleResponse dec coder caps obj none = some none ∧
      ∀ req, SecOCSPResponseCopySingleResponse dec coder caps obj (some req) = none) ∧
    (∀ (maxAge defaultTTL : CFTimeInterval) (verifyTime : CFAbsoluteTime),
      (verifyTime + 4500 < 0 →
        SecOCSPResponseCalculateValidity dec obj maxAge defaultTTL verifyTime
          = some (false, obj)) ∧
      (0 ≤ verifyTime + 4500 →
        SecOCSPResponseCalculateValidity dec obj maxAge defaultTTL verifyTime = none)) := by
  obtain ⟨status, rest, _, hcases⟩ := SecOCSPResponseCreateWithID_some dec coder b n obj h
  rcases hcases with ⟨_, hobj⟩ | ⟨hs, rb, br, rd, tagByte, tagRest, rid, _, _, _, _, _, _,
    _, hobj⟩
  · subst hobj
    constructor
    · intro Cert caps
      exact ⟨rfl, fun req => rfl⟩
    · intro maxAge defaultTTL verifyTime
      constructor
      · intro hneg
        have hp : ({ SecOCSPResponse.calloc with
            data := b, responseID := n, responseStatus := status } : SecOCSPResponse).producedAt
            > verifyTime + LEEWAY := hneg
        rw [SecOCSPResponseCalculateValidity_exit_producedAt dec _ maxAge defaultTTL verifyTime
          hp]
        rfl
      · intro hpos
        have hp : ¬ (({ SecOCSPResponse.calloc with
            data := b, responseID := n, responseStatus := status } : SecOCSPResponse).producedAt
            > verifyTime + LEEWAY) := not_lt.mpr hpos
        unfold SecOCSPResponseCalculateValidity
        simp only [hp, if_false]
        rfl
  · subst hobj
    exact absurd hs hne

/-- Witness for C22 (amended): on the object built from the buffer [3],
SecOCSPResponseCalculateValidity at verifyTime -5000 returns false and leaves the
object as it is. -/
theorem SecOCSPResponse_status_guard_witness :
    SecOCSPResponseCalculateValidity sampleDecoder
      { SecOCSPResponse.calloc with data := [3], responseID := 5, responseStatus := 3 }
      60 300 (-5000)
      = some (false,
          { SecOCSPResponse.calloc with data := [3], responseID := 5, responseStatus := 3 }) :=
  ((SecOCSPResponse_status_guard sampleDecoder sampleCoder [3] 5
    { SecOCSPResponse.calloc with data := [3], responseID := 5, responseStatus := 3 }
    (by decide) (by decide)).2 60 300 (-5000)).1 (by decide)

/-! ## Temporal validity: order of the entries -/

/-- The loop over a permutation of the entries leaves through "goto exit" or runs
to the end as the loop over the entries does, and when it runs to the end it
leaves the same latestNextUpdate. -/
theorem SecOCSPResponseCalculateValidity_loop_perm (dec : DateDecoder)
    (verifyTime latest : CFAbsoluteTime)
    (responses responses2 : List SecAsn1OCSPSingleResponse)
    (hperm : responses.Perm responses2) :
    (SecOCSPResponseCalculateValidity.loop dec verifyTime responses latest).1 =
      (SecOCSPResponseCalculateValidity.loop dec verifyTime responses2 latest).1 ∧
    ((SecOCSPResponseCalculateValidity.loop dec verifyTime responses latest).1 = true →
      (SecOCSPResponseCalculateValidity.loop dec verifyTime responses latest).2 =
        (SecOCSPResponseCalculateValidity.loop dec verifyTime responses2 latest).2) := by
  by_cases hbad : ∃ resp ∈ responses,
      genTimeToCFAbsTime dec resp.thisUpdate > verifyTime + LEEWAY
  · have hbad2 : ∃ resp ∈ responses2,
        genTimeToCFAbsTime dec resp.thisUpdate > verifyTime + LEEWAY := by
      obtain ⟨x, hx, hgt⟩ := hbad
      exact ⟨x, hperm.mem_iff.mp hx, hgt⟩
    have h1 := SecOCSPResponseCalculateValidity_loop_exit dec verifyTime responses latest hbad
    have h2 := SecOCSPResponseCalculateValidity_loop_exit dec verifyTime responses2 latest hbad2
    refine ⟨by rw [h1, h2], ?_⟩
    intro hdone
    rw [h1] at hdone
    simp at hdone
  · have hall : ∀ resp ∈ responses,
        genTimeToCFAbsTime dec resp.thisUpdate ≤ verifyTime + LEEWAY := by
      intro x hx
      exact not_lt.mp (fun hgt => hbad ⟨x, hx, hgt⟩)
    have hall2 : ∀ resp ∈ responses2,
        genTimeToCFAbsTime dec resp.thisUpdate ≤ verifyTime + LEEWAY :=
      fun x hx => hall x (hperm.mem_iff.mpr hx)
    have h1 := SecOCSPResponseCalculateValidity_loop_complete dec verifyTime responses latest
      hall
    have h2 := SecOCSPResponseCalculateValidity_loop_complete dec verifyTime responses2 latest
      hall2
    refine ⟨by rw [h1, h2], ?_⟩
    intro _
    apply le_antisymm
    · rcases SecOCSPResponseCalculateValidity_loop_mem dec verifyTime responses latest
        with h0 | ⟨y, hy, nu, hn, hv⟩
      · rw [h0]
        exact SecOCSPResponseCalculateValidity_loop_ge dec verifyTime responses2 latest
      · rw [← hv]
        exact SecOCSPResponseCalculateValidity_loop_upper dec verifyTime responses2 latest h2
          y (hperm.mem_iff.mp hy) nu hn
    · rcases SecOCSPResponseCalculateValidity_loop_mem dec verifyTime responses2 latest
        with h0 | ⟨y, hy, nu, hn, hv⟩
      · rw [h0]
        exact SecOCSPResponseCalculateValidity_loop_ge dec verifyTime responses latest
      · rw [← hv]
        exact SecOCSPResponseCalculateValidity_loop_upper dec verifyTime responses latest h1
          y (hperm.mem_iff.mpr hy) nu hn

/-- C31: entry order is irrelevant to validity. For every response and every
permutation of its single-response entries, SecOCSPResponseCalculateValidity with
the same maxAge, defaultTTL and verifyTime returns the same boolean and, when it
returns true, stores the same latestNextUpdate and expireTime. -/
theorem SecOCSPResponseCalculateValidity_perm (dec : DateDecoder)
    (r : SecOCSPResponse) (responses responses2 : List SecAsn1OCSPSingleResponse)
    (maxAge defaultTTL : CFTimeInterval) (verifyTime : CFAbsoluteTime)
    (hresp : r.responseData.responses = some responses)
    (hperm : responses.Perm responses2) :
    (SecOCSPResponseCalculateValidity dec r maxAge defaultTTL verifyTime).map Prod.fst =
      (SecOCSPResponseCalculateValidity dec
        { r with responseData := { r.responseData with responses := some responses2 } }
        maxAge defaultTTL verifyTime).map Prod.fst ∧
    ((SecOCSPResponseCalculateValidity dec r maxAge defaultTTL verifyTime).map Prod.fst
        = some true →
      (SecOCSPResponseCalculateValidity dec r maxAge defaultTTL verifyTime).map
          (fun p => (p.2.latestNextUpdate, p.2.expireTime)) =
        (SecOCSPResponseCalculateValidity dec
          { r with responseData := { r.responseData with responses := some responses2 } }
          maxAge defaultTTL verifyTime).map
          (fun p => (p.2.latestNextUpdate, p.2.expireTime))) := by
  obtain ⟨hfst, hsnd⟩ := SecOCSPResponseCalculateValidity_loop_perm dec verifyTime NULL_TIME
    responses responses2 hperm
  by_cases hdone : (SecOCSPResponseCalculateValidity.loop dec verifyTime responses NULL_TIME).1
      = true
  · have hloop : SecOCSPResponseCalculateValidity.loop dec verifyTime responses NULL_TIME =
        SecOCSPResponseCalculateValidity.loop dec verifyTime responses2 NULL_TIME :=
      Prod.ext hfst (hsnd hdone)
    have hall := SecOCSPResponseCalculateValidity_congr dec r
      { r with responseData := { r.responseData with responses := some responses2 } }
      responses responses2 maxAge defaultTTL verifyTime rfl rfl hresp rfl hloop
    constructor
    · have := congrArg (Option.map (fun t : Bool × CFAbsoluteTime × CFAbsoluteTime => t.1)) hall
      simpa [Option.map_map, Function.comp] using this
    · intro _
      have := congrArg (Option.map (fun t : Bool × CFAbsoluteTime × CFAbsoluteTime => t.2)) hall
      simpa [Option.map_map, Function.comp] using this
  · have hf : (SecOCSPResponseCalculateValidity.loop dec verifyTime responses NULL_TIME).1
        = false := by simpa using hdone
    have hf2 : (SecOCSPResponseCalculateValidity.loop dec verifyTime responses2 NULL_TIME).1
        = false := by rw [← hfst]; exact hf
    have hres : ∀ (x : SecOCSPResponse) (rs : List SecAsn1OCSPSingleResponse),
        x.responseData.responses = some rs →
        (SecOCSPResponseCalculateValidity.loop dec verifyTime rs NULL_TIME).1 = false →
        (SecOCSPResponseCalculateValidity dec x maxAge defaultTTL verifyTime).map Prod.fst
          = some false := by
      intro x rs hx hl
      by_cases hprod : x.producedAt > verifyTime + LEEWAY
      · rw [SecOCSPResponseCalculateValidity_exit_producedAt dec x maxAge defaultTTL verifyTime
          hprod]
        rfl
      · rw [SecOCSPResponseCalculateValidity_eq dec x rs maxAge defaultTTL verifyTime hx
          (not_lt.mp hprod), if_pos hl]
        rfl
    have h1 := hres r responses hresp hf
    have h2 := hres { r with responseData := { r.responseData with
      responses := some responses2 } } responses2 rfl hf2
    refine ⟨by rw [h1, h2], ?_⟩
    intro htrue
    rw [h1] at htrue
    simp at htrue

/-- Witness for C31: two entries in either order, at verifyTime 5000 with
maxAge 60: the call returns true and stores the same latestNextUpdate and
expireTime. -/
theorem SecOCSPResponseCalculateValidity_perm_witness :
    (SecOCSPResponseCalculateValidity sampleDecoder
        (sampleResponse 1
          (some [sampleSingle ⟨some [0, 1]⟩ (some ⟨some [0, 39, 16]⟩),
                 sampleSingle ⟨some [0, 2]⟩ (some ⟨some [0, 100]⟩)]) none 1 []) 60 300 5000).map
      (fun p => (p.2.latestNextUpdate, p.2.expireTime)) =
    (SecOCSPResponseCalculateValidity sampleDecoder
        (sampleResponse 1
          (some [sampleSingle ⟨some [0, 2]⟩ (some ⟨some [0, 100]⟩),
                 sampleSingle ⟨some [0, 1]⟩ (some ⟨some [0, 39, 16]⟩)]) none 1 []) 60 300 5000).map
      (fun p => (p.2.latestNextUpdate, p.2.expireTime)) :=
  (SecOCSPResponseCalculateValidity_perm sampleDecoder
    (sampleResponse 1
      (some [sampleSingle ⟨some [0, 1]⟩ (some ⟨some [0, 39, 16]⟩),
             sampleSingle ⟨some [0, 2]⟩ (some ⟨some [0, 100]⟩)]) none 1 [])
    [sampleSingle ⟨some [0, 1]⟩ (some ⟨some [0, 39, 16]⟩),
     sampleSingle ⟨some [0, 2]⟩ (some ⟨some [0, 100]⟩)]
    [sampleSingle ⟨some [0, 2]⟩ (some ⟨some [0, 100]⟩),
     sampleSingle ⟨some [0, 1]⟩ (some ⟨some [0, 39, 16]⟩)]
    60 300 5000 rfl (List.Perm.swap _ _ _)).2 (by decide)

/-! ## Temporal validity: the cache fields before the call -/

/-- C32: validity is a function of the decoded response and the arguments only.
The boolean returned by SecOCSPResponseCalculateValidity and the latestNextUpdate
it stores do not depend on the values of latestNextUpdate and expireTime before
the call, and a second call with the same arguments returns the same result and
leaves the same state as the first (idempotence). -/
theorem SecOCSPResponseCalculateValidity_cache_independent (dec : DateDecoder)
    (r : SecOCSPResponse) (maxAge defaultTTL : CFTimeInterval) (verifyTime : CFAbsoluteTime) :
    (∀ latest0 expire0 : CFAbsoluteTime,
      (SecOCSPResponseCalculateValidity dec
        { r with latestNextUpdate := latest0, expireTime := expire0 }
        maxAge defaultTTL verifyTime).map (fun p => (p.1, p.2.latestNextUpdate)) =
      (SecOCSPResponseCalculateValidity dec r maxAge defaultTTL verifyTime).map
        (fun p => (p.1, p.2.latestNextUpdate))) ∧
    (∀ (b : Bool) (r1 : SecOCSPResponse),
      SecOCSPResponseCalculateValidity dec r maxAge defaultTTL verifyTime = some (b, r1) →
      SecOCSPResponseCalculateValidity dec r1 maxAge defaultTTL verifyTime = some (b, r1)) := by
  constructor
  · intro latest0 expire0
    by_cases hprod : r.producedAt > verifyTime + LEEWAY
    · rw [SecOCSPResponseCalculateValidity_exit_producedAt dec r maxAge defaultTTL verifyTime
        hprod, SecOCSPResponseCalculateValidity_exit_producedAt dec
        { r with latestNextUpdate := latest0, expireTime := expire0 } maxAge defaultTTL
        verifyTime hprod]
      rfl
    · cases hresp : r.responseData.responses with
      | none => simp [SecOCSPResponseCalculateValidity, hprod, hresp]
      | some responses =>
        rw [SecOCSPResponseCalculateValidity_eq dec r responses maxAge defaultTTL verifyTime
            hresp (not_lt.mp hprod),
          SecOCSPResponseCalculateValidity_eq dec
            { r with latestNextUpdate := latest0, expireTime := expire0 } responses maxAge
            defaultTTL verifyTime hresp (not_lt.mp hprod)]
        split_ifs <;> rfl
  · intro b r1 hcall
    by_cases hprod : r.producedAt > verifyTime + LEEWAY
    · rw [SecOCSPResponseCalculateValidity_exit_producedAt dec r maxAge defaultTTL verifyTime
        hprod] at hcall
      simp only [Option.some.injEq, Prod.mk.injEq] at hcall
      obtain ⟨hb, hr1⟩ := hcall
      subst hb hr1
      exact SecOCSPResponseCalculateValidity_exit_producedAt dec
        { r with latestNextUpdate := NULL_TIME } maxAge defaultTTL verifyTime hprod
    · cases hresp : r.responseData.responses with
      | none => simp [SecOCSPResponseCalculateValidity, hprod, hresp] at hcall
      | some responses =>
        have hagain : ∀ latest0 expire0 : CFAbsoluteTime,
            SecOCSPResponseCalculateValidity dec
              { r with latestNextUpdate := latest0, expireTime := expire0 }
              maxAge defaultTTL verifyTime =
            (SecOCSPResponseCalculateValidity dec r maxAge defaultTTL verifyTime).map
              (fun p => (p.1, { p.2 with
                expireTime := if p.1 = true then p.2.expireTime else expire0 })) := by
          intro latest0 expire0
          rw [SecOCSPResponseCalculateValidity_eq dec r responses maxAge defaultTTL verifyTime
              hresp (not_lt.mp hprod),
            SecOCSPResponseCalculateValidity_eq dec
              { r with latestNextUpdate := latest0, expireTime := expire0 } responses maxAge
              defaultTTL verifyTime hresp (not_lt.mp hprod)]
          split_ifs <;> rfl
        have hr1 :
            r1 = { r with latestNextUpdate := r1.latestNextUpdate, expireTime := r1.expireTime } ∧
            (b = false → r1.expireTime = r.expireTime) := by
          rw [SecOCSPResponseCalculateValidity_eq dec r responses maxAge defaultTTL verifyTime
            hresp (not_lt.mp hprod)] at hcall
          split_ifs at hcall <;>
            simp only [Option.some.injEq, Prod.mk.injEq] at hcall <;>
            obtain ⟨hb, hr⟩ := hcall <;>
            subst hb hr <;>
            exact ⟨rfl, fun hf => by first | rfl | exact absurd hf (by decide)⟩
        obtain ⟨hshape, hexp⟩ := hr1
        rw [hshape, hagain r1.latestNextUpdate r1.expireTime, hcall]
        cases b with
        | true => rw [← hshape]; rfl
        | false =>
          simp only [Option.map_some', Bool.false_eq_true, if_false]
          rw [← hshape]

/-- Witness for C32: a stale response (nextUpdate 100 at verifyTime 10000) is
rejected with latestNextUpdate 100; the second call on the object the first call
left returns the same result and leaves the same object. -/
theorem SecOCSPResponseCalculateValidity_cache_independent_witness :
    SecOCSPResponseCalculateValidity sampleDecoder
        { sampleResponse 1 (some [sampleSingle ⟨some [0, 1]⟩ (some ⟨some [0, 100]⟩)]) none 1 []
            with latestNextUpdate := 100 } 60 300 10000
      = some (false,
          { sampleResponse 1 (some [sampleSingle ⟨some [0, 1]⟩ (some ⟨some [0, 100]⟩)]) none 1 []
              with latestNextUpdate := 100 }) :=
  (SecOCSPResponseCalculateValidity_cache_independent sampleDecoder
    (sampleResponse 1 (some [sampleSingle ⟨some [0, 1]⟩ (some ⟨some [0, 100]⟩)]) none 1 [])
    60 300 10000).2 false _ (by decide)

/-! ## Validity of one entry and validity of the response -/

/-- C33: per-entry validity implies whole-response validity for a one-entry
response. For every response with exactly one entry e and producedAt <=
verifyTime + 4500, if the single response constructed from e satisfies
SecOCSPSingleResponseCalculateValidity, then SecOCSPResponseCalculateValidity
returns true for every maxAge. The converse fails: an entry without nextUpdate
whose thisUpdate + defaultTTL < verifyTime - 4500 (thisUpdate 1, defaultTTL 300,
verifyTime 10000) is accepted by the whole-response check and rejected per
entry. -/
theorem SecOCSPSingleResponseCalculateValidity_implies_response :
    (∀ (dec : DateDecoder) (coder : DecodeCapability) (r : SecOCSPResponse)
      (e : SecAsn1OCSPSingleResponse) (sr : SecOCSPSingleResponse)
      (maxAge defaultTTL : CFTimeInterval) (verifyTime : CFAbsoluteTime),
      r.responseData.responses = some [e] →
      r.producedAt ≤ verifyTime + 4500 →
      SecOCSPSingleResponseCreate dec coder e = some sr →
      SecOCSPSingleResponseCalculateValidity sr defaultTTL verifyTime = true →
      (SecOCSPResponseCalculateValidity dec r maxAge defaultTTL verifyTime).map Prod.fst
        = some true) ∧
    (∃ (dec : DateDecoder) (coder : DecodeCapability) (r : SecOCSPResponse)
      (e : SecAsn1OCSPSingleResponse) (sr : SecOCSPSingleResponse)
      (maxAge defaultTTL : CFTimeInterval) (verifyTime : CFAbsoluteTime),
      r.responseData.responses = some [e] ∧
      r.producedAt ≤ verifyTime + 4500 ∧
      SecOCSPSingleResponseCreate dec coder e = some sr ∧
      e.nextUpdate = none ∧
      sr.thisUpdate + defaultTTL < verifyTime - 4500 ∧
      (SecOCSPResponseCalculateValidity dec r maxAge defaultTTL verifyTime).map Prod.fst
        = some true ∧
      SecOCSPSingleResponseCalculateValidity sr defaultTTL verifyTime = false) := by
  constructor
  · intro dec coder r e sr maxAge defaultTTL verifyTime hresp hprod hcreate hvalid
    obtain ⟨hthis, _, hnone, hsome⟩ := SecOCSPSingleResponseCreate_times dec coder e sr hcreate
    unfold SecOCSPSingleResponseCalculateValidity at hvalid
    simp only at hvalid
    split_ifs at hvalid with h1 h2
    have hthisUpdate : genTimeToCFAbsTime dec e.thisUpdate ≤ verifyTime + LEEWAY := by
      rw [← hthis]
      exact not_lt.mp h1
    rw [SecOCSPResponseCalculateValidity_eq dec r [e] maxAge defaultTTL verifyTime hresp hprod]
    have hall : ∀ x ∈ [e], genTimeToCFAbsTime dec x.thisUpdate ≤ verifyTime + LEEWAY := by
      intro x hx
      rw [List.mem_singleton.mp hx]
      exact hthisUpdate
    have hdone := SecOCSPResponseCalculateValidity_loop_complete dec verifyTime [e] NULL_TIME
      hall
    have hd : ¬ (SecOCSPResponseCalculateValidity.loop dec verifyTime [e] NULL_TIME).1
        = false := by simp [hdone]
    rw [if_neg hd]
    by_cases hnull : (SecOCSPResponseCalculateValidity.loop dec verifyTime [e] NULL_TIME).2
        = NULL_TIME
    · rw [if_pos hnull]
      rfl
    · have hfresh : ¬ (SecOCSPResponseCalculateValidity.loop dec verifyTime [e] NULL_TIME).2
          < verifyTime - LEEWAY := by
        rcases SecOCSPResponseCalculateValidity_loop_mem dec verifyTime [e] NULL_TIME
          with h0 | ⟨y, hy, nu, hn, hv⟩
        · exact absurd h0 hnull
        · rw [List.mem_singleton.mp hy] at hn
          obtain ⟨heq, hne⟩ := hsome nu hn
          have hcnu : SecOCSPSingleResponseComputedNextUpdate sr defaultTTL = sr.nextUpdate := by
            unfold SecOCSPSingleResponseComputedNextUpdate
            rw [if_neg hne]
          rw [hcnu, heq, hv] at h2
          exact fun hlt => h2 hlt
      rw [if_neg hnull, if_neg hfresh]
      split_ifs <;> rfl
  · exact ⟨sampleDecoder, sampleCoder,
      sampleResponse 1 (some [sampleSingle ⟨some [0, 1]⟩ none]) none 1 [],
      sampleSingle ⟨some [0, 1]⟩ none, SecOCSPSingleResponse.mk 0 1 0 0 (-1) none,
      60, 300, 10000, rfl, by decide, by decide, rfl, by decide, by decide, by decide⟩

/-- Witness for C33: one entry with thisUpdate 1 and nextUpdate 10000 at
verifyTime 12000: the single response is valid, and so is the response, with
maxAge 60. -/
theorem SecOCSPSingleResponseCalculateValidity_implies_response_witness :
    (SecOCSPResponseCalculateValidity sampleDecoder
        (sampleResponse 1 (some [sampleSingle ⟨some [0, 1]⟩ (some ⟨some [0, 39, 16]⟩)]) none 1 [])
        60 300 12000).map Prod.fst = some true :=
  SecOCSPSingleResponseCalculateValidity_implies_response.1 sampleDecoder sampleCoder
    (sampleResponse 1 (some [sampleSingle ⟨some [0, 1]⟩ (some ⟨some [0, 39, 16]⟩)]) none 1 [])
    (sampleSingle ⟨some [0, 1]⟩ (some ⟨some [0, 39, 16]⟩))
    (SecOCSPSingleResponse.mk 0 1 10000 0 (-1) none) 60 300 12000
    rfl (by decide) (by decide) (by decide)

/-! ## Double arithmetic: lemmas -/

/-- With enough fuel the halving count is at most k exactly when n is below
2 ^ k. -/
theorem bitLength_go_le_iff : ∀ (fuel n k : Nat), n ≤ fuel →
    (bitLength.go fuel n ≤ k ↔ n < 2 ^ k) := by
  intro fuel
  induction fuel with
  | zero =>
    intro n k hn
    have h0 : n = 0 := Nat.le_zero.mp hn
    subst h0
    simp [bitLength.go]
  | succ fuel ih =>
    intro n k hn
    by_cases h0 : n = 0
    · subst h0
      simp [bitLength.go]
    · have hstep : bitLength.go (fuel + 1) n = bitLength.go fuel (n / 2) + 1 := by
        simp [bitLength.go, h0]
      rw [hstep]
      have hhalf : n / 2 ≤ fuel := by omega
      cases k with
      | zero =>
        constructor
        · intro h; omega
        · intro h; simp at h; exact absurd h h0
      | succ k =>
        rw [Nat.succ_le_succ_iff, ih (n / 2) k hhalf, pow_succ]
        constructor
        · intro h; omega
        · intro h; omega

/-- The number of binary digits of n is at most k exactly when n is below
2 ^ k. -/
theorem bitLength_le_iff (n k : Nat) : bitLength n ≤ k ↔ n < 2 ^ k :=
  bitLength_go_le_iff n n k (le_refl n)

/-- A number is below the power of two given by its number of digits. -/
theorem lt_two_pow_bitLength (n : Nat) : n < 2 ^ bitLength n :=
  (bitLength_le_iff n (bitLength n)).mp (le_refl _)

/-- A nonzero number reaches the power of two below its number of digits. -/
theorem two_pow_bitLength_pred_le (n : Nat) (hn : n ≠ 0) : 2 ^ (bitLength n - 1) ≤ n := by
  by_contra h
  have hlt : n < 2 ^ (bitLength n - 1) := not_le.mp h
  have hle := (bitLength_le_iff n (bitLength n - 1)).mpr hlt
  have hzero : bitLength n = 0 := by omega
  have h1 := lt_two_pow_bitLength n
  rw [hzero] at h1
  simp at h1
  exact hn h1

/-- The number of binary digits is monotone. -/
theorem bitLength_mono (a b : Nat) (h : a ≤ b) : bitLength a ≤ bitLength b :=
  (bitLength_le_iff a (bitLength b)).mpr (lt_of_le_of_lt h (lt_two_pow_bitLength b))

/-- Rounding to a multiple of 2 ^ e never passes a multiple of 2 ^ e that lies
at or above the number. -/
theorem roundToDouble_nearest_le (e n m : Nat) (h : n ≤ m * 2 ^ e) :
    roundToDouble.nearest e n ≤ m * 2 ^ e := by
  have hP : 0 < 2 ^ e := Nat.two_pow_pos e
  have hdm := Nat.div_add_mod n (2 ^ e)
  have hq : n / 2 ^ e ≤ m := Nat.div_le_of_le_mul (by rw [Nat.mul_comm]; exact h)
  unfold roundToDouble.nearest
  simp only
  rcases Nat.lt_or_eq_of_le hq with hlt | heq
  · split_ifs
    · exact Nat.mul_le_mul_right _ hq
    · exact Nat.mul_le_mul_right _ hlt
  · have hrest : n % 2 ^ e = 0 := by
      rw [heq, Nat.mul_comm] at hdm
      omega
    rw [hrest, heq]
    simp [hP]

/-- Rounding to a multiple of 2 ^ e never falls below a multiple of 2 ^ e that
lies at or below the number. -/
theorem roundToDouble_le_nearest (e n m : Nat) (h : m * 2 ^ e ≤ n) :
    m * 2 ^ e ≤ roundToDouble.nearest e n := by
  have hP : 0 < 2 ^ e := Nat.two_pow_pos e
  have hq : m ≤ n / 2 ^ e := (Nat.le_div_iff_mul_le hP).mpr h
  unfold roundToDouble.nearest
  simp only
  split_ifs
  · exact Nat.mul_le_mul_right _ hq
  · exact Nat.mul_le_mul_right _ (Nat.le_succ_of_le hq)

/-- Rounding to a multiple of 2 ^ e is monotone. -/
theorem roundToDouble_nearest_mono (e a b : Nat) (h : a ≤ b) :
    roundToDouble.nearest e a ≤ roundToDouble.nearest e b := by
  have hP : 0 < 2 ^ e := Nat.two_pow_pos e
  have hq : a / 2 ^ e ≤ b / 2 ^ e := Nat.div_le_div_right h
  rcases Nat.lt_or_eq_of_le hq with hlt | heq
  · have hb : (a / 2 ^ e + 1) * 2 ^ e ≤ b := by
      have := Nat.div_mul_le_self b (2 ^ e)
      exact le_trans (Nat.mul_le_mul_right _ hlt) this
    have ha : a ≤ (a / 2 ^ e + 1) * 2 ^ e := by
      have h1 := Nat.div_add_mod a (2 ^ e)
      have h2 := Nat.mod_lt a hP
      rw [Nat.add_mul, Nat.one_mul, Nat.mul_comm]
      omega
    exact le_trans (roundToDouble_nearest_le e a _ ha) (roundToDouble_le_nearest e b _ hb)
  · have h1 := Nat.div_add_mod a (2 ^ e)
    have h2 := Nat.div_add_mod b (2 ^ e)
    rw [← heq] at h2
    have hrest : a % 2 ^ e ≤ b % 2 ^ e := by omega
    unfold roundToDouble.nearest
    simp only
    rw [← heq]
    by_cases hb : 2 * (b % 2 ^ e) < 2 ^ e ∨ (2 * (b % 2 ^ e) = 2 ^ e ∧ a / 2 ^ e % 2 = 0)
    · have ha : 2 * (a % 2 ^ e) < 2 ^ e ∨ (2 * (a % 2 ^ e) = 2 ^ e ∧ a / 2 ^ e % 2 = 0) := by
        rcases hb with hb | ⟨hb, hev⟩
        · exact Or.inl (by omega)
        · rcases Nat.lt_or_eq_of_le hrest with hl | he
          · exact Or.inl (by omega)
          · exact Or.inr ⟨by omega, hev⟩
      rw [if_pos ha, if_pos hb]
    · rw [if_neg hb]
      split_ifs
      · exact Nat.mul_le_mul_right _ (Nat.le_succ _)
      · exact le_refl _

/-- Rounding a natural number to 53 significant binary digits is monotone. -/
theorem roundToDouble_magnitude_mono (a b : Nat) (h : a ≤ b) :
    roundToDouble.magnitude a ≤ roundToDouble.magnitude b := by
  unfold roundToDouble.magnitude
  have hL := bitLength_mono a b h
  rcases Nat.lt_or_eq_of_le (Nat.sub_le_sub_right hL 53) with hlt | heq
  · have hb0 : b ≠ 0 := by
      intro hb
      subst hb
      have : bitLength 0 = 0 := rfl
      omega
    have hT1 : a < 2 ^ bitLength a := lt_two_pow_bitLength a
    have hT2 : 2 ^ (bitLength b - 1) ≤ b := two_pow_bitLength_pred_le b hb0
    have hLa : bitLength a ≤ bitLength b - 1 := by omega
    have hT3 : 2 ^ bitLength a ≤ 2 ^ (bitLength b - 1) :=
      Nat.pow_le_pow_right (by norm_num) hLa
    have hma : 2 ^ (bitLength b - 1) =
        2 ^ (bitLength b - 1 - (bitLength a - 53)) * 2 ^ (bitLength a - 53) := by
      rw [← pow_add]
      congr 1
      omega
    have hmb : 2 ^ (bitLength b - 1) =
        2 ^ (bitLength b - 1 - (bitLength b - 53)) * 2 ^ (bitLength b - 53) := by
      rw [← pow_add]
      congr 1
      omega
    have hA : roundToDouble.nearest (bitLength a - 53) a ≤ 2 ^ (bitLength b - 1) := by
      rw [hma]
      apply roundToDouble_nearest_le
      rw [← hma]
      omega
    have hB : 2 ^ (bitLength b - 1) ≤ roundToDouble.nearest (bitLength b - 53) b := by
      rw [hmb]
      apply roundToDouble_le_nearest
      rw [← hmb]
      exact hT2
    exact le_trans hA hB
  · rw [heq]
    exact roundToDouble_nearest_mono _ a b h

/-- Rounding to the nearest double is monotone. -/
theorem roundToDouble_mono (x y : Int) (h : x ≤ y) : roundToDouble x ≤ roundToDouble y := by
  unfold roundToDouble
  by_cases hx : x < 0
  · by_cases hy : y < 0
    · rw [if_pos hx, if_pos hy]
      have hab : y.natAbs ≤ x.natAbs := by omega
      have := roundToDouble_magnitude_mono _ _ hab
      omega
    · rw [if_pos hx, if_neg hy]
      omega
  · have hy : ¬ y < 0 := by omega
    rw [if_neg hx, if_neg hy]
    have hab : x.natAbs ≤ y.natAbs := by omega
    have := roundToDouble_magnitude_mono _ _ hab
    omega

/-- A natural number below 2 ^ 53 is a double. -/
theorem roundToDouble_magnitude_of_lt (n : Nat) (h : n < 2 ^ 53) :
    roundToDouble.magnitude n = n := by
  have hL : bitLength n - 53 = 0 := by
    have := (bitLength_le_iff n 53).mpr h
    omega
  unfold roundToDouble.magnitude roundToDouble.nearest
  rw [hL]
  simp [Nat.mod_one]

/-- An integer of magnitude below 2 ^ 53 is a double: rounding keeps it. -/
theorem roundToDouble_of_lt (x : Int) (h1 : -(2 ^ 53) < x) (h2 : x < 2 ^ 53) :
    roundToDouble x = x := by
  have hn : x.natAbs < 2 ^ 53 := by omega
  unfold roundToDouble
  rw [roundToDouble_magnitude_of_lt _ hn]
  split_ifs with hx <;> omega

/-! ## Temporal validity in double arithmetic: lemmas -/

/-- One step of the loop in double arithmetic, with the local variables
substituted. -/
theorem SecOCSPResponseCalculateValidityDouble_loop_cons (dec : DateDecoder)
    (verifyTime : CFAbsoluteTime) (resp : SecAsn1OCSPSingleResponse)
    (rest : List SecAsn1OCSPSingleResponse) (latest : CFAbsoluteTime) :
    SecOCSPResponseCalculateValidityDouble.loop dec verifyTime (resp :: rest) latest =
      if genTimeToCFAbsTime dec resp.thisUpdate > roundToDouble (verifyTime + LEEWAY) then
        (false, latest)
      else
        match resp.nextUpdate with
        | some nu =>
          if genTimeToCFAbsTime dec nu > latest then
            SecOCSPResponseCalculateValidityDouble.loop dec verifyTime rest
              (genTimeToCFAbsTime dec nu)
          else SecOCSPResponseCalculateValidityDouble.loop dec verifyTime rest latest
        | none => SecOCSPResponseCalculateValidityDouble.loop dec verifyTime rest latest := rfl

/-- The loop in double arithmetic is the loop in exact numbers run at the time
whose exact sum with LEEWAY is the double sum verifyTime + LEEWAY. -/
theorem SecOCSPResponseCalculateValidityDouble_loop_eq (dec : DateDecoder)
    (verifyTime : CFAbsoluteTime) :
    ∀ (responses : List SecAsn1OCSPSingleResponse) (latest : CFAbsoluteTime),
      SecOCSPResponseCalculateValidityDouble.loop dec verifyTime responses latest =
        SecOCSPResponseCalculateValidity.loop dec
          (roundToDouble (verifyTime + LEEWAY) - LEEWAY) responses latest := by
  intro responses
  induction responses with
  | nil => intro latest; rfl
  | cons resp rest ih =>
    intro latest
    rw [SecOCSPResponseCalculateValidityDouble_loop_cons,
      SecOCSPResponseCalculateValidity_loop_cons, sub_add_cancel]
    simp only [ih]

/-- In double arithmetic, the value the loop leaves in latestNextUpdate is the
start value or the decoded nextUpdate of one of the entries. -/
theorem SecOCSPResponseCalculateValidityDouble_loop_mem (dec : DateDecoder)
    (verifyTime : CFAbsoluteTime) (responses : List SecAsn1OCSPSingleResponse)
    (latest : CFAbsoluteTime) :
    (SecOCSPResponseCalculateValidityDouble.loop dec verifyTime responses latest).2 = latest ∨
    ∃ resp ∈ responses, ∃ nu, resp.nextUpdate = some nu ∧
      genTimeToCFAbsTime dec nu =
        (SecOCSPResponseCalculateValidityDouble.loop dec verifyTime responses latest).2 := by
  rw [SecOCSPResponseCalculateValidityDouble_loop_eq]
  exact SecOCSPResponseCalculateValidity_loop_mem dec _ responses latest

/-- In double arithmetic, when the loop runs to the end, the value it leaves in
latestNextUpdate is at least the decoded nextUpdate of every entry that has
one. -/
theorem SecOCSPResponseCalculateValidityDouble_loop_upper (dec : DateDecoder)
    (verifyTime : CFAbsoluteTime) (responses : List SecAsn1OCSPSingleResponse)
    (latest : CFAbsoluteTime)
    (hdone : (SecOCSPResponseCalculateValidityDouble.loop dec verifyTime responses latest).1
      = true) :
    ∀ resp ∈ responses, ∀ nu, resp.nextUpdate = some nu →
      genTimeToCFAbsTime dec nu ≤
        (SecOCSPResponseCalculateValidityDouble.loop dec verifyTime responses latest).2 := by
  rw [SecOCSPResponseCalculateValidityDouble_loop_eq] at hdone ⊢
  exact SecOCSPResponseCalculateValidity_loop_upper dec _ responses latest hdone

/-- In double arithmetic, a producedAt beyond the double sum verifyTime + LEEWAY
ends the call at its first check: the result is false and only latestNextUpdate
was reset. -/
theorem SecOCSPResponseCalculateValidityDouble_exit_producedAt (dec : DateDecoder)
    (r : SecOCSPResponse) (maxAge defaultTTL : CFTimeInterval) (verifyTime : CFAbsoluteTime)
    (h : r.producedAt > roundToDouble (verifyTime + LEEWAY)) :
    SecOCSPResponseCalculateValidityDouble dec r maxAge defaultTTL verifyTime
      = some (false, { r with latestNextUpdate := NULL_TIME }) := by
  simp [SecOCSPResponseCalculateValidityDouble, h]

/-- SecOCSPResponseCalculateValidity in double arithmetic on an object with a
decoded responses array and a producedAt not beyond the double sum
verifyTime + LEEWAY, written over the result of the loop. -/
theorem SecOCSPResponseCalculateValidityDouble_eq (dec : DateDecoder) (r : SecOCSPResponse)
    (responses : List SecAsn1OCSPSingleResponse)
    (maxAge defaultTTL : CFTimeInterval) (verifyTime : CFAbsoluteTime)
    (hresp : r.responseData.responses = some responses)
    (hprod : r.producedAt ≤ roundToDouble (verifyTime + LEEWAY)) :
    SecOCSPResponseCalculateValidityDouble dec r maxAge defaultTTL verifyTime =
      if (SecOCSPResponseCalculateValidityDouble.loop dec verifyTime responses NULL_TIME).1
          = false then
        some (false, { r with latestNextUpdate :=
          (SecOCSPResponseCalculateValidityDouble.loop dec verifyTime responses NULL_TIME).2 })
      else if (SecOCSPResponseCalculateValidityDouble.loop dec verifyTime responses NULL_TIME).2
          = NULL_TIME then
        some (true, { r with
          latestNextUpdate :=
            (SecOCSPResponseCalculateValidityDouble.loop dec verifyTime responses NULL_TIME).2,
          expireTime := roundToDouble (verifyTime + defaultTTL) })
      else if (SecOCSPResponseCalculateValidityDouble.loop dec verifyTime responses NULL_TIME).2
          < roundToDouble (verifyTime - LEEWAY) then
        some (false, { r with latestNextUpdate :=
          (SecOCSPResponseCalculateValidityDouble.loop dec verifyTime responses NULL_TIME).2 })
      else if 0 < maxAge ∧ maxAge < roundToDouble
          ((SecOCSPResponseCalculateValidityDouble.loop dec verifyTime responses NULL_TIME).2
            - verifyTime) then
        some (true, { r with
          latestNextUpdate :=
            (SecOCSPResponseCalculateValidityDouble.loop dec verifyTime responses NULL_TIME).2,
          expireTime := roundToDouble (verifyTime + maxAge) })
      else
        some (true, { r with
          latestNextUpdate :=
            (SecOCSPResponseCalculateValidityDouble.loop dec verifyTime responses NULL_TIME).2,
          expireTime :=
            (SecOCSPResponseCalculateValidityDouble.loop dec verifyTime responses
              NULL_TIME).2 }) := by
  have hp : ¬ r.producedAt > roundToDouble (verifyTime + LEEWAY) := not_lt.mpr hprod
  unfold SecOCSPResponseCalculateValidityDouble
  simp only [hp, if_false, hresp]
  by_cases h1 : (SecOCSPResponseCalculateValidityDouble.loop dec verifyTime responses
      NULL_TIME).1 = false
  · simp only [h1, if_true]
  · simp only [h1, if_false]
    by_cases h2 : (SecOCSPResponseCalculateValidityDouble.loop dec verifyTime responses
        NULL_TIME).2 = NULL_TIME
    · simp only [h2, if_true]
    · simp only [h2, if_false]
      by_cases h3 : (SecOCSPResponseCalculateValidityDouble.loop dec verifyTime responses
          NULL_TIME).2 < roundToDouble (verifyTime - LEEWAY)
      · simp only [h3, if_true]
      · simp only [h3, if_false]
        by_cases h4 : maxAge > 0
        · have h4p : 0 < maxAge := h4
          by_cases h5 : maxAge < roundToDouble
              ((SecOCSPResponseCalculateValidityDouble.loop dec verifyTime responses
                NULL_TIME).2 - verifyTime)
          · simp only [h4, h4p, h5, if_true, and_self]
          · simp only [h4, h4p, h5, if_true, if_false, and_false]
        · have h4p : ¬ 0 < maxAge := h4
          simp only [h4, h4p, if_false, false_and]

/-- The two embeddings agree when the sums and differences of the call are
doubles: if verifyTime + LEEWAY, verifyTime - LEEWAY, verifyTime + defaultTTL,
verifyTime + maxAge and, for every entry with a nextUpdate, nextUpdate -
verifyTime are kept by the rounding, SecOCSPResponseCalculateValidity in double
arithmetic is SecOCSPResponseCalculateValidity in exact numbers. -/
theorem SecOCSPResponseCalculateValidityDouble_eq_exact (dec : DateDecoder)
    (r : SecOCSPResponse) (maxAge defaultTTL : CFTimeInterval) (verifyTime : CFAbsoluteTime)
    (h1 : roundToDouble (verifyTime + LEEWAY) = verifyTime + LEEWAY)
    (h2 : roundToDouble (verifyTime - LEEWAY) = verifyTime - LEEWAY)
    (h3 : roundToDouble (verifyTime + defaultTTL) = verifyTime + defaultTTL)
    (h4 : roundToDouble (verifyTime + maxAge) = verifyTime + maxAge)
    (h5 : ∀ responses, r.responseData.responses = some responses →
      ∀ resp ∈ responses, ∀ nu, resp.nextUpdate = some nu →
        roundToDouble (genTimeToCFAbsTime dec nu - verifyTime)
          = genTimeToCFAbsTime dec nu - verifyTime) :
    SecOCSPResponseCalculateValidityDouble dec r maxAge defaultTTL verifyTime =
      SecOCSPResponseCalculateValidity dec r maxAge defaultTTL verifyTime := by
  have hloop : ∀ responses latest,
      SecOCSPResponseCalculateValidityDouble.loop dec verifyTime responses latest =
        SecOCSPResponseCalculateValidity.loop dec verifyTime responses latest := by
    intro responses latest
    rw [SecOCSPResponseCalculateValidityDouble_loop_eq, h1, add_sub_cancel_right]
  by_cases hprod : r.producedAt > verifyTime + LEEWAY
  · rw [SecOCSPResponseCalculateValidity_exit_producedAt dec r maxAge defaultTTL verifyTime
      hprod]
    rw [← h1] at hprod
    exact SecOCSPResponseCalculateValidityDouble_exit_producedAt dec r maxAge defaultTTL
      verifyTime hprod
  · cases hresp : r.responseData.responses with
    | none =>
      have hp : ¬ r.producedAt > roundToDouble (verifyTime + LEEWAY) := by rw [h1]; exact hprod
      simp [SecOCSPResponseCalculateValidityDouble, SecOCSPResponseCalculateValidity, hprod, hp,
        hresp]
    | some responses =>
      have hprodD : r.producedAt ≤ roundToDouble (verifyTime + LEEWAY) := by
        rw [h1]; exact not_lt.mp hprod
      rw [SecOCSPResponseCalculateValidity_eq dec r responses maxAge defaultTTL verifyTime hresp
          (not_lt.mp hprod),
        SecOCSPResponseCalculateValidityDouble_eq dec r responses maxAge defaultTTL verifyTime
          hresp hprodD, hloop, h2, h3, h4]
      by_cases hd : (SecOCSPResponseCalculateValidity.loop dec verifyTime responses NULL_TIME).1
          = false
      · rw [if_pos hd, if_pos hd]
      · rw [if_neg hd, if_neg hd]
        by_cases hn : (SecOCSPResponseCalculateValidity.loop dec verifyTime responses
            NULL_TIME).2 = NULL_TIME
        · rw [if_pos hn, if_pos hn]
        · rw [if_neg hn, if_neg hn]
          have hdiff : roundToDouble
              ((SecOCSPResponseCalculateValidity.loop dec verifyTime responses NULL_TIME).2
                - verifyTime) =
              (SecOCSPResponseCalculateValidity.loop dec verifyTime responses NULL_TIME).2
                - verifyTime := by
            rcases SecOCSPResponseCalculateValidity_loop_mem dec verifyTime responses NULL_TIME
              with h0 | ⟨y, hy, nu, hnu, hv⟩
            · exact absurd h0 hn
            · rw [← hv]
              exact h5 responses hresp y hy nu hnu
          rw [hdiff]

/-- The per-entry check in double arithmetic agrees with the check in exact
numbers when verifyTime + LEEWAY, verifyTime - LEEWAY and thisUpdate + defaultTTL
are doubles. -/
theorem SecOCSPSingleResponseCalculateValidityDouble_eq_exact (sr : SecOCSPSingleResponse)
    (defaultTTL : CFTimeInterval) (verifyTime : CFAbsoluteTime)
    (h1 : roundToDouble (verifyTime + LEEWAY) = verifyTime + LEEWAY)
    (h2 : roundToDouble (verifyTime - LEEWAY) = verifyTime - LEEWAY)
    (h3 : roundToDouble (sr.thisUpdate + defaultTTL) = sr.thisUpdate + defaultTTL) :
    SecOCSPSingleResponseCalculateValidityDouble sr defaultTTL verifyTime =
      SecOCSPSingleResponseCalculateValidity sr defaultTTL verifyTime := by
  unfold SecOCSPSingleResponseCalculateValidityDouble SecOCSPSingleResponseCalculateValidity
    SecOCSPSingleResponseComputedNextUpdateDouble SecOCSPSingleResponseComputedNextUpdate
  rw [h1, h2, h3]

/-- The two embeddings agree on times of magnitude below 2 ^ 52: when
verifyTime, maxAge, defaultTTL and every decoded nextUpdate lie strictly between
-2 ^ 52 and 2 ^ 52, no sum or difference of the call is rounded. -/
theorem SecOCSPResponseCalculateValidityDouble_eq_exact_of_lt (dec : DateDecoder)
    (r : SecOCSPResponse) (maxAge defaultTTL : CFTimeInterval) (verifyTime : CFAbsoluteTime)
    (hv : -(2 ^ 52) < verifyTime ∧ verifyTime < 2 ^ 52)
    (hm : -(2 ^ 52) < maxAge ∧ maxAge < 2 ^ 52)
    (ht : -(2 ^ 52) < defaultTTL ∧ defaultTTL < 2 ^ 52)
    (hn : ∀ responses, r.responseData.responses = some responses →
      ∀ resp ∈ responses, ∀ nu, resp.nextUpdate = some nu →
        -(2 ^ 52) < genTimeToCFAbsTime dec nu ∧ genTimeToCFAbsTime dec nu < 2 ^ 52) :
    SecOCSPResponseCalculateValidityDouble dec r maxAge defaultTTL verifyTime =
      SecOCSPResponseCalculateValidity dec r maxAge defaultTTL verifyTime := by
  have hL : LEEWAY = 4500 := rfl
  have hp : (2 : Int) ^ 53 = 2 ^ 52 + 2 ^ 52 := by norm_num
  have hbig : (4500 : Int) < 2 ^ 52 := by norm_num
  obtain ⟨hv1, hv2⟩ := hv
  obtain ⟨hm1, hm2⟩ := hm
  obtain ⟨ht1, ht2⟩ := ht
  apply SecOCSPResponseCalculateValidityDouble_eq_exact
  · apply roundToDouble_of_lt <;> rw [hL] <;> linarith
  · apply roundToDouble_of_lt <;> rw [hL] <;> linarith
  · apply roundToDouble_of_lt <;> linarith
  · apply roundToDouble_of_lt <;> linarith
  · intro responses hresp resp hmem nu hnu
    obtain ⟨h1, h2⟩ := hn responses hresp resp hmem nu hnu
    apply roundToDouble_of_lt <;> linarith

/-! ## Temporal validity in double arithmetic: rejection -/

/-- C4, the failing input: a single entry whose nextUpdate decodes to -10000, at
verifyTime 10000 (no sum is rounded at these values). The maximum nextUpdate
-10000 lies before verifyTime - 4500 = 5500, yet the call returns true with
latestNextUpdate still at the NULL_TIME sentinel and expireTime = verifyTime +
defaultTTL: the loop raises latestNextUpdate only above its start value 0, so a
nextUpdate at or below 0 is never recorded and the staleness check is skipped.
Both embeddings give this result. The per-entry check
SecOCSPSingleResponseCalculateValidity on the single response constructed from
the same entry returns false. -/
theorem SecOCSPResponseCalculateValidityDouble_stale_failing_input :
    genTimeToCFAbsTime sampleDecoder ⟨some [1, 39, 16]⟩ = -10000 ∧
    (-10000 : Int) < 10000 - 4500 ∧
    (SecOCSPResponseCalculateValidityDouble sampleDecoder
        (sampleResponse 1 (some [sampleSingle ⟨some [0, 1]⟩ (some ⟨some [1, 39, 16]⟩)]) none 1 [])
        60 300 10000).map (fun p => (p.1, p.2.latestNextUpdate, p.2.expireTime))
      = some (true, 0, 10300) ∧
    (SecOCSPResponseCalculateValidity sampleDecoder
        (sampleResponse 1 (some [sampleSingle ⟨some [0, 1]⟩ (some ⟨some [1, 39, 16]⟩)]) none 1 [])
        60 300 10000).map (fun p => (p.1, p.2.latestNextUpdate, p.2.expireTime))
      = some (true, 0, 10300) ∧
    SecOCSPSingleResponseCreate sampleDecoder sampleCoder
        (sampleSingle ⟨some [0, 1]⟩ (some ⟨some [1, 39, 16]⟩))
      = some (SecOCSPSingleResponse.mk 0 1 (-10000) 0 (-1) none) ∧
    SecOCSPSingleResponseCalculateValidityDouble
        (SecOCSPSingleResponse.mk 0 1 (-10000) 0 (-1) none) 300 10000 = false := by
  refine ⟨by decide, by decide, by decide, by decide, by decide, by decide⟩

/-- Staleness rejection for a recorded maximum, in double arithmetic. Let M be
the maximum decoded nextUpdate over the entries that have one. If M is above the
NULL_TIME sentinel (0 < M) and before the double difference verifyTime - 4500,
SecOCSPResponseCalculateValidity returns false, for every maxAge and
defaultTTL. -/
theorem SecOCSPResponseCalculateValidityDouble_stale_recorded (dec : DateDecoder)
    (r : SecOCSPResponse) (responses : List SecAsn1OCSPSingleResponse)
    (maxAge defaultTTL : CFTimeInterval) (verifyTime M : CFAbsoluteTime)
    (hresp : r.responseData.responses = some responses)
    (hmem : ∃ resp ∈ responses, ∃ nu, resp.nextUpdate = some nu ∧ genTimeToCFAbsTime dec nu = M)
    (hmax : ∀ resp ∈ responses, ∀ nu, resp.nextUpdate = some nu → genTimeToCFAbsTime dec nu ≤ M)
    (hpos : 0 < M)
    (hstale : M < roundToDouble (verifyTime - 4500)) :
    (SecOCSPResponseCalculateValidityDouble dec r maxAge defaultTTL verifyTime).map Prod.fst
      = some false := by
  by_cases hprod : r.producedAt > roundToDouble (verifyTime + LEEWAY)
  · rw [SecOCSPResponseCalculateValidityDouble_exit_producedAt dec r maxAge defaultTTL
      verifyTime hprod]
    rfl
  · rw [SecOCSPResponseCalculateValidityDouble_eq dec r responses maxAge defaultTTL verifyTime
      hresp (not_lt.mp hprod)]
    by_cases h1 : (SecOCSPResponseCalculateValidityDouble.loop dec verifyTime responses
        NULL_TIME).1 = false
    · simp [h1]
    · have hdone : (SecOCSPResponseCalculateValidityDouble.loop dec verifyTime responses
          NULL_TIME).1 = true := by simpa using h1
      have hup := SecOCSPResponseCalculateValidityDouble_loop_upper dec verifyTime responses
        NULL_TIME hdone
      have hval : (SecOCSPResponseCalculateValidityDouble.loop dec verifyTime responses
          NULL_TIME).2 = M := by
        obtain ⟨x, hx, nu, hnu, hM⟩ := hmem
        have hge := hup x hx nu hnu
        rw [hM] at hge
        rcases SecOCSPResponseCalculateValidityDouble_loop_mem dec verifyTime responses
          NULL_TIME with h0 | ⟨y, hy, n, hn, hv⟩
        · rw [h0] at hge
          exact absurd hge (not_le.mpr hpos)
        · have hle := hmax y hy n hn
          rw [hv] at hle
          exact le_antisymm hle hge
      have h2 : ¬ M = NULL_TIME := by
        intro h0
        rw [h0] at hpos
        exact lt_irrefl (0 : Int) hpos
      have h3 : M < roundToDouble (verifyTime - LEEWAY) := hstale
      simp [hval, h2, h3]

/-! ## Temporal validity in double arithmetic: acceptance and expiration -/

/-- C8 as stated fails, in three ways. (1) One entry with nextUpdate t0 = 10000
at verifyTime 10000: the call is valid, maxAge = t0 - verifyTime - 1 = -1 is not
positive and is ignored, and expireTime is t0 = 10000, not verifyTime + maxAge =
9999. (2) One entry with nextUpdate t0 = 2^53 + 4 at verifyTime 2^53: with
maxAge = t0 - verifyTime - 1 = 3 the stored expireTime is the double sum
2^53 + 4, not verifyTime + maxAge = 2^53 + 3, which is not a double. (3) One
entry with nextUpdate t0 = -10000 at verifyTime 10000 (the failing input of C4):
latestNextUpdate stays at the NULL_TIME sentinel, and with maxAge = t0 -
verifyTime + 1000000 the stored expireTime is verifyTime + defaultTTL = 10300,
not t0. -/
theorem SecOCSPResponseCalculateValidityDouble_single_entry_counterexample :
    (genTimeToCFAbsTime sampleDecoder ⟨some [0, 39, 16]⟩ = 10000 ∧
     (SecOCSPResponseCalculateValidityDouble sampleDecoder
        (sampleResponse 1 (some [sampleSingle ⟨some [0, 1]⟩ (some ⟨some [0, 39, 16]⟩)]) none 1 [])
        (10000 - 10000 - 1) 300 10000).map (fun p => (p.1, p.2.expireTime))
      = some (true, 10000) ∧
     (10000 : Int) ≠ 10000 + (10000 - 10000 - 1)) ∧
    (genTimeToCFAbsTime sampleDecoder ⟨some [0, 32, 0, 0, 0, 0, 0, 4]⟩ = 2 ^ 53 + 4 ∧
     (SecOCSPResponseCalculateValidityDouble sampleDecoder
        (sampleResponse 1
          (some [sampleSingle ⟨some [0, 1]⟩ (some ⟨some [0, 32, 0, 0, 0, 0, 0, 4]⟩)]) none 1 [])
        ((2 ^ 53 + 4) - 2 ^ 53 - 1) 300 (2 ^ 53)).map (fun p => (p.1, p.2.expireTime))
      = some (true, 2 ^ 53 + 4) ∧
     (2 ^ 53 + 4 : Int) ≠ 2 ^ 53 + ((2 ^ 53 + 4) - 2 ^ 53 - 1)) ∧
    (genTimeToCFAbsTime sampleDecoder ⟨some [1, 39, 16]⟩ = -10000 ∧
     (SecOCSPResponseCalculateValidityDouble sampleDecoder
        (sampleResponse 1 (some [sampleSingle ⟨some [0, 1]⟩ (some ⟨some [1, 39, 16]⟩)]) none 1 [])
        (-10000 - 10000 + 1000000) 300 10000).map
          (fun p => (p.1, p.2.latestNextUpdate, p.2.expireTime))
      = some (true, 0, 10300) ∧
     (10300 : Int) ≠ -10000) := by
  refine ⟨⟨by decide, by decide, by decide⟩, ⟨by decide, by decide, by decide⟩,
    ⟨by decide, by decide, by decide⟩⟩

/-- C8 (amended): for a response with exactly one entry, whose nextUpdate decodes
to a time t0 above the NULL_TIME sentinel (0 < t0), and every verifyTime for
which the call returns true. With maxAge = t0 - verifyTime - 1 the call sets
expireTime to the double sum verifyTime + maxAge when that maxAge is positive
and below the double difference t0 - verifyTime, and to t0 otherwise. With
maxAge = t0 - verifyTime + 1000000, when that number is a double (as an argument
of the function is), the call sets expireTime = t0. -/
theorem SecOCSPResponseCalculateValidityDouble_single_entry (dec : DateDecoder)
    (r : SecOCSPResponse) (e : SecAsn1OCSPSingleResponse) (nu : SecAsn1Item)
    (maxAge0 defaultTTL : CFTimeInterval) (verifyTime t0 : CFAbsoluteTime)
    (hresp : r.responseData.responses = some [e])
    (hnu : e.nextUpdate = some nu)
    (ht0 : genTimeToCFAbsTime dec nu = t0)
    (hpos : 0 < t0)
    (hvalid : (SecOCSPResponseCalculateValidityDouble dec r maxAge0 defaultTTL verifyTime).map
      Prod.fst = some true) :
    (SecOCSPResponseCalculateValidityDouble dec r (t0 - verifyTime - 1) defaultTTL
        verifyTime).map (fun p => (p.1, p.2.expireTime))
      = some (true,
          if 0 < t0 - verifyTime - 1 ∧
              t0 - verifyTime - 1 < roundToDouble (t0 - verifyTime) then
            roundToDouble (verifyTime + (t0 - verifyTime - 1))
          else t0) ∧
    (roundToDouble (t0 - verifyTime + 1000000) = t0 - verifyTime + 1000000 →
      (SecOCSPResponseCalculateValidityDouble dec r (t0 - verifyTime + 1000000) defaultTTL
          verifyTime).map (fun p => (p.1, p.2.expireTime))
        = some (true, t0)) := by
  by_cases hprod : r.producedAt > roundToDouble (verifyTime + LEEWAY)
  · simp [SecOCSPResponseCalculateValidityDouble, hprod] at hvalid
  · have hprod2 := not_lt.mp hprod
    have hloop : SecOCSPResponseCalculateValidityDouble.loop dec verifyTime [e] NULL_TIME =
        if genTimeToCFAbsTime dec e.thisUpdate > roundToDouble (verifyTime + LEEWAY) then
          (false, NULL_TIME)
        else (true, t0) := by
      rw [SecOCSPResponseCalculateValidityDouble_loop_cons, hnu]
      have hgt : genTimeToCFAbsTime dec nu > NULL_TIME := by rw [ht0]; exact hpos
      simp only [hgt, if_true]
      rw [ht0]
      rfl
    rw [SecOCSPResponseCalculateValidityDouble_eq dec r [e] maxAge0 defaultTTL verifyTime hresp
      hprod2] at hvalid
    rw [SecOCSPResponseCalculateValidityDouble_eq dec r [e] _ defaultTTL verifyTime hresp hprod2,
      SecOCSPResponseCalculateValidityDouble_eq dec r [e] _ defaultTTL verifyTime hresp hprod2]
    by_cases hthis : genTimeToCFAbsTime dec e.thisUpdate > roundToDouble (verifyTime + LEEWAY)
    · rw [hloop, if_pos hthis] at hvalid
      simp at hvalid
    · rw [hloop, if_neg hthis] at hvalid ⊢
      have hne : ¬ t0 = NULL_TIME := by
        intro h0
        rw [h0] at hpos
        exact lt_irrefl (0 : Int) hpos
      have h1 : ¬ (true = false) := by decide
      simp only [h1, if_false, hne] at hvalid ⊢
      by_cases hstale : t0 < roundToDouble (verifyTime - LEEWAY)
      · simp [hstale] at hvalid
      · simp only [hstale, if_false]
        refine ⟨?_, ?_⟩
        · by_cases hc : 0 < t0 - verifyTime - 1 ∧
              t0 - verifyTime - 1 < roundToDouble (t0 - verifyTime)
          · rw [if_pos hc, if_pos hc]
            rfl
          · rw [if_neg hc, if_neg hc]
            rfl
        · intro hdouble
          have hmono : roundToDouble (t0 - verifyTime)
              ≤ roundToDouble (t0 - verifyTime + 1000000) :=
            roundToDouble_mono _ _ (by linarith)
          rw [hdouble] at hmono
          have hc : ¬ (0 < t0 - verifyTime + 1000000 ∧
              t0 - verifyTime + 1000000 < roundToDouble (t0 - verifyTime)) :=
            fun h => absurd h.2 (not_lt.mpr hmono)
          rw [if_neg hc]
          rfl

/-- Witness for C8 (amended): one entry with nextUpdate 2^53 + 4 at verifyTime
2^53; maxAge 3 gives the double sum 2^53 + 4 as expireTime, and maxAge 1000004
gives expireTime 2^53 + 4. -/
theorem SecOCSPResponseCalculateValidityDouble_single_entry_witness :
    (SecOCSPResponseCalculateValidityDouble sampleDecoder
        (sampleResponse 1
          (some [sampleSingle ⟨some [0, 1]⟩ (some ⟨some [0, 32, 0, 0, 0, 0, 0, 4]⟩)]) none 1 [])
        ((2 ^ 53 + 4) - 2 ^ 53 - 1) 300 (2 ^ 53)).map (fun p => (p.1, p.2.expireTime))
      = some (true,
          if (0 : Int) < (2 ^ 53 + 4) - 2 ^ 53 - 1 ∧
              ((2 ^ 53 + 4) - 2 ^ 53 - 1 : Int) < roundToDouble ((2 ^ 53 + 4) - 2 ^ 53) then
            roundToDouble (2 ^ 53 + ((2 ^ 53 + 4) - 2 ^ 53 - 1))
          else 2 ^ 53 + 4) ∧
    (SecOCSPResponseCalculateValidityDouble sampleDecoder
        (sampleResponse 1
          (some [sampleSingle ⟨some [0, 1]⟩ (some ⟨some [0, 32, 0, 0, 0, 0, 0, 4]⟩)]) none 1 [])
        ((2 ^ 53 + 4) - 2 ^ 53 + 1000000) 300 (2 ^ 53)).map (fun p => (p.1, p.2.expireTime))
      = some (true, 2 ^ 53 + 4) :=
  ⟨(SecOCSPResponseCalculateValidityDouble_single_entry sampleDecoder
      (sampleResponse 1
        (some [sampleSingle ⟨some [0, 1]⟩ (some ⟨some [0, 32, 0, 0, 0, 0, 0, 4]⟩)]) none 1 [])
      (sampleSingle ⟨some [0, 1]⟩ (some ⟨some [0, 32, 0, 0, 0, 0, 0, 4]⟩))
      ⟨some [0, 32, 0, 0, 0, 0, 0, 4]⟩
      0 300 (2 ^ 53) (2 ^ 53 + 4) rfl rfl (by decide) (by decide) (by decide)).1,
   (SecOCSPResponseCalculateValidityDouble_single_entry sampleDecoder
      (sampleResponse 1
        (some [sampleSingle ⟨some [0, 1]⟩ (some ⟨some [0, 32, 0, 0, 0, 0, 0, 4]⟩)]) none 1 [])
      (sampleSingle ⟨some [0, 1]⟩ (some ⟨some [0, 32, 0, 0, 0, 0, 0, 4]⟩))
      ⟨some [0, 32, 0, 0, 0, 0, 0, 4]⟩
      0 300 (2 ^ 53) (2 ^ 53 + 4) rfl rfl (by decide) (by decide) (by decide)).2 (by decide)⟩

/-! ## Validity of a single response in double arithmetic -/

end SecOCSP
